import Mathlib

/-!
# Dremio Terraform provider: wire/state conversion helpers and transport client

A shallow embedding of `internal/helpers`, `internal/client`, the provider's
`Configure`, and the `Create` / `Read` / `Update` / `Delete` / `fromResponseToState` /
`parseResourceToRequestBody` methods of the resources and data sources.

Conventions of the embedding
* a Go pointer `*T` is `Option T` (`none` is `nil`);
* a Go slice `[]T` is `GoSlice T = Option (List T)`: `none` is the nil slice,
  `some []` the empty non-nil slice (both have length 0);
* a value of the Terraform plugin framework (`types.String`, `types.Int64`,
  `types.Bool`, `types.List`, `types.Object`) is a `TfValue`: null, unknown or
  known; objects and lists are typed by their schema, so `Object.As` into the
  matching model struct cannot fail on a known object;
* `int64` and `int` are `Int` (no arithmetic is performed on them here);
* `diag.Diagnostics` is the list of error summaries.
-/

namespace Dremio

/-! ## Terraform plugin framework values -/

/-- A framework value: null, unknown, or known with a payload. -/
inductive TfValue (α : Type) where
  | null : TfValue α
  | unknown : TfValue α
  | known (v : α) : TfValue α
deriving DecidableEq, Repr

namespace TfValue

/-- The framework's `IsNull()`. -/
def IsNull {α : Type} : TfValue α → Bool
  | .null => true
  | _ => false

/-- The framework's `IsUnknown()`. -/
def IsUnknown {α : Type} : TfValue α → Bool
  | .unknown => true
  | _ => false

/-- The framework's `ValueString()` / `ValueInt64()` / `ValueBool()`: the payload
of a known value, the zero value otherwise. -/
def valueOr {α : Type} (zero : α) : TfValue α → α
  | .known v => v
  | _ => zero

end TfValue

/-- The framework's `types.StringPointerValue`, `types.BoolPointerValue`,
`types.Int64PointerValue`: null for a nil pointer, the pointee otherwise. -/
def PointerValue {α : Type} : Option α → TfValue α
  | none => .null
  | some v => .known v

/-- The recurring statement
`if p != nil { x = types.XValue(*p) } else { x = types.XNull() }`. -/
def valueOrNull {α : Type} : Option α → TfValue α
  | some v => .known v
  | none => .null

/-- The recurring statement
`if !v.IsNull() && !v.IsUnknown() { x := v.ValueX(); result.F = &x }`
on a field that starts nil; `zero` is the zero value `ValueX()` falls back to. -/
def pointerIfSet {α : Type} (zero : α) (v : TfValue α) : Option α :=
  if !v.IsNull && !v.IsUnknown then some (v.valueOr zero) else none

/-- The recurring statement of `ConvertTableFormatToTerraform`
`if !plan.F.IsNull() { m.F = types.XPointerValue(api.F) } else { m.F = types.XNull() }`. -/
def keepNull {α : Type} (planField : TfValue α) (apiField : Option α) : TfValue α :=
  if !planField.IsNull then PointerValue apiField else .null

abbrev Diagnostics := List String

/-- The `HasError()` of `diag.Diagnostics` (only errors are recorded). -/
def Diagnostics.HasError (d : Diagnostics) : Bool := !d.isEmpty

/-! ## Go slices -/

abbrev GoSlice (α : Type) := Option (List α)

/-- Go's `len` of a slice. -/
def GoSlice.len {α : Type} : GoSlice α → Nat
  | none => 0
  | some xs => xs.length

/-- The elements ranged over by `for _, x := range s`. -/
def GoSlice.elems {α : Type} : GoSlice α → List α
  | none => []
  | some xs => xs

/-- Go's `append(s, x)`. -/
def GoSlice.append {α : Type} (s : GoSlice α) (x : α) : GoSlice α :=
  some (s.elems ++ [x])

/-- The framework's `types.ListValueFrom(ctx, types.StringType, s)` for a `[]string`:
a nil slice gives the null list, any other slice the known list of known strings. -/
def ListValueFromStrings : GoSlice String → TfValue (List (TfValue String))
  | none => .null
  | some xs => .known (xs.map TfValue.known)

/-- Reflection of one list element into a Go `string`: null and unknown
elements are unhandled. -/
def stringElemAs : TfValue String → Except String String
  | .known s => .ok s
  | .null => .error "unhandled null value"
  | .unknown => .error "unhandled unknown value"

/-- Reflection of the elements of a list, one by one: it fails as soon as one
element cannot be reflected. -/
def reflectElems {α β : Type} (f : α → Except String β) : List α → Except String (List β)
  | [] => .ok []
  | x :: xs =>
    match f x with
    | .error e => .error e
    | .ok y =>
      match reflectElems f xs with
      | .error e => .error e
      | .ok ys => .ok (y :: ys)

/-- The framework's `ElementsAs(ctx, &target, false)` of a string list into a
`[]string`: a null list gives the nil slice, an unknown list is an error, a known
list gives a non-nil slice unless an element is null or unknown. -/
def ElementsAsStrings : TfValue (List (TfValue String)) → Except String (GoSlice String)
  | .null => .ok none
  | .unknown => .error "unhandled unknown value"
  | .known xs => (reflectElems stringElemAs xs).map some

/-! ## API models (`internal/models/resources.go`, `responses.go`) -/

structure UserPermission where
  ID : String
  Permissions : GoSlice String
deriving DecidableEq, Repr

structure RolePermission where
  ID : String
  Permissions : GoSlice String
deriving DecidableEq, Repr

structure AccessControlList where
  Users : GoSlice UserPermission
  Roles : GoSlice RolePermission
deriving DecidableEq, Repr

structure MetadataPolicy where
  AuthTTLMs : Option Int
  NamesRefreshMs : Option Int
  DatasetRefreshAfterMs : Option Int
  DatasetExpireAfterMs : Option Int
  DatasetUpdateMode : Option String
  DeleteUnavailableDatasets : Option Bool
  AutoPromoteDatasets : Option Bool
deriving DecidableEq, Repr

structure AccelerationRefreshPolicy where
  ActivePolicyType : Option String
  RefreshPeriodMs : Option Int
  RefreshSchedule : Option String
  GracePeriodMs : Option Int
  Method : Option String
  RefreshField : Option String
  NeverExpire : Option Bool
deriving DecidableEq, Repr

/-! ## Terraform models (`internal/models/terraform_types.go`) -/

structure UserPermissionModel where
  ID : TfValue String
  Permissions : TfValue (List (TfValue String))
deriving DecidableEq, Repr

structure RolePermissionModel where
  ID : TfValue String
  Permissions : TfValue (List (TfValue String))
deriving DecidableEq, Repr

structure AccessControlListModel where
  Users : TfValue (List (TfValue UserPermissionModel))
  Roles : TfValue (List (TfValue RolePermissionModel))
deriving DecidableEq, Repr

structure MetadataPolicyModel where
  AuthTTLMs : TfValue Int
  NamesRefreshMs : TfValue Int
  DatasetRefreshAfterMs : TfValue Int
  DatasetExpireAfterMs : TfValue Int
  DatasetUpdateMode : TfValue String
  DeleteUnavailableDatasets : TfValue Bool
  AutoPromoteDatasets : TfValue Bool
deriving DecidableEq, Repr

structure AccelerationRefreshPolicyModel where
  ActivePolicyType : TfValue String
  RefreshPeriodMs : TfValue Int
  RefreshSchedule : TfValue String
  GracePeriodMs : TfValue Int
  Method : TfValue String
  RefreshField : TfValue String
  NeverExpire : TfValue Bool
deriving DecidableEq, Repr

/-! ## `ConvertACLToTerraform` (`internal/helpers/acl.go`) -/

/-- The loop of `ConvertACLToTerraform` building `userModels`, followed by
`types.ListValueFrom` over the object type: a known list of known objects. -/
def usersToTerraform (us : List UserPermission) : TfValue (List (TfValue UserPermissionModel)) :=
  .known (us.map fun u =>
    .known { ID := .known u.ID, Permissions := ListValueFromStrings u.Permissions })

/-- The loop of `ConvertACLToTerraform` building `roleModels`, followed by
`types.ListValueFrom` over the object type. -/
def rolesToTerraform (rs : List RolePermission) : TfValue (List (TfValue RolePermissionModel)) :=
  .known (rs.map fun r =>
    .known { ID := .known r.ID, Permissions := ListValueFromStrings r.Permissions })

/-- `ConvertACLToTerraform(ctx, apiACL, planACL)`. -/
def ConvertACLToTerraform (apiACL : Option AccessControlList)
    (planACL : TfValue AccessControlListModel) : TfValue AccessControlListModel × Diagnostics :=
  if planACL.IsNull && apiACL.isSome then (.null, [])
  else
    match apiACL with
    | none => (.null, [])
    | some api =>
      if planACL.IsNull then (.null, [])
      else
        let users : TfValue (List (TfValue UserPermissionModel)) :=
          if api.Users.len > 0 then usersToTerraform api.Users.elems else .null
        let roles : TfValue (List (TfValue RolePermissionModel)) :=
          if api.Roles.len > 0 then rolesToTerraform api.Roles.elems else .null
        (.known { Users := users, Roles := roles }, [])

/-! ## `ConvertMetadataPolicyToTerraform` (`internal/helpers/metadata_policy.go`) -/

/-- `ConvertMetadataPolicyToTerraform(ctx, apiPolicy, planPolicy)`. -/
def ConvertMetadataPolicyToTerraform (apiPolicy : Option MetadataPolicy)
    (planPolicy : TfValue MetadataPolicyModel) : TfValue MetadataPolicyModel × Diagnostics :=
  if planPolicy.IsNull && apiPolicy.isSome then (.null, [])
  else
    match apiPolicy with
    | none => (.null, [])
    | some api =>
      (.known
        { AuthTTLMs := valueOrNull api.AuthTTLMs
          NamesRefreshMs := valueOrNull api.NamesRefreshMs
          DatasetRefreshAfterMs := valueOrNull api.DatasetRefreshAfterMs
          DatasetExpireAfterMs := valueOrNull api.DatasetExpireAfterMs
          DatasetUpdateMode := valueOrNull api.DatasetUpdateMode
          DeleteUnavailableDatasets := valueOrNull api.DeleteUnavailableDatasets
          AutoPromoteDatasets := valueOrNull api.AutoPromoteDatasets }, [])

/-! ## `ConvertAccelerationRefreshPolicyToTerraform` (`internal/helpers/acceleration_policy.go`) -/

/-- `ConvertAccelerationRefreshPolicyToTerraform(ctx, apiPolicy, planPolicy)`. -/
def ConvertAccelerationRefreshPolicyToTerraform (apiPolicy : Option AccelerationRefreshPolicy)
    (planPolicy : TfValue AccelerationRefreshPolicyModel) :
    TfValue AccelerationRefreshPolicyModel × Diagnostics :=
  if planPolicy.IsNull && apiPolicy.isSome then (.null, [])
  else
    match apiPolicy with
    | none => (.null, [])
    | some api =>
      (.known
        { ActivePolicyType := valueOrNull api.ActivePolicyType
          RefreshPeriodMs := valueOrNull api.RefreshPeriodMs
          RefreshSchedule := valueOrNull api.RefreshSchedule
          GracePeriodMs := valueOrNull api.GracePeriodMs
          Method := valueOrNull api.Method
          RefreshField := valueOrNull api.RefreshField
          NeverExpire := valueOrNull api.NeverExpire }, [])

/-! ## The `...FromTerraform` helpers of `acl.go`, `metadata_policy.go` and
`acceleration_policy.go` -/

/-- Reflection of one list element into the struct `UserPermissionModel`: a null
or unknown object element is unhandled. -/
def userModelElemAs : TfValue UserPermissionModel → Except String UserPermissionModel
  | .known u => .ok u
  | .null => .error "unhandled null value"
  | .unknown => .error "unhandled unknown value"

/-- Reflection of one list element into the struct `RolePermissionModel`. -/
def roleModelElemAs : TfValue RolePermissionModel → Except String RolePermissionModel
  | .known r => .ok r
  | .null => .error "unhandled null value"
  | .unknown => .error "unhandled unknown value"

/-- The call `acl.Users.ElementsAs(ctx, &users, false)`. -/
def ElementsAsUsers :
    TfValue (List (TfValue UserPermissionModel)) → Except String (GoSlice UserPermissionModel)
  | .null => .ok none
  | .unknown => .error "unhandled unknown value"
  | .known xs => (reflectElems userModelElemAs xs).map some

/-- The call `acl.Roles.ElementsAs(ctx, &roles, false)`. -/
def ElementsAsRoles :
    TfValue (List (TfValue RolePermissionModel)) → Except String (GoSlice RolePermissionModel)
  | .null => .ok none
  | .unknown => .error "unhandled unknown value"
  | .known xs => (reflectElems roleModelElemAs xs).map some

/-- The loop `for _, user := range users` of `ConvertACLFromTerraform`, appending
to `result.Users`; an error stops the conversion. -/
def appendUsers : List UserPermissionModel → GoSlice UserPermission →
    Except String (GoSlice UserPermission)
  | [], acc => .ok acc
  | user :: rest, acc =>
    match ElementsAsStrings user.Permissions with
    | .error e => .error e
    | .ok permissions =>
      appendUsers rest (acc.append { ID := user.ID.valueOr "", Permissions := permissions })

/-- The loop `for _, role := range roles` of `ConvertACLFromTerraform`. -/
def appendRoles : List RolePermissionModel → GoSlice RolePermission →
    Except String (GoSlice RolePermission)
  | [], acc => .ok acc
  | role :: rest, acc =>
    match ElementsAsStrings role.Permissions with
    | .error e => .error e
    | .ok permissions =>
      appendRoles rest (acc.append { ID := role.ID.valueOr "", Permissions := permissions })

/-- The block `// Handle Users` of `ConvertACLFromTerraform`. -/
def handleUsers (acl : AccessControlListModel) : Except String (GoSlice UserPermission) :=
  if !acl.Users.IsNull && !acl.Users.IsUnknown then
    match ElementsAsUsers acl.Users with
    | .error e => .error e
    | .ok users => appendUsers users.elems none
  else .ok none

/-- The block `// Handle Roles` of `ConvertACLFromTerraform`. -/
def handleRoles (acl : AccessControlListModel) : Except String (GoSlice RolePermission) :=
  if !acl.Roles.IsNull && !acl.Roles.IsUnknown then
    match ElementsAsRoles acl.Roles with
    | .error e => .error e
    | .ok roles => appendRoles roles.elems none
  else .ok none

/-- `ConvertACLFromTerraform(ctx, aclObj)`. -/
def ConvertACLFromTerraform (aclObj : TfValue AccessControlListModel) :
    Option AccessControlList × Diagnostics :=
  match aclObj with
  | .null => (none, [])
  | .unknown => (none, [])
  | .known acl =>
    match handleUsers acl with
    | .error e => (none, [e])
    | .ok users =>
      match handleRoles acl with
      | .error e => (none, [e])
      | .ok roles => (some { Users := users, Roles := roles }, [])

/-- `ConvertMetadataPolicyFromTerraform(ctx, policyObj)`. -/
def ConvertMetadataPolicyFromTerraform (policyObj : TfValue MetadataPolicyModel) :
    Option MetadataPolicy × Diagnostics :=
  match policyObj with
  | .null => (none, [])
  | .unknown => (none, [])
  | .known policyModel =>
    (some
      { AuthTTLMs := pointerIfSet 0 policyModel.AuthTTLMs
        NamesRefreshMs := pointerIfSet 0 policyModel.NamesRefreshMs
        DatasetRefreshAfterMs := pointerIfSet 0 policyModel.DatasetRefreshAfterMs
        DatasetExpireAfterMs := pointerIfSet 0 policyModel.DatasetExpireAfterMs
        DatasetUpdateMode := pointerIfSet "" policyModel.DatasetUpdateMode
        DeleteUnavailableDatasets := pointerIfSet false policyModel.DeleteUnavailableDatasets
        AutoPromoteDatasets := pointerIfSet false policyModel.AutoPromoteDatasets }, [])

/-- `ConvertAccelerationRefreshPolicyFromTerraform(ctx, policyObj)`. -/
def ConvertAccelerationRefreshPolicyFromTerraform
    (policyObj : TfValue AccelerationRefreshPolicyModel) :
    Option AccelerationRefreshPolicy × Diagnostics :=
  match policyObj with
  | .null => (none, [])
  | .unknown => (none, [])
  | .known policyModel =>
    (some
      { ActivePolicyType := pointerIfSet "" policyModel.ActivePolicyType
        RefreshPeriodMs := pointerIfSet 0 policyModel.RefreshPeriodMs
        RefreshSchedule := pointerIfSet "" policyModel.RefreshSchedule
        GracePeriodMs := pointerIfSet 0 policyModel.GracePeriodMs
        Method := pointerIfSet "" policyModel.Method
        RefreshField := pointerIfSet "" policyModel.RefreshField
        NeverExpire := pointerIfSet false policyModel.NeverExpire }, [])

/-! ## `internal/helpers/table_format.go` -/

/-- The Go field `Type` is written `Type_` (a reserved word here). -/
structure TableFormatRequest where
  Type_ : String
  IgnoreOtherFileFormats : Option Bool
  SkipFirstLine : Option Bool
  ExtractHeader : Option Bool
  HasMergedCells : Option Bool
  SheetName : Option String
  FieldDelimiter : Option String
  Quote : Option String
  Comment : Option String
  Escape : Option String
  LineDelimiter : Option String
  AutoGenerateColumnNames : Option Bool
  TrimHeader : Option Bool
deriving DecidableEq, Repr

structure TableFormatResponse where
  Type_ : String
  Name : Option String
  FullPath : GoSlice String
  Ctime : Option Int
  IsFolder : Option Bool
  Location : Option String
  IgnoreOtherFileFormats : Option Bool
  SkipFirstLine : Option Bool
  ExtractHeader : Option Bool
  HasMergedCells : Option Bool
  SheetName : Option String
  FieldDelimiter : Option String
  Quote : Option String
  Comment : Option String
  Escape : Option String
  LineDelimiter : Option String
  AutoGenerateColumnNames : Option Bool
  TrimHeader : Option Bool
  AutoCorrectCorruptDates : Option Bool
deriving DecidableEq, Repr

structure TableFormatModel where
  Type_ : TfValue String
  IgnoreOtherFileFormats : TfValue Bool
  SkipFirstLine : TfValue Bool
  ExtractHeader : TfValue Bool
  HasMergedCells : TfValue Bool
  SheetName : TfValue String
  FieldDelimiter : TfValue String
  Quote : TfValue String
  Comment : TfValue String
  Escape : TfValue String
  LineDelimiter : TfValue String
  AutoGenerateColumnNames : TfValue Bool
  TrimHeader : TfValue Bool
deriving DecidableEq, Repr

/-- `ConvertTableFormatToTerraform(ctx, apiFormat, planFormat)`. -/
def ConvertTableFormatToTerraform (apiFormat : Option TableFormatResponse)
    (planFormat : TfValue TableFormatModel) : TfValue TableFormatModel × Diagnostics :=
  if planFormat.IsNull && apiFormat.isSome then (.null, [])
  else
    match apiFormat with
    | none => (.null, [])
    | some api =>
      match planFormat with
      | .unknown =>
        (.known
          { Type_ := .known api.Type_
            IgnoreOtherFileFormats := PointerValue api.IgnoreOtherFileFormats
            SkipFirstLine := PointerValue api.SkipFirstLine
            ExtractHeader := PointerValue api.ExtractHeader
            HasMergedCells := PointerValue api.HasMergedCells
            SheetName := PointerValue api.SheetName
            FieldDelimiter := PointerValue api.FieldDelimiter
            Quote := PointerValue api.Quote
            Comment := PointerValue api.Comment
            Escape := PointerValue api.Escape
            LineDelimiter := PointerValue api.LineDelimiter
            AutoGenerateColumnNames := PointerValue api.AutoGenerateColumnNames
            TrimHeader := PointerValue api.TrimHeader }, [])
      | .null => (.null, ["Value Conversion Error"])
      | .known planFormatModel =>
        (.known
          { Type_ := .known api.Type_
            IgnoreOtherFileFormats := keepNull planFormatModel.IgnoreOtherFileFormats api.IgnoreOtherFileFormats
            SkipFirstLine := keepNull planFormatModel.SkipFirstLine api.SkipFirstLine
            ExtractHeader := keepNull planFormatModel.ExtractHeader api.ExtractHeader
            HasMergedCells := keepNull planFormatModel.HasMergedCells api.HasMergedCells
            SheetName := keepNull planFormatModel.SheetName api.SheetName
            FieldDelimiter := keepNull planFormatModel.FieldDelimiter api.FieldDelimiter
            Quote := keepNull planFormatModel.Quote api.Quote
            Comment := keepNull planFormatModel.Comment api.Comment
            Escape := keepNull planFormatModel.Escape api.Escape
            LineDelimiter := keepNull planFormatModel.LineDelimiter api.LineDelimiter
            AutoGenerateColumnNames := keepNull planFormatModel.AutoGenerateColumnNames api.AutoGenerateColumnNames
            TrimHeader := keepNull planFormatModel.TrimHeader api.TrimHeader }, [])

/-- `ConvertTableFormatFromTerraform(ctx, formatObj)`. -/
def ConvertTableFormatFromTerraform (formatObj : TfValue TableFormatModel) :
    Option TableFormatRequest × Diagnostics :=
  match formatObj with
  | .null => (none, [])
  | .unknown => (none, [])
  | .known formatModel =>
    (some
      { Type_ := formatModel.Type_.valueOr ""
        IgnoreOtherFileFormats := pointerIfSet false formatModel.IgnoreOtherFileFormats
        SkipFirstLine := pointerIfSet false formatModel.SkipFirstLine
        ExtractHeader := pointerIfSet false formatModel.ExtractHeader
        HasMergedCells := pointerIfSet false formatModel.HasMergedCells
        AutoGenerateColumnNames := pointerIfSet false formatModel.AutoGenerateColumnNames
        TrimHeader := pointerIfSet false formatModel.TrimHeader
        SheetName := pointerIfSet "" formatModel.SheetName
        FieldDelimiter := pointerIfSet "" formatModel.FieldDelimiter
        Quote := pointerIfSet "" formatModel.Quote
        Comment := pointerIfSet "" formatModel.Comment
        Escape := pointerIfSet "" formatModel.Escape
        LineDelimiter := pointerIfSet "" formatModel.LineDelimiter }, [])

/-- The server echoing a format request unaltered: the thirteen writable fields
as sent, with the read-only fields of the response taken from `ro`. -/
def echoTableFormat (req : TableFormatRequest) (ro : TableFormatResponse) : TableFormatResponse :=
  { ro with
    Type_ := req.Type_
    IgnoreOtherFileFormats := req.IgnoreOtherFileFormats
    SkipFirstLine := req.SkipFirstLine
    ExtractHeader := req.ExtractHeader
    HasMergedCells := req.HasMergedCells
    SheetName := req.SheetName
    FieldDelimiter := req.FieldDelimiter
    Quote := req.Quote
    Comment := req.Comment
    Escape := req.Escape
    LineDelimiter := req.LineDelimiter
    AutoGenerateColumnNames := req.AutoGenerateColumnNames
    TrimHeader := req.TrimHeader }

/-! ## The source resource (`internal/resources/dremio_source.go`) -/

/-- A JSON object as its list of members (key, raw value text); stands for
`map[string]interface{}`. -/
abbrev JsonObject := List (String × String)

/-- `models.SourceResponse`; the fields `Config`, `Children` and `Owner`, which
`fromResponseToState` never reads, are left out. -/
structure SourceResponse where
  ID : Option String
  Tag : Option String
  Type_ : Option String
  Name : Option String
  MetadataPolicy : Option MetadataPolicy
  AccelerationGracePeriodMs : Option Int
  AccelerationRefreshPeriodMs : Option Int
  AccelerationNeverExpire : Option Bool
  AccelerationNeverRefresh : Option Bool
  AccelerationActivePolicyType : Option String
  AccelerationRefreshSchedule : Option String
  AccessControlList : Option AccessControlList
  Permissions : GoSlice String
deriving DecidableEq, Repr

/-- `models.SourceRequest`; a nil `Config` map is `none`. -/
structure SourceRequest where
  EntityType : String
  Type_ : String
  Name : String
  Config : Option JsonObject
  MetadataPolicy : Option MetadataPolicy
  AccelerationGracePeriodMs : Int
  AccelerationRefreshPeriodMs : Int
  AccelerationActivePolicyType : String
  AccelerationRefreshSchedule : String
  AccelerationRefreshOnDataChanges : Bool
  AccessControlList : Option AccessControlList
  Tag : String
  ID : String
deriving DecidableEq, Repr

/-- `models.DremioSourceModel`; `Config` (a `jsontypes.Normalized`) carries its
JSON text. -/
structure DremioSourceModel where
  ID : TfValue String
  EntityType : TfValue String
  Type_ : TfValue String
  Name : TfValue String
  Config : TfValue String
  MetadataPolicy : TfValue MetadataPolicyModel
  AccelerationGracePeriodMs : TfValue Int
  AccelerationRefreshPeriodMs : TfValue Int
  AccelerationActivePolicyType : TfValue String
  AccelerationRefreshSchedule : TfValue String
  AccelerationRefreshOnDataChanges : TfValue Bool
  AccessControlList : TfValue AccessControlListModel
  Tag : TfValue String
deriving DecidableEq, Repr

/-- The members `encoding/json` emits for a `SourceRequest`, by its struct tags:
the four untagged-optional members always, every `omitempty` member only when it
is not the zero value (nil pointer, 0, empty string, false). -/
def SourceRequest.jsonKeys (r : SourceRequest) : List String :=
  ["entityType", "type", "name", "config"]
    ++ (if r.MetadataPolicy.isSome then ["metadataPolicy"] else [])
    ++ (if r.AccelerationGracePeriodMs ≠ 0 then ["accelerationGracePeriodMs"] else [])
    ++ (if r.AccelerationRefreshPeriodMs ≠ 0 then ["accelerationRefreshPeriodMs"] else [])
    ++ (if r.AccelerationActivePolicyType ≠ "" then ["accelerationActivePolicyType"] else [])
    ++ (if r.AccelerationRefreshSchedule ≠ "" then ["accelerationRefreshSchedule"] else [])
    ++ (if r.AccelerationRefreshOnDataChanges then ["accelerationRefreshOnDataChanges"] else [])
    ++ (if r.AccessControlList.isSome then ["accessControlList"] else [])
    ++ (if r.Tag ≠ "" then ["tag"] else [])
    ++ (if r.ID ≠ "" then ["id"] else [])

/-- The three JSON steps `parseResourceToRequestBody` applies to the `config`
attribute, each of which may fail: `parseConfigByType` (strict decoding into the
struct of the source type), `json.Marshal` of the typed config, `json.Unmarshal`
into a map. They are parameters of the embedding. -/
structure ConfigCodec where
  parseConfigByType : String → String → Except String String
  marshal : String → Except String String
  unmarshalMap : String → Except String JsonObject

/-- The method `(r *dremioSource) fromResponseToState`. The result is `none` when the Go code
dereferences a nil `Type`, `Name` or `Tag` pointer; otherwise the updated model
and the diagnostics added. -/
def dremioSource.fromResponseToState (sourceResp : SourceResponse) (state : DremioSourceModel) :
    Option (DremioSourceModel × Diagnostics) :=
  match sourceResp.ID with
  | none => some (state, ["Invalid API Response"])
  | some id =>
    match sourceResp.Type_, sourceResp.Name, sourceResp.Tag with
    | some ty, some name, some tag =>
      let metadataPolicy : TfValue MetadataPolicyModel :=
        if state.MetadataPolicy.IsNull && sourceResp.MetadataPolicy.isSome then
          state.MetadataPolicy
        else
          match sourceResp.MetadataPolicy with
          | none => .null
          | some mp =>
            if !state.MetadataPolicy.IsNull then
              .known
                { AuthTTLMs := valueOrNull mp.AuthTTLMs
                  NamesRefreshMs := valueOrNull mp.NamesRefreshMs
                  DatasetRefreshAfterMs := valueOrNull mp.DatasetRefreshAfterMs
                  DatasetExpireAfterMs := valueOrNull mp.DatasetExpireAfterMs
                  DatasetUpdateMode := valueOrNull mp.DatasetUpdateMode
                  DeleteUnavailableDatasets := valueOrNull mp.DeleteUnavailableDatasets
                  AutoPromoteDatasets := valueOrNull mp.AutoPromoteDatasets }
            else state.MetadataPolicy
      let acl := ConvertACLToTerraform sourceResp.AccessControlList state.AccessControlList
      some
        ({ state with
            ID := .known id
            EntityType := .known "source"
            Type_ := .known ty
            Name := .known name
            Tag := .known tag
            AccelerationGracePeriodMs := valueOrNull sourceResp.AccelerationGracePeriodMs
            AccelerationRefreshPeriodMs := valueOrNull sourceResp.AccelerationRefreshPeriodMs
            AccelerationActivePolicyType := valueOrNull sourceResp.AccelerationActivePolicyType
            AccelerationRefreshSchedule := valueOrNull sourceResp.AccelerationRefreshSchedule
            MetadataPolicy := metadataPolicy
            AccessControlList := acl.1 }, acl.2)
    | _, _, _ => none

/-- The block `// Parse config JSON string based on source type` of
`parseResourceToRequestBody`: the config map of the request, or the summary of
the diagnostic that aborts the conversion. -/
def parseConfigBlock (codec : ConfigCodec) (data : DremioSourceModel) :
    Except String (Option JsonObject) :=
  if !data.Config.IsNull && !data.Config.IsUnknown then
    match codec.parseConfigByType (data.Type_.valueOr "") (data.Config.valueOr "") with
    | .error _ => .error "Invalid Config"
    | .ok configInterface =>
      match codec.marshal configInterface with
      | .error _ => .error "Config Marshal Error"
      | .ok configBytes =>
        match codec.unmarshalMap configBytes with
        | .error _ => .error "Config Unmarshal Error"
        | .ok configMap => .ok (some configMap)
  else .ok none

/-- The block `// Handle MetadataPolicy` of `parseResourceToRequestBody`. -/
def parseMetadataPolicyBlock (data : DremioSourceModel) : Option MetadataPolicy :=
  if !data.MetadataPolicy.IsNull && !data.MetadataPolicy.IsUnknown then
    match data.MetadataPolicy with
    | .known metadataPolicy =>
      some
        { AuthTTLMs := pointerIfSet 0 metadataPolicy.AuthTTLMs
          NamesRefreshMs := pointerIfSet 0 metadataPolicy.NamesRefreshMs
          DatasetRefreshAfterMs := pointerIfSet 0 metadataPolicy.DatasetRefreshAfterMs
          DatasetExpireAfterMs := pointerIfSet 0 metadataPolicy.DatasetExpireAfterMs
          DatasetUpdateMode := pointerIfSet "" metadataPolicy.DatasetUpdateMode
          DeleteUnavailableDatasets := pointerIfSet false metadataPolicy.DeleteUnavailableDatasets
          AutoPromoteDatasets := pointerIfSet false metadataPolicy.AutoPromoteDatasets }
    | _ => none
  else none

/-- The method `(r *dremioSource) parseResourceToRequestBody`: the request body (`none` for the
nil return) and the diagnostics added. -/
def dremioSource.parseResourceToRequestBody (codec : ConfigCodec) (data : DremioSourceModel) :
    Option SourceRequest × Diagnostics :=
  match parseConfigBlock codec data with
  | .error e => (none, [e])
  | .ok config =>
    let acl := ConvertACLFromTerraform data.AccessControlList
    if acl.2.HasError then (none, acl.2)
    else
      (some
        { EntityType := "source"
          Type_ := data.Type_.valueOr ""
          Name := data.Name.valueOr ""
          Config := config
          AccelerationGracePeriodMs :=
            if !data.AccelerationGracePeriodMs.IsNull
              && !data.AccelerationGracePeriodMs.IsUnknown
            then data.AccelerationGracePeriodMs.valueOr 0 else 0
          AccelerationRefreshPeriodMs :=
            if !data.AccelerationRefreshPeriodMs.IsNull
              && !data.AccelerationRefreshPeriodMs.IsUnknown
            then data.AccelerationRefreshPeriodMs.valueOr 0 else 0
          AccelerationActivePolicyType :=
            if !data.AccelerationActivePolicyType.IsNull
              && !data.AccelerationActivePolicyType.IsUnknown
            then data.AccelerationActivePolicyType.valueOr "" else ""
          AccelerationRefreshSchedule :=
            if !data.AccelerationRefreshSchedule.IsNull
              && !data.AccelerationRefreshSchedule.IsUnknown
            then data.AccelerationRefreshSchedule.valueOr "" else ""
          AccelerationRefreshOnDataChanges :=
            if !data.AccelerationRefreshOnDataChanges.IsNull
              && !data.AccelerationRefreshOnDataChanges.IsUnknown
            then data.AccelerationRefreshOnDataChanges.valueOr false else false
          MetadataPolicy := parseMetadataPolicyBlock data
          AccessControlList := acl.1
          Tag := ""
          ID := "" }, [])

/-! ## The table resource (`internal/resources/dremio_table.go`) -/

/-- `models.TableResponse`; `Owner` and `Fields`, which `fromResponseToState`
never reads, are left out. -/
structure TableResponse where
  ID : String
  Type_ : String
  Path : GoSlice String
  CreatedAt : String
  Tag : String
  AccelerationRefreshPolicy : Option AccelerationRefreshPolicy
  Format : Option TableFormatResponse
  AccessControlList : Option AccessControlList
  ApproximateStatisticsAllowed : Bool
deriving DecidableEq, Repr

structure DremioTableModel where
  ID : TfValue String
  EntityType : TfValue String
  Type_ : TfValue String
  Path : TfValue (List (TfValue String))
  FileOrFolderID : TfValue String
  AccelerationRefreshPolicy : TfValue AccelerationRefreshPolicyModel
  Format : TfValue TableFormatModel
  AccessControlList : TfValue AccessControlListModel
  Tag : TfValue String
deriving DecidableEq, Repr

/-- The method `(r *dremioTable) fromResponseToState`: the updated model and the diagnostics
added. -/
def dremioTable.fromResponseToState (tableResp : TableResponse) (state : DremioTableModel) :
    DremioTableModel × Diagnostics :=
  let path : TfValue (List (TfValue String)) :=
    if tableResp.Path.len = 0 then .null else ListValueFromStrings tableResp.Path
  let arp := ConvertAccelerationRefreshPolicyToTerraform tableResp.AccelerationRefreshPolicy
    state.AccelerationRefreshPolicy
  let format := ConvertTableFormatToTerraform tableResp.Format state.Format
  let acl := ConvertACLToTerraform tableResp.AccessControlList state.AccessControlList
  ({ state with
      ID := .known tableResp.ID
      EntityType := .known "dataset"
      Type_ := .known tableResp.Type_
      Tag := .known tableResp.Tag
      Path := path
      AccelerationRefreshPolicy := arp.1
      Format := format.1
      AccessControlList := acl.1 }, arp.2 ++ format.2 ++ acl.2)

/-! ## The transport client (`internal/client/apiClient.go`) -/

/-- The struct `Client` without its `HTTPClient`, whose behaviour is the `HttpEnv` below. -/
structure Client where
  HostURL : String
  PersonalAccessToken : String
  Type_ : String
  ProjectId : String
deriving DecidableEq, Repr

structure HttpRequest where
  method : String
  url : String
  body : Option String
  headers : List (String × String)
deriving DecidableEq, Repr

/-- An `http.Response`: its status code and the text still to be read from its
body (a body read to its end, or closed, has the empty text left). -/
structure HttpResponse where
  StatusCode : Int
  Body : String
deriving DecidableEq, Repr

/-- What `RequestToDremio` calls outside this repository: `http.NewRequest`
(which may reject the method or the URL) and `HTTPClient.Do` (which may fail
without a response). -/
structure HttpEnv where
  newRequestError : String → String → Option String
  doRequest : HttpRequest → Except String HttpResponse

/-- The URL computed at the top of `RequestToDremio`; `isGlobalEndpoint` is the
variadic argument, so it may be empty. -/
def requestURL (c : Client) (path : String) (isGlobalEndpoint : List Bool) : String :=
  let url := c.HostURL ++ "/api/v3" ++ path
  if c.Type_ = "cloud" then
    if isGlobalEndpoint.length > 0 && isGlobalEndpoint.headD false then
      c.HostURL ++ "/v0" ++ path
    else
      c.HostURL ++ "/v0/projects/" ++ c.ProjectId ++ path
  else url

/-- The part of `RequestToDremio` up to the `http.Request` handed to
`HTTPClient.Do`: URL, JSON body (for a non-nil `body`), `http.NewRequest`, and
the two headers. -/
def prepareRequest {β : Type} (env : HttpEnv) (marshal : β → Except String String) (c : Client)
    (method path : String) (body : Option β) (isGlobalEndpoint : List Bool) :
    Except String HttpRequest :=
  let url := requestURL c path isGlobalEndpoint
  let reqBody : Except String (Option String) :=
    match body with
    | none => .ok none
    | some b =>
      match marshal b with
      | .error err => .error err
      | .ok jsonData => .ok (some jsonData)
  match reqBody with
  | .error err => .error err
  | .ok reqBody =>
    match env.newRequestError method url with
    | some err => .error err
    | none =>
      .ok
        { method := method
          url := url
          body := reqBody
          headers :=
            [("Authorization", "Bearer " ++ c.PersonalAccessToken),
             ("Content-Type", "application/json")] }

/-- The check `// Check for non-2xx status codes` of `RequestToDremio`, on the
response received: the Go pair `(*http.Response, error)`. On a non-2xx status the
body is read to its end with `io.ReadAll` and closed before the response is
returned, so the returned response has nothing left to read. -/
def checkStatus (resp : HttpResponse) : Option HttpResponse × Option String :=
  if resp.StatusCode < 200 ∨ resp.StatusCode ≥ 300 then
    (some { resp with Body := "" },
      some ("API request failed with status " ++ toString resp.StatusCode ++ ": " ++ resp.Body))
  else (some resp, none)

/-- The method `(c *Client) RequestToDremio`, as the Go pair `(*http.Response, error)`. -/
def RequestToDremio {β : Type} (env : HttpEnv) (marshal : β → Except String String) (c : Client)
    (method path : String) (body : Option β) (isGlobalEndpoint : List Bool) :
    Option HttpResponse × Option String :=
  match prepareRequest env marshal c method path body isGlobalEndpoint with
  | .error err => (none, some err)
  | .ok req =>
    match env.doRequest req with
    | .error err => (none, some err)
    | .ok resp => checkStatus resp

/-! ## `Read` of the resources: classification of a failed GET -/

/-- Go's `strings.HasPrefix`, on the characters of the two strings. -/
def hasLeading : List Char → List Char → Bool
  | _, [] => true
  | [], _ :: _ => false
  | c :: cs, d :: ds => c == d && hasLeading cs ds

/-- Whether `sub` occurs in `s` at some position. -/
def containsChars : List Char → List Char → Bool
  | [], sub => hasLeading [] sub
  | c :: cs, sub => hasLeading (c :: cs) sub || containsChars cs sub

/-- Go's `strings.Contains(s, substr)`. -/
def stringsContains (s substr : String) : Bool :=
  containsChars s.toList substr.toList

/-- What a resource's `Read` does with the result of its GET. -/
inductive ReadOutcome where
  | removedFromState : ReadOutcome
  | clientError (detail : String) : ReadOutcome
  | proceed (resp : Option HttpResponse) : ReadOutcome
deriving DecidableEq, Repr

/-- The `if err != nil` block that follows the GET in the `Read` of the source,
folder, table, UDF, view, dataset-tags, dataset-wiki, grants and data-maintenance
resources. The nine copies differ only in the request path and in the wording
`unable` of the error detail (such as "Unable to read source, got error: "). -/
def readClassify (unable : String) (result : Option HttpResponse × Option String) :
    ReadOutcome :=
  match result.2 with
  | some err =>
    if stringsContains err "status 404" then .removedFromState
    else .clientError (unable ++ err)
  | none => .proceed result.1

/-! ## `Read` of the resources (`internal/resources/*.go`) -/

/-- JSON encoding for a request without a body: there is nothing to encode. -/
def noBody : Empty → Except String String := fun b => nomatch b

/-- The call `r.client.RequestToDremio("GET", path, nil)`. -/
def readGet (env : HttpEnv) (c : Client) (path : String) : Option HttpResponse × Option String :=
  RequestToDremio env noBody c "GET" path none []

/-- The GET and its error handling in `(r *dremioSource) Read`. -/
def dremioSource.Read (env : HttpEnv) (c : Client) (id : String) : ReadOutcome :=
  readClassify "Unable to read source, got error: " (readGet env c ("/catalog/" ++ id))

/-- The GET and its error handling in `(r *dremioFolder) Read` (its error detail
says "source" too). -/
def dremioFolder.Read (env : HttpEnv) (c : Client) (id : String) : ReadOutcome :=
  readClassify "Unable to read source, got error: " (readGet env c ("/catalog/" ++ id))

/-- The GET and its error handling in `(r *dremioTable) Read`. -/
def dremioTable.Read (env : HttpEnv) (c : Client) (id : String) : ReadOutcome :=
  readClassify "Unable to read table, got error: " (readGet env c ("/catalog/" ++ id))

/-- The GET and its error handling in `(r *dremioUDF) Read`. -/
def dremioUDF.Read (env : HttpEnv) (c : Client) (id : String) : ReadOutcome :=
  readClassify "Unable to read UDF, got error: " (readGet env c ("/catalog/" ++ id))

/-- The GET and its error handling in `(r *dremioView) Read`. -/
def dremioView.Read (env : HttpEnv) (c : Client) (id : String) : ReadOutcome :=
  readClassify "Unable to read view, got error: " (readGet env c ("/catalog/" ++ id))

/-- The GET and its error handling in `(r *dremioDatasetTags) Read`. -/
def dremioDatasetTags.Read (env : HttpEnv) (c : Client) (datasetID : String) : ReadOutcome :=
  readClassify "Unable to read dataset tags, got error: "
    (readGet env c ("/catalog/" ++ datasetID ++ "/collaboration/tag"))

/-- The GET and its error handling in `(r *dremioDatasetWiki) Read`. -/
def dremioDatasetWiki.Read (env : HttpEnv) (c : Client) (datasetID : String) : ReadOutcome :=
  readClassify "Unable to read dataset wiki, got error: "
    (readGet env c ("/catalog/" ++ datasetID ++ "/collaboration/wiki"))

/-- The GET and its error handling in `(r *dremioGrants) Read`. -/
def dremioGrants.Read (env : HttpEnv) (c : Client) (catalogObjectID : String) : ReadOutcome :=
  readClassify "Unable to read grants, got error: "
    (readGet env c ("/catalog/" ++ catalogObjectID ++ "/grants"))

/-- The GET and its error handling in `(r *dremioDataMaintenance) Read`. -/
def dremioDataMaintenance.Read (env : HttpEnv) (c : Client) (id : String) : ReadOutcome :=
  readClassify "Unable to read data maintenance task, got error: "
    (readGet env c ("/maintenance/tasks/" ++ id))

/-- The GET and its error handling in `(r *dremioEngineRuleSet) Read`: every
error of the GET becomes a `Client Error` diagnostic. -/
def dremioEngineRuleSet.Read (env : HttpEnv) (c : Client) : ReadOutcome :=
  match (readGet env c "/rules").2 with
  | some err => .clientError ("Unable to read engine rules, got error: " ++ err)
  | none => .proceed (readGet env c "/rules").1

/-- The `resource.ReadResponse` of the framework: the state it will hand back
(`none` once `State.RemoveResource` has been called) and its error diagnostics. -/
structure ReadResponse (σ : Type) where
  State : Option σ
  Diagnostics : Diagnostics

/-- The method `(r *dremioEngine) readEngineState` called with a `*resource.ReadResponse`.
`refresh` stands for `json.Unmarshal` of the body followed by the engine's
`fromResponseToState`. The result is `none` when the Go code dereferences a nil
response; otherwise the model and the response after the call. -/
def dremioEngine.readEngineState {σ : Type} (env : HttpEnv) (c : Client)
    (refresh : String → Except String (σ → σ)) (state : σ) (id : String)
    (resp : ReadResponse σ) : Option (σ × ReadResponse σ) :=
  match readGet env c ("/engines/" ++ id) with
  | (none, some _) => none
  | (some api_resp, some err) =>
    if api_resp.StatusCode = 404 ∨ api_resp.StatusCode = 400 then
      some (state, { resp with State := none })
    else
      some (state, { resp with
        Diagnostics := resp.Diagnostics ++ ["Unable to read engine, got error: " ++ err] })
  | (none, none) => none
  | (some api_resp, none) =>
    match refresh api_resp.Body with
    | .error e =>
      some (state, { resp with
        Diagnostics := resp.Diagnostics ++ ["Unable to parse response: " ++ e] })
    | .ok update => some (update state, resp)

/-- The method `(r *dremioEngine) Read`, from the state read out of the request: after
`readEngineState` it returns on an error diagnostic and otherwise calls
`resp.State.Set(ctx, &state)`. -/
def dremioEngine.Read {σ : Type} (env : HttpEnv) (c : Client)
    (refresh : String → Except String (σ → σ)) (state : σ) (id : String) :
    Option (ReadResponse σ) :=
  match dremioEngine.readEngineState env c refresh state id
      { State := some state, Diagnostics := [] } with
  | none => none
  | some (state, resp) =>
    if resp.Diagnostics.HasError then some resp
    else some { resp with State := some state }

/-- The GET of `path` gets through to the server and is answered with status `s`
and body `b`. -/
def getAnswered (env : HttpEnv) (c : Client) (path : String) (s : Int) (b : String) : Prop :=
  ∃ req, prepareRequest env noBody c "GET" path none [] = .ok req ∧
    env.doRequest req = .ok { StatusCode := s, Body := b }

/-! ## `Update` of the catalog resources: the PUT request -/

/-- One call `RequestToDremio(method, path, body)` made by a resource. -/
structure ApiCall (β : Type) where
  method : String
  path : String
  body : Option β
deriving DecidableEq, Repr

structure TableRequest where
  SourceOrFolderID : String
  EntityType : String
  Path : GoSlice String
  Type_ : String
  Tag : String
  AccelerationRefreshPolicy : Option AccelerationRefreshPolicy
  Format : Option TableFormatRequest
  AccessControlList : Option AccessControlList
deriving DecidableEq, Repr

structure FolderUpdateRequest where
  EntityType : String
  ID : String
  Path : GoSlice String
  Tag : String
  AccessControlList : Option AccessControlList
deriving DecidableEq, Repr

structure UDFRequest where
  EntityType : String
  Path : GoSlice String
  IsScalar : Bool
  FunctionArgList : String
  FunctionBody : String
  ReturnType : String
  AccessControlList : Option AccessControlList
  Tag : String
  ID : String
deriving DecidableEq, Repr

structure ViewRequest where
  EntityType : String
  Path : GoSlice String
  SQL : String
  Type_ : String
  SQLContext : GoSlice String
  AccessControlList : Option AccessControlList
  ID : String
  Tag : String
deriving DecidableEq, Repr

structure DremioFolderModel where
  ID : TfValue String
  EntityType : TfValue String
  Path : TfValue (List (TfValue String))
  AccessControlList : TfValue AccessControlListModel
  Tag : TfValue String
deriving DecidableEq, Repr

structure DremioUDFModel where
  ID : TfValue String
  EntityType : TfValue String
  Path : TfValue (List (TfValue String))
  IsScalar : TfValue Bool
  FunctionArgList : TfValue String
  FunctionBody : TfValue String
  ReturnType : TfValue String
  AccessControlList : TfValue AccessControlListModel
  Tag : TfValue String
deriving DecidableEq, Repr

structure DremioViewModel where
  ID : TfValue String
  EntityType : TfValue String
  Type_ : TfValue String
  Path : TfValue (List (TfValue String))
  SQL : TfValue String
  SQLContext : TfValue (List (TfValue String))
  AccessControlList : TfValue AccessControlListModel
  Tag : TfValue String
  Fields : TfValue String
deriving DecidableEq, Repr

/-- The recurring block `// Handle Path` (and `// Handle SQLContext`):
`if !l.IsNull() && !l.IsUnknown() { diags := l.ElementsAs(ctx, &path, false); ... }`,
leaving the slice nil otherwise. -/
def stringListBlock (l : TfValue (List (TfValue String))) : Except String (GoSlice String) :=
  if !l.IsNull && !l.IsUnknown then ElementsAsStrings l else .ok none

/-- The method `(r *dremioTable) parseResourceToRequestBody`. -/
def dremioTable.parseResourceToRequestBody (data : DremioTableModel) :
    Option TableRequest × Diagnostics :=
  match stringListBlock data.Path with
  | .error e => (none, [e])
  | .ok path =>
    let arp := ConvertAccelerationRefreshPolicyFromTerraform data.AccelerationRefreshPolicy
    if arp.2.HasError then (none, arp.2)
    else
      let format := ConvertTableFormatFromTerraform data.Format
      if format.2.HasError then (none, format.2)
      else
        let acl := ConvertACLFromTerraform data.AccessControlList
        if acl.2.HasError then (none, acl.2)
        else
          (some
            { EntityType := "dataset"
              Type_ := "PHYSICAL_DATASET"
              SourceOrFolderID := data.FileOrFolderID.valueOr ""
              Path := path
              Tag := ""
              AccelerationRefreshPolicy := arp.1
              Format := format.1
              AccessControlList := acl.1 }, [])

/-- The method `(r *dremioFolder) parseResourceToRequestBodyUpdate`. In the path block
`diags := ...` declares a local variable, so a failing `ElementsAs` gives the nil
body without a diagnostic in the response. -/
def dremioFolder.parseResourceToRequestBodyUpdate (data : DremioFolderModel) :
    Option FolderUpdateRequest × Diagnostics :=
  match stringListBlock data.Path with
  | .error _ => (none, [])
  | .ok path =>
    let acl := ConvertACLFromTerraform data.AccessControlList
    if acl.2.HasError then (none, acl.2)
    else
      (some
        { EntityType := "folder"
          ID := data.ID.valueOr ""
          Tag := data.Tag.valueOr ""
          Path := path
          AccessControlList := acl.1 }, [])

/-- The method `(r *dremioUDF) parseResourceToRequestBody`. -/
def dremioUDF.parseResourceToRequestBody (data : DremioUDFModel) :
    Option UDFRequest × Diagnostics :=
  match stringListBlock data.Path with
  | .error e => (none, [e])
  | .ok path =>
    let acl := ConvertACLFromTerraform data.AccessControlList
    if acl.2.HasError then (none, acl.2)
    else
      (some
        { EntityType := "function"
          Path := path
          IsScalar := data.IsScalar.valueOr false
          FunctionArgList := data.FunctionArgList.valueOr ""
          FunctionBody := data.FunctionBody.valueOr ""
          ReturnType := data.ReturnType.valueOr ""
          AccessControlList := acl.1
          Tag := ""
          ID := "" }, [])

/-- The method `(r *dremioView) parseResourceToRequestBody`. -/
def dremioView.parseResourceToRequestBody (data : DremioViewModel) :
    Option ViewRequest × Diagnostics :=
  match stringListBlock data.Path with
  | .error e => (none, [e])
  | .ok path =>
    match stringListBlock data.SQLContext with
    | .error e => (none, [e])
    | .ok sqlContext =>
      let acl := ConvertACLFromTerraform data.AccessControlList
      if acl.2.HasError then (none, acl.2)
      else
        (some
          { EntityType := "dataset"
            Type_ := "VIRTUAL_DATASET"
            Path := path
            SQL := data.SQL.valueOr ""
            SQLContext := sqlContext
            AccessControlList := acl.1
            ID := ""
            Tag := "" }, [])

/-- The PUT that `(r *dremioSource) Update` sends: the body parsed from the plan, with
`reqBody.ID = plan.ID.ValueString()` and `reqBody.Tag = state.Tag.ValueString()`;
`none` when the body cannot be built. -/
def dremioSource.updateCall (codec : ConfigCodec) (plan state : DremioSourceModel) :
    Option (ApiCall SourceRequest) :=
  match (dremioSource.parseResourceToRequestBody codec plan).1 with
  | none => none
  | some reqBody =>
    let id := plan.ID.valueOr ""
    some
      { method := "PUT"
        path := "/catalog/" ++ id
        body := some { reqBody with ID := id, Tag := state.Tag.valueOr "" } }

/-- The PUT that `(r *dremioFolder) Update` sends: the body parsed from the plan,
with `reqBody.Tag = state.Tag.ValueString()`. -/
def dremioFolder.updateCall (plan state : DremioFolderModel) :
    Option (ApiCall FolderUpdateRequest) :=
  match (dremioFolder.parseResourceToRequestBodyUpdate plan).1 with
  | none => none
  | some reqBody =>
    let id := plan.ID.valueOr ""
    some
      { method := "PUT"
        path := "/catalog/" ++ id
        body := some { reqBody with Tag := state.Tag.valueOr "" } }

/-- The PUT that `(r *dremioTable) Update` sends: the body parsed from the plan,
with `reqBody.Tag = state.Tag.ValueString()`. -/
def dremioTable.updateCall (plan state : DremioTableModel) : Option (ApiCall TableRequest) :=
  match (dremioTable.parseResourceToRequestBody plan).1 with
  | none => none
  | some reqBody =>
    let id := plan.ID.valueOr ""
    some
      { method := "PUT"
        path := "/catalog/" ++ id
        body := some { reqBody with Tag := state.Tag.valueOr "" } }

/-- The PUT that `(r *dremioUDF) Update` sends: the body parsed from the plan, with
`reqBody.ID = plan.ID.ValueString()` and `reqBody.Tag = state.Tag.ValueString()`. -/
def dremioUDF.updateCall (plan state : DremioUDFModel) : Option (ApiCall UDFRequest) :=
  match (dremioUDF.parseResourceToRequestBody plan).1 with
  | none => none
  | some reqBody =>
    let id := plan.ID.valueOr ""
    some
      { method := "PUT"
        path := "/catalog/" ++ id
        body := some { reqBody with ID := id, Tag := state.Tag.valueOr "" } }

/-- The PUT that `(r *dremioView) Update` sends: the body parsed from the plan, with
`reqBody.ID = plan.ID.ValueString()` and `reqBody.Tag = state.Tag.ValueString()`. -/
def dremioView.updateCall (plan state : DremioViewModel) : Option (ApiCall ViewRequest) :=
  match (dremioView.parseResourceToRequestBody plan).1 with
  | none => none
  | some reqBody =>
    let id := plan.ID.valueOr ""
    some
      { method := "PUT"
        path := "/catalog/" ++ id
        body := some { reqBody with ID := id, Tag := state.Tag.valueOr "" } }

/-! ## `Delete` of the dataset tags and of the dataset wiki -/

structure TagRequest where
  Tags : GoSlice String
  Version : String
deriving DecidableEq, Repr

structure WikiRequest where
  ID : String
  Text : String
  Version : Option Int
deriving DecidableEq, Repr

structure DremioDatasetTagsModel where
  DatasetID : TfValue String
  Tags : TfValue (List (TfValue String))
  Version : TfValue String
deriving DecidableEq, Repr

structure DremioDatasetWikiModel where
  DatasetID : TfValue String
  Text : TfValue String
  Version : TfValue Int
deriving DecidableEq, Repr

/-- How `encoding/json` writes a `[]string`: `null` for the nil slice, a bracketed
list otherwise; `quote` is the encoding of one string. -/
def jsonStringArray (quote : String → String) : GoSlice String → String
  | none => "null"
  | some xs => "[" ++ ",".intercalate (xs.map quote) ++ "]"

/-- The method `(r *dremioDatasetTags) Delete`: the calls it makes through `send` (the
client's `RequestToDremio`) and the diagnostics it adds. -/
def dremioDatasetTags.Delete
    (send : ApiCall TagRequest → Option HttpResponse × Option String)
    (state : DremioDatasetTagsModel) : List (ApiCall TagRequest) × Diagnostics :=
  let datasetID := state.DatasetID.valueOr ""
  let version := state.Version.valueOr ""
  let reqBody : TagRequest := { Tags := some [], Version := version }
  let call : ApiCall TagRequest :=
    { method := "POST"
      path := "/catalog/" ++ datasetID ++ "/collaboration/tag"
      body := some reqBody }
  match (send call).2 with
  | some err => ([call], ["Unable to delete dataset tags, got error: " ++ err])
  | none => ([call], [])

/-- The method `(r *dremioDatasetWiki) Delete`; `int(state.Version.ValueInt64())` keeps the
value (a 64-bit `int`). -/
def dremioDatasetWiki.Delete
    (send : ApiCall WikiRequest → Option HttpResponse × Option String)
    (state : DremioDatasetWikiModel) : List (ApiCall WikiRequest) × Diagnostics :=
  let datasetID := state.DatasetID.valueOr ""
  let version := state.Version.valueOr 0
  let reqBody : WikiRequest := { ID := "", Text := "", Version := some version }
  let call : ApiCall WikiRequest :=
    { method := "POST"
      path := "/catalog/" ++ datasetID ++ "/collaboration/wiki"
      body := some reqBody }
  match (send call).2 with
  | some err => ([call], ["Unable to delete dataset wiki, got error: " ++ err])
  | none => ([call], [])

/-! ## Lookups of the data sources (`internal/datasources/*.go`) -/

/-- What a data source's `Read` does before any response is handled: it stops on
a diagnostic without a request, or it sends a GET. -/
inductive LookupOutcome where
  | diagnostic (summary : String) : LookupOutcome
  | get (path : String) : LookupOutcome
deriving DecidableEq, Repr

/-- Go's `strings.Join(elems, sep)`. -/
def stringsJoin (elems : List String) (sep : String) : String := sep.intercalate elems

/-- The checks and the path of `(d *dremioTableDataSource) Read`, from `tableID` and
`table_path`. -/
def dremioTableDataSource.lookup (tableID : String) (table_path : GoSlice String) :
    LookupOutcome :=
  if tableID = "" ∧ table_path.len = 0 then .diagnostic "Missing Table ID or Path"
  else if tableID ≠ "" ∧ table_path.len > 0 then .diagnostic "Both Table ID and Path specified"
  else if tableID ≠ "" then .get ("/catalog/" ++ tableID)
  else .get ("/catalog/by-path/" ++ ("/" ++ stringsJoin table_path.elems "/"))

/-- The checks and the path of `(d *dremioViewDataSource) Read`. -/
def dremioViewDataSource.lookup (viewID : String) (view_path : GoSlice String) :
    LookupOutcome :=
  if viewID = "" ∧ view_path.len = 0 then .diagnostic "Missing View ID or Path"
  else if viewID ≠ "" ∧ view_path.len > 0 then .diagnostic "Both View ID and Path specified"
  else if viewID ≠ "" then .get ("/catalog/" ++ viewID)
  else .get ("/catalog/by-path/" ++ ("/" ++ stringsJoin view_path.elems "/"))

/-- The checks and the path of `(d *dremioUDFDataSource) Read`. -/
def dremioUDFDataSource.lookup (udfID : String) (udf_path : GoSlice String) : LookupOutcome :=
  if udfID = "" ∧ udf_path.len = 0 then .diagnostic "Missing UDF ID or Path"
  else if udfID ≠ "" ∧ udf_path.len > 0 then .diagnostic "Both UDF ID and Path specified"
  else if udfID ≠ "" then .get ("/catalog/" ++ udfID)
  else .get ("/catalog/by-path/" ++ ("/" ++ stringsJoin udf_path.elems "/"))

/-- The query string `(d *dremioFolderDataSource) Read` appends for `max_children`. -/
def maxChildrenQuery (maxChildren : TfValue Int) : String :=
  if !maxChildren.IsNull then "?maxChildren=" ++ toString (maxChildren.valueOr 0) else ""

/-- The checks and the path of `(d *dremioFolderDataSource) Read`. -/
def dremioFolderDataSource.lookup (folderID : String) (folder_path : GoSlice String)
    (maxChildren : TfValue Int) : LookupOutcome :=
  if folderID = "" ∧ folder_path.len = 0 then .diagnostic "Missing Folder ID or Path"
  else if folderID ≠ "" ∧ folder_path.len > 0 then
    .diagnostic "Both Folder ID and Path specified"
  else if folderID ≠ "" then .get ("/catalog/" ++ folderID ++ maxChildrenQuery maxChildren)
  else
    .get ("/catalog/by-path/" ++ ("/" ++ stringsJoin folder_path.elems "/")
      ++ maxChildrenQuery maxChildren)

/-- The statement `if !data.ID.IsNull() { id = data.ID.ValueString() }` on `var id string`. -/
def lookupID (id : TfValue String) : String :=
  if !id.IsNull then id.valueOr "" else ""

/-- The block `if !data.Path.IsNull() { diags := data.Path.ElementsAs(ctx, &path, false) ... }`
on `var path []string`: the slice, or the diagnostic on which `Read` returns. -/
def lookupPathList (path : TfValue (List (TfValue String))) : Except String (GoSlice String) :=
  if !path.IsNull then ElementsAsStrings path else .ok none

/-- The start of `(d *dremioTableDataSource) Read`, from the `id` and `path` attributes of the
configuration. -/
def dremioTableDataSource.Read (id : TfValue String) (path : TfValue (List (TfValue String))) :
    LookupOutcome :=
  match lookupPathList path with
  | .error e => .diagnostic e
  | .ok table_path => dremioTableDataSource.lookup (lookupID id) table_path

/-- The start of `(d *dremioViewDataSource) Read`. -/
def dremioViewDataSource.Read (id : TfValue String) (path : TfValue (List (TfValue String))) :
    LookupOutcome :=
  match lookupPathList path with
  | .error e => .diagnostic e
  | .ok view_path => dremioViewDataSource.lookup (lookupID id) view_path

/-- The start of `(d *dremioUDFDataSource) Read`. -/
def dremioUDFDataSource.Read (id : TfValue String) (path : TfValue (List (TfValue String))) :
    LookupOutcome :=
  match lookupPathList path with
  | .error e => .diagnostic e
  | .ok udf_path => dremioUDFDataSource.lookup (lookupID id) udf_path

/-- The start of `(d *dremioFolderDataSource) Read`. -/
def dremioFolderDataSource.Read (id : TfValue String) (path : TfValue (List (TfValue String)))
    (maxChildren : TfValue Int) : LookupOutcome :=
  match lookupPathList path with
  | .error e => .diagnostic e
  | .ok folder_path => dremioFolderDataSource.lookup (lookupID id) folder_path maxChildren

/-! ## The path-segment validator `regexp.MustCompile("^[^/:[\\]]*$")` -/

/-- Regular expressions over characters, as far as the validators need them; a
character class is the list of characters it names. -/
inductive Regex where
  | nothing : Regex
  | empty : Regex
  | oneOf (cs : List Char) : Regex
  | noneOf (cs : List Char) : Regex
  | seq (a b : Regex) : Regex
  | alt (a b : Regex) : Regex
  | star (a : Regex) : Regex
deriving DecidableEq, Repr

namespace Regex

/-- Whether the expression matches the empty text. -/
def nullable : Regex → Bool
  | nothing => false
  | empty => true
  | oneOf _ => false
  | noneOf _ => false
  | seq a b => a.nullable && b.nullable
  | alt a b => a.nullable || b.nullable
  | star _ => true

/-- Sequence, simplified when the first part matches nothing or only the empty text. -/
def mkSeq : Regex → Regex → Regex
  | nothing, _ => nothing
  | empty, b => b
  | a, b => seq a b

/-- Alternative, simplified when one side matches nothing. -/
def mkAlt : Regex → Regex → Regex
  | nothing, b => b
  | a, nothing => a
  | a, b => alt a b

/-- The expression matching what may follow the character `c`. -/
def deriv : Regex → Char → Regex
  | nothing, _ => nothing
  | empty, _ => nothing
  | oneOf cs, c => if cs.contains c then empty else nothing
  | noneOf cs, c => if cs.contains c then nothing else empty
  | seq a b, c =>
    if a.nullable then mkAlt (mkSeq (a.deriv c) b) (b.deriv c) else mkSeq (a.deriv c) b
  | alt a b, c => mkAlt (a.deriv c) (b.deriv c)
  | star a, c => mkSeq (a.deriv c) (star a)

/-- Whether the expression matches the whole text. -/
def fullMatch (r : Regex) : List Char → Bool
  | [] => r.nullable
  | c :: cs => fullMatch (r.deriv c) cs

end Regex

/-- The pattern `^[^/:[\]]*$`: between the two anchors (start and end of the text),
any number of characters outside the class naming `/`, `:`, `[` and `]`. -/
def pathSegmentRegex : Regex :=
  .star (.noneOf ['/', ':', '[', ']'])

/-- The validator `stringvalidator.RegexMatches(regexp.MustCompile(...), ...)` on one path
element or one dataset tag: the anchored pattern has to match the whole string. -/
def pathSegmentValid (s : String) : Bool :=
  pathSegmentRegex.fullMatch s.toList

/-! ## Construction of the client (`internal/client/apiClient.go`, `auth.go`) -/

/-- The constant `HostURL`. -/
def HostURL : String := "https://api.dremio.cloud"

/-- The method `(c *Client) testPAT`: the probe `GET /catalog`, whose error is discarded, then
`io.ReadAll(resp.Body)` and the status test. The result is `none` when the Go
code dereferences a nil response, `some none` for a nil error. -/
def testPAT (env : HttpEnv) (c : Client) : Option (Option String) :=
  match (RequestToDremio env noBody c "GET" "/catalog" none []).1 with
  | none => none
  | some resp =>
    let body := resp.Body
    if resp.StatusCode ≠ 200 then
      some (some ("login failed. status: " ++ toString resp.StatusCode ++ ", body: " ++ body))
    else some none

/-- The function `NewClient(host, personalAccessToken, ptype, projectId)` on its four pointer
arguments, as the Go pair `(*Client, error)`. The struct literal dereferences
`personalAccessToken`, `ptype` and `projectId` first: the result is `none` when one of
them is nil (and when `testPAT` dereferences a nil response). -/
def NewClient (env : HttpEnv) (host personalAccessToken ptype projectId : Option String) :
    Option (Option Client × Option String) :=
  match personalAccessToken, ptype, projectId with
  | some pat, some ty, some pid =>
    let c : Client :=
      { HostURL := HostURL, PersonalAccessToken := pat, Type_ := ty, ProjectId := pid }
    let c : Client :=
      match host with
      | some h => { c with HostURL := h }
      | none => c
    if host.isNone || personalAccessToken.isNone then some (some c, none)
    else
      match testPAT env c with
      | none => none
      | some (some err) => some (none, some err)
      | some none => some (some c, none)
  | _, _, _ => none

/-! ## Provider configuration (`internal/provider/provider.go`) -/

/-- The struct `dremioProviderModel`. -/
structure dremioProviderModel where
  Host : TfValue String
  PersonalAccessToken : TfValue String
  ProjectId : TfValue String
  Ptype : TfValue String
deriving DecidableEq, Repr

/-- The four local variables of `Configure` after the block `// Check configuration
data, which should take precedence over environment variable data, if found`. -/
structure ResolvedSettings where
  host : String
  personalAccessToken : String
  ptype : String
  projectId : String
deriving DecidableEq, Repr

/-- The start of `(p *DremioProvider) Configure`: the four `os.Getenv` calls (`getenv` gives
the empty string for an unset variable) and the four overrides by a non-empty
configuration value. -/
def resolveSettings (getenv : String → String) (config : dremioProviderModel) :
    ResolvedSettings :=
  let personalAccessToken := getenv "DREMIO_PAT"
  let host := getenv "DREMIO_HOST"
  let ptype := getenv "DREMIO_TYPE"
  let projectId := getenv "DREMIO_PROJECT_ID"
  { host := if config.Host.valueOr "" ≠ "" then config.Host.valueOr "" else host
    personalAccessToken :=
      if config.PersonalAccessToken.valueOr "" ≠ "" then config.PersonalAccessToken.valueOr ""
      else personalAccessToken
    ptype := if config.Ptype.valueOr "" ≠ "" then config.Ptype.valueOr "" else ptype
    projectId :=
      if config.ProjectId.valueOr "" ≠ "" then config.ProjectId.valueOr "" else projectId }

/-- What `Configure` leaves in its response: the error diagnostics (by summary) and
the client handed to the resources and data sources, if one was created. -/
structure ConfigureResult where
  Diagnostics : Diagnostics
  client : Option Client
deriving DecidableEq, Repr

/-- The statement `if ptype == "" { ptype = "cloud" }` of `Configure`. -/
def effectivePtype (r : ResolvedSettings) : String :=
  if r.ptype = "" then "cloud" else r.ptype

/-- The attribute errors `Configure` adds for an empty host, an empty token, and an
empty project id of a cloud account, by summary. -/
def configureDiagnostics (r : ResolvedSettings) : Diagnostics :=
  (if r.host = "" then ["Unknown Dremio API Host"] else [])
    ++ (if r.personalAccessToken = "" then ["Unknown Dremio API Personal Access Token"] else [])
    ++ (if effectivePtype r = "cloud" ∧ r.projectId = "" then ["Unknown Dremio Project ID"]
        else [])

/-- The method `(p *DremioProvider) Configure`; `none` when `NewClient` does not return. -/
def DremioProvider.Configure (env : HttpEnv) (getenv : String → String)
    (config : dremioProviderModel) : Option ConfigureResult :=
  let r := resolveSettings getenv config
  if (configureDiagnostics r).HasError then
    some { Diagnostics := configureDiagnostics r, client := none }
  else
    match NewClient env (some r.host) (some r.personalAccessToken) (some (effectivePtype r))
        (some r.projectId) with
    | none => none
    | some (_, some err) =>
      some
        { Diagnostics := ["Unable to Create Dremio API Client: Dremio Client Error: " ++ err]
          client := none }
    | some (client, none) => some { Diagnostics := [], client := client }

/-! ## JSON bodies as `encoding/json` writes them -/

/-- A JSON value. -/
inductive Json where
  | null : Json
  | bool (b : Bool) : Json
  | num (n : Int) : Json
  | str (s : String) : Json
  | arr (items : List Json) : Json
  | obj (members : List (String × Json)) : Json

/-- The member of a JSON object under a key, if the object has one. -/
def Json.member? : Json → String → Option Json
  | .obj members, key => members.lookup key
  | _, _ => none

/-- How `encoding/json` writes a slice: `null` for the nil slice, an array
otherwise (the empty array for an empty non-nil slice). -/
def jsonSlice {α : Type} (enc : α → Json) : GoSlice α → Json
  | none => .null
  | some xs => .arr (xs.map enc)

/-! ## The grants resource (`internal/helpers/grantee.go`, `dremio_grants.go`) -/

structure GranteeRequest where
  Privileges : GoSlice String
  GranteeType : String
  ID : String
deriving DecidableEq, Repr

structure GrantsRequest where
  ID : String
  Grants : GoSlice GranteeRequest
  Tag : String
deriving DecidableEq, Repr

/-- `models.GranteeRequestModel`; the set `privileges` is kept as the list of its
elements. -/
structure GranteeRequestModel where
  Privileges : TfValue (List (TfValue String))
  GranteeType : TfValue String
  ID : TfValue String
deriving DecidableEq, Repr

/-- `models.DremioGrantsModel`; the set `grants` is kept as the list of its elements. -/
structure DremioGrantsModel where
  CatalogObjectID : TfValue String
  Grants : TfValue (List (TfValue GranteeRequestModel))
  AvailablePrivileges : TfValue (List (TfValue String))
deriving DecidableEq, Repr

/-- JSON of a `GranteeRequest`, by its struct tags (no member is `omitempty`). -/
def GranteeRequest.toJson (g : GranteeRequest) : Json :=
  .obj [("privileges", jsonSlice Json.str g.Privileges), ("granteeType", .str g.GranteeType),
    ("id", .str g.ID)]

/-- JSON of a `GrantsRequest`, by its struct tags: `id` and `tag` are `omitempty`,
`grants` is always written. -/
def GrantsRequest.toJson (r : GrantsRequest) : Json :=
  .obj ((if r.ID ≠ "" then [("id", Json.str r.ID)] else [])
    ++ [("grants", jsonSlice GranteeRequest.toJson r.Grants)]
    ++ (if r.Tag ≠ "" then [("tag", Json.str r.Tag)] else []))

/-- `ConvertGranteeRequestFromTerraform(ctx, granteeObj)`: `Object.As` into the model
struct fails on a null or unknown object. -/
def ConvertGranteeRequestFromTerraform (granteeObj : TfValue GranteeRequestModel) :
    Except String GranteeRequest :=
  match granteeObj with
  | .null => .error "unhandled null value"
  | .unknown => .error "unhandled unknown value"
  | .known granteeModel =>
    match ElementsAsStrings granteeModel.Privileges with
    | .error e => .error e
    | .ok privileges =>
      .ok
        { Privileges := privileges
          GranteeType := granteeModel.GranteeType.valueOr ""
          ID := granteeModel.ID.valueOr "" }

/-- The loop `for _, granteeObj := range granteeObjects` of
`ConvertGranteeSetFromTerraform`, appending to `grants`. -/
def appendGrants : List (TfValue GranteeRequestModel) → GoSlice GranteeRequest →
    Except String (GoSlice GranteeRequest)
  | [], grants => .ok grants
  | granteeObj :: rest, grants =>
    match ConvertGranteeRequestFromTerraform granteeObj with
    | .error e => .error e
    | .ok grant => appendGrants rest (grants.append grant)

/-- `ConvertGranteeSetFromTerraform(ctx, grantsSet)`: `ElementsAs` into a
`[]types.Object` (nil for a null set, an error for an unknown one), then the loop
on `var grants []models.GranteeRequest`, which starts nil. -/
def ConvertGranteeSetFromTerraform (grantsSet : TfValue (List (TfValue GranteeRequestModel))) :
    GoSlice GranteeRequest × Diagnostics :=
  match grantsSet with
  | .unknown => (none, ["unhandled unknown value"])
  | .null => (none, [])
  | .known granteeObjects =>
    match appendGrants granteeObjects none with
    | .error e => (none, [e])
    | .ok grants => (grants, [])

/-- The method `(r *dremioGrants) parseResourceToRequestBody`. -/
def dremioGrants.parseResourceToRequestBody (data : DremioGrantsModel) :
    Option GrantsRequest × Diagnostics :=
  let grants := ConvertGranteeSetFromTerraform data.Grants
  if grants.2.HasError then (none, grants.2)
  else (some { ID := "", Grants := grants.1, Tag := "" }, [])

/-- The PUT that `(r *dremioGrants) Create` and `(r *dremioGrants) Update` send (the same
statements in both); `none` when the body cannot be built. -/
def dremioGrants.putCall (data : DremioGrantsModel) : Option (ApiCall GrantsRequest) :=
  match (dremioGrants.parseResourceToRequestBody data).1 with
  | none => none
  | some reqBody =>
    some
      { method := "PUT"
        path := "/catalog/" ++ data.CatalogObjectID.valueOr "" ++ "/grants"
        body := some reqBody }

/-- The method `(r *dremioGrants) Delete`: the calls it makes through `send` and the
diagnostics it adds. -/
def dremioGrants.Delete (send : ApiCall GrantsRequest → Option HttpResponse × Option String)
    (state : DremioGrantsModel) : List (ApiCall GrantsRequest) × Diagnostics :=
  let catalogObjectID := state.CatalogObjectID.valueOr ""
  let reqBody : GrantsRequest := { ID := "", Grants := some [], Tag := "" }
  let call : ApiCall GrantsRequest :=
    { method := "PUT", path := "/catalog/" ++ catalogObjectID ++ "/grants", body := some reqBody }
  match (send call).2 with
  | some err => ([call], ["Unable to delete grants, got error: " ++ err])
  | none => ([call], [])

/-! ## The data maintenance task (`internal/helpers/data_maintenance.go`) -/

structure MaintenanceTaskConfig where
  TableID : String
deriving DecidableEq, Repr

structure MaintenanceTaskRequest where
  TaskType : String
  IsEnabled : Bool
  TaskConfig : Option MaintenanceTaskConfig
deriving DecidableEq, Repr

structure DremioDataMaintenanceModel where
  ID : TfValue String
  TaskType : TfValue String
  Level : TfValue String
  SourceName : TfValue String
  IsEnabled : TfValue Bool
  TableID : TfValue String
deriving DecidableEq, Repr

/-- `ConvertMaintenanceTaskFromTerraform(ctx, data)`; it adds no diagnostic. -/
def ConvertMaintenanceTaskFromTerraform (data : DremioDataMaintenanceModel) :
    MaintenanceTaskRequest × Diagnostics :=
  ({ TaskType := data.TaskType.valueOr ""
     IsEnabled := data.IsEnabled.valueOr false
     TaskConfig := some { TableID := data.TableID.valueOr "" } }, [])

/-- JSON of a `MaintenanceTaskConfig`: `tableId` is `omitempty`. -/
def MaintenanceTaskConfig.toJson (c : MaintenanceTaskConfig) : Json :=
  .obj (if c.TableID ≠ "" then [("tableId", Json.str c.TableID)] else [])

/-- JSON of a `MaintenanceTaskRequest`, by its struct tags: `type` is always
written, `isEnabled` and `config` are `omitempty` (dropped for `false` and for a
nil pointer). -/
def MaintenanceTaskRequest.toJson (r : MaintenanceTaskRequest) : Json :=
  .obj ([("type", Json.str r.TaskType)]
    ++ (if r.IsEnabled then [("isEnabled", Json.bool true)] else [])
    ++ (match r.TaskConfig with
        | some c => [("config", c.toJson)]
        | none => []))

/-! ## `Create` of the folder and of the UDF (`dremio_folder.go`, `dremio_udf.go`) -/

structure FolderCreateRequest where
  EntityType : String
  Path : GoSlice String
deriving DecidableEq, Repr

/-- `models.FolderResponse`; `Children` and `Owner`, which the resource never reads,
are left out. -/
structure FolderResponse where
  ID : String
  Path : GoSlice String
  Tag : String
  EntityType : String
  AccessControlList : Option AccessControlList
  Permissions : GoSlice String
  NextPageToken : String
  StorageURI : String
deriving DecidableEq, Repr

/-- `models.UDFResponse`; `Owner`, which the resource never reads, is left out. -/
structure UDFResponse where
  ID : Option String
  Path : GoSlice String
  Tag : Option String
  CreatedAt : Option String
  LastModified : Option String
  IsScalar : Option Bool
  FunctionArgList : Option String
  FunctionBody : Option String
  ReturnType : Option String
  AccessControlList : Option AccessControlList
  Permissions : GoSlice String
deriving DecidableEq, Repr

/-- The method `(r *dremioFolder) parseResourceToRequestBodyCreate`. Its `diags := ...`
declares a local variable, so a failing `ElementsAs` gives the nil body without a
diagnostic in the response. -/
def dremioFolder.parseResourceToRequestBodyCreate (data : DremioFolderModel) :
    Option FolderCreateRequest × Diagnostics :=
  match stringListBlock data.Path with
  | .error _ => (none, [])
  | .ok path => (some { EntityType := "folder", Path := path }, [])

/-- The method `(r *dremioFolder) fromResponseToState`. -/
def dremioFolder.fromResponseToState (folderResp : FolderResponse) (state : DremioFolderModel) :
    DremioFolderModel × Diagnostics :=
  let acl := ConvertACLToTerraform folderResp.AccessControlList state.AccessControlList
  ({ state with
      ID := .known folderResp.ID
      Tag := .known folderResp.Tag
      AccessControlList := acl.1 }, acl.2)

/-- The method `(r *dremioUDF) fromResponseToState`. -/
def dremioUDF.fromResponseToState (udfResp : UDFResponse) (state : DremioUDFModel) :
    DremioUDFModel × Diagnostics :=
  let acl := ConvertACLToTerraform udfResp.AccessControlList state.AccessControlList
  ({ state with
      ID :=
        match udfResp.ID with
        | some id => .known id
        | none => state.ID
      Tag :=
        match udfResp.Tag with
        | some tag => .known tag
        | none => state.Tag
      AccessControlList := acl.1 }, acl.2)

/-- A call made by the folder's `Create`. -/
inductive FolderCall where
  | post (path : String) (body : FolderCreateRequest) : FolderCall
  | put (path : String) (body : FolderUpdateRequest) : FolderCall
deriving DecidableEq, Repr

/-- What a `Create` leaves behind: the calls it made, in order, the state it saved
(`none` when it returned before `resp.State.Set`), and its error diagnostics. -/
structure CreateResult (κ σ : Type) where
  calls : List κ
  State : Option σ
  Diagnostics : Diagnostics

/-- The method `(r *dremioFolder) Create`. `post` and `put` stand for `RequestToDremio`
followed by `io.ReadAll` and `json.Unmarshal` into a `FolderResponse`; their error
is the detail of the diagnostic that ends the operation. -/
def dremioFolder.Create (post : FolderCreateRequest → Except String FolderResponse)
    (put : String → FolderUpdateRequest → Except String FolderResponse)
    (data : DremioFolderModel) : CreateResult FolderCall DremioFolderModel :=
  match dremioFolder.parseResourceToRequestBodyCreate data with
  | (none, d) => { calls := [], State := none, Diagnostics := d }
  | (some reqBody, _) =>
    match post reqBody with
    | .error e => { calls := [.post "/catalog" reqBody], State := none, Diagnostics := [e] }
    | .ok folderResp =>
      let r1 := dremioFolder.fromResponseToState folderResp data
      let data := r1.1
      if !data.AccessControlList.IsNull then
        match dremioFolder.parseResourceToRequestBodyUpdate data with
        | (none, d) =>
          { calls := [.post "/catalog" reqBody], State := none, Diagnostics := r1.2 ++ d }
        | (some reqBody2, _) =>
          let path := "/catalog/" ++ data.ID.valueOr ""
          match put path reqBody2 with
          | .error e =>
            { calls := [.post "/catalog" reqBody, .put path reqBody2], State := none,
              Diagnostics := r1.2 ++ [e] }
          | .ok folderUpdateResp =>
            let r2 := dremioFolder.fromResponseToState folderUpdateResp data
            { calls := [.post "/catalog" reqBody, .put path reqBody2], State := some r2.1,
              Diagnostics := r1.2 ++ r2.2 }
      else { calls := [.post "/catalog" reqBody], State := some data, Diagnostics := r1.2 }

/-- The method `(r *dremioUDF) Create`; `post` and `put` as for the folder, with a
`UDFResponse`. -/
def dremioUDF.Create (post : UDFRequest → Except String UDFResponse)
    (put : String → UDFRequest → Except String UDFResponse)
    (data : DremioUDFModel) : CreateResult (ApiCall UDFRequest) DremioUDFModel :=
  match dremioUDF.parseResourceToRequestBody data with
  | (none, d) => { calls := [], State := none, Diagnostics := d }
  | (some reqBody, _) =>
    let postCall : ApiCall UDFRequest :=
      { method := "POST", path := "/catalog", body := some reqBody }
    match post reqBody with
    | .error e => { calls := [postCall], State := none, Diagnostics := [e] }
    | .ok udfResp =>
      let r1 := dremioUDF.fromResponseToState udfResp data
      let data := r1.1
      if !data.AccessControlList.IsNull then
        match dremioUDF.parseResourceToRequestBody data with
        | (none, d) => { calls := [postCall], State := none, Diagnostics := r1.2 ++ d }
        | (some reqBody2, _) =>
          let reqBody2 : UDFRequest :=
            { reqBody2 with ID := data.ID.valueOr "", Tag := data.Tag.valueOr "" }
          let path := "/catalog/" ++ data.ID.valueOr ""
          let putCall : ApiCall UDFRequest :=
            { method := "PUT", path := path, body := some reqBody2 }
          match put path reqBody2 with
          | .error e =>
            { calls := [postCall, putCall], State := none, Diagnostics := r1.2 ++ [e] }
          | .ok udfUpdateResp =>
            let r2 := dremioUDF.fromResponseToState udfUpdateResp data
            { calls := [postCall, putCall], State := some r2.1, Diagnostics := r1.2 ++ r2.2 }
      else { calls := [postCall], State := some data, Diagnostics := r1.2 }

/-! ## `Delete` of the engine (`dremio_engine.go`) -/

/-- The method `(r *dremioEngine) Delete`, once the state was read: the error
diagnostics it ends with. The result is `none` when it does not return: inside
`if err != nil` it reads `api_resp.StatusCode`, and `RequestToDremio` gives a nil
response with every error raised before a response was received. -/
def dremioEngine.Delete (env : HttpEnv) (c : Client) (id : String) : Option Diagnostics :=
  match RequestToDremio env noBody c "DELETE" ("/engines/" ++ id) none [] with
  | (_, none) => some []
  | (none, some _) => none
  | (some api_resp, some err) =>
    if api_resp.StatusCode = 404 ∨ api_resp.StatusCode = 400 then some []
    else some ["Unable to delete engine, got error: " ++ err]

/-! ## `Create` of the dataset tags (`dremio_dataset_tags.go`) -/

structure TagResponse where
  Tags : GoSlice String
  Version : String
deriving DecidableEq, Repr

/-- The method `(r *dremioDatasetTags) parseResourceToRequestBody`. -/
def dremioDatasetTags.parseResourceToRequestBody (data : DremioDatasetTagsModel) :
    Option TagRequest × Diagnostics :=
  match ElementsAsStrings data.Tags with
  | .error e => (none, [e])
  | .ok tags => (some { Tags := tags, Version := "" }, [])

/-- The method `(r *dremioDatasetTags) fromResponseToState`. -/
def dremioDatasetTags.fromResponseToState (tagResp : TagResponse)
    (state : DremioDatasetTagsModel) : DremioDatasetTagsModel :=
  { state with Tags := ListValueFromStrings tagResp.Tags, Version := .known tagResp.Version }

/-- The method `(r *dremioDatasetTags) Create`. `existing` is the preliminary GET with
`io.ReadAll` and `json.Unmarshal` of its body, `none` when one of the three fails;
`send` is the second `RequestToDremio` with the reading of its answer. The variable
`method` is declared and never assigned, so it is empty in the error text
(`strings.ToLower` of the empty string). -/
def dremioDatasetTags.Create (existing : String → Option TagResponse)
    (send : ApiCall TagRequest → Except String TagResponse)
    (data : DremioDatasetTagsModel) :
    CreateResult (ApiCall TagRequest) DremioDatasetTagsModel :=
  let datasetID := data.DatasetID.valueOr ""
  let path := "/catalog/" ++ datasetID ++ "/collaboration/tag"
  let getCall : ApiCall TagRequest := { method := "GET", path := path, body := none }
  let existingVersion : String :=
    match existing path with
    | some existingTagResp => existingTagResp.Version
    | none => ""
  match dremioDatasetTags.parseResourceToRequestBody data with
  | (none, d) => { calls := [getCall], State := none, Diagnostics := d }
  | (some reqBody, _) =>
    let method := ""
    let reqBody : TagRequest :=
      if existingVersion ≠ "" then { reqBody with Version := existingVersion } else reqBody
    let call : ApiCall TagRequest := { method := "POST", path := path, body := some reqBody }
    match send call with
    | .error err =>
      { calls := [getCall, call], State := none,
        Diagnostics := ["Unable to " ++ method ++ " dataset tags, got error: " ++ err] }
    | .ok tagResp =>
      { calls := [getCall, call],
        State := some (dremioDatasetTags.fromResponseToState tagResp data),
        Diagnostics := [] }

/-! ## Request of the engine rule set (`dremio_engine_rule_set.go`, `helpers/rule_set.go`) -/

structure RuleInfo where
  Name : String
  Condition : String
  EngineName : String
  Action : String
  RejectMessage : String
deriving DecidableEq, Repr

structure RuleSet where
  RuleInfos : GoSlice (Option RuleInfo)
  RuleInfoDefault : Option RuleInfo
  Tag : String
deriving DecidableEq, Repr

structure EngineRulesRequest where
  RuleSet : Option RuleSet
deriving DecidableEq, Repr

structure EngineRulesResponse where
  RuleSet : Option RuleSet
deriving DecidableEq, Repr

structure RuleInfoModel where
  Name : TfValue String
  Condition : TfValue String
  EngineName : TfValue String
  Action : TfValue String
  RejectMessage : TfValue String
deriving DecidableEq, Repr

structure DremioEngineRuleSetModel where
  RuleInfos : TfValue (List (TfValue RuleInfoModel))
  RuleInfoDefault : TfValue RuleInfoModel
  Tag : TfValue String
deriving DecidableEq, Repr

/-- The framework's `ElementsAs` of a list into a `[]types.Object`: the elements are
taken as they are, null and unknown ones included. -/
def ElementsAsObjects {α : Type} : TfValue (List (TfValue α)) → Except String (GoSlice (TfValue α))
  | .null => .ok none
  | .unknown => .error "unhandled unknown value"
  | .known xs => .ok (some xs)

/-- `ConvertRuleInfoFromTerraform(ctx, ruleObj)`. -/
def ConvertRuleInfoFromTerraform (ruleObj : TfValue RuleInfoModel) :
    Option RuleInfo × Diagnostics :=
  if ruleObj.IsNull || ruleObj.IsUnknown then (none, [])
  else
    match ruleObj with
    | .known ruleModel =>
      (some
        { Name := ruleModel.Name.valueOr ""
          Condition := ruleModel.Condition.valueOr ""
          EngineName := ruleModel.EngineName.valueOr ""
          Action := ruleModel.Action.valueOr ""
          RejectMessage := ruleModel.RejectMessage.valueOr "" }, [])
    | _ => (none, ["Value Conversion Error"])

/-- The method `(r *dremioEngineRuleSet) applyRuleInfoDefaults`. -/
def dremioEngineRuleSet.applyRuleInfoDefaults (ruleInfo : RuleInfo) : RuleInfo :=
  if ruleInfo.Action = "REJECT" then { ruleInfo with EngineName := "" } else ruleInfo

/-- The loop `for _, ruleInfoObj := range ruleInfoObjs` of `parseResourceToRequestBody`,
from the slice `ruleSet.RuleInfos` built so far. -/
def appendRuleInfos : List (TfValue RuleInfoModel) → GoSlice (Option RuleInfo) →
    GoSlice (Option RuleInfo)
  | [], acc => acc
  | ruleInfoObj :: rest, acc =>
    match (ConvertRuleInfoFromTerraform ruleInfoObj).1 with
    | some ruleInfo =>
      appendRuleInfos rest (acc.append (some (dremioEngineRuleSet.applyRuleInfoDefaults ruleInfo)))
    | none => appendRuleInfos rest acc

/-- The method `(r *dremioEngineRuleSet) parseResourceToRequestBody`. `currentRules` is
the GET of `/rules` with `io.ReadAll` and `json.Unmarshal` of its body; its error is
the detail of the diagnostic added when one of the three fails. -/
def dremioEngineRuleSet.parseResourceToRequestBody (currentRules : Except String EngineRulesResponse)
    (data : DremioEngineRuleSetModel) : Option EngineRulesRequest × Diagnostics :=
  let ruleInfos : Except String (GoSlice (Option RuleInfo)) :=
    if !data.RuleInfos.IsNull && !data.RuleInfos.IsUnknown then
      match ElementsAsObjects data.RuleInfos with
      | .error e => .error e
      | .ok ruleInfoObjs => .ok (appendRuleInfos ruleInfoObjs.elems none)
    else .ok (some [])
  match ruleInfos with
  | .error e => (none, [e])
  | .ok ruleInfos =>
    match currentRules with
    | .error e => (none, [e])
    | .ok currentRules =>
      let ruleInfoDefault : Option RuleInfo :=
        match currentRules.RuleSet with
        | some rs =>
          match rs.RuleInfoDefault with
          | some d => some d
          | none => none
        | none => none
      let tag := if !data.Tag.IsNull && !data.Tag.IsUnknown then data.Tag.valueOr "" else ""
      (some { RuleSet := some { RuleInfos := ruleInfos, RuleInfoDefault := ruleInfoDefault, Tag := tag } },
        [])

/-! ## The engine data source (`internal/datasources/dremio_engine.go`) -/

structure EngineResponse where
  ID : String
  Name : String
  Size : String
  ActiveReplicas : Int
  MinReplicas : Int
  MaxReplicas : Int
  AutoStopDelaySeconds : Int
  QueueTimeLimitSeconds : Int
  RuntimeLimitSeconds : Int
  DrainTimeLimitSeconds : Int
  MaxConcurrency : Int
  State : String
  QueriedAt : String
  StatusChangedAt : String
  Description : String
  InstanceFamily : String
  AdditionalEngineStateInfo : String
deriving DecidableEq, Repr

structure DremioEngineDataSourceModel where
  ID : TfValue String
  Name : TfValue String
  Size : TfValue String
  MinReplicas : TfValue Int
  MaxReplicas : TfValue Int
  AutoStopDelaySeconds : TfValue Int
  QueueTimeLimitSeconds : TfValue Int
  RuntimeLimitSeconds : TfValue Int
  DrainTimeLimitSeconds : TfValue Int
  MaxConcurrency : TfValue Int
  Description : TfValue String
  State : TfValue String
  ActiveReplicas : TfValue Int
  QueriedAt : TfValue String
  StatusChangedAt : TfValue String
  AdditionalEngineStateInfo : TfValue String
deriving DecidableEq, Repr

/-- The method `(d *dremioEngineDataSource) mapResponseToState`; `int64(x)` of an `int`
keeps the value. Every field of the model is assigned. -/
def dremioEngineDataSource.mapResponseToState (engineResp : EngineResponse)
    (_ : DremioEngineDataSourceModel) : DremioEngineDataSourceModel :=
  { ID := .known engineResp.ID
    Name := .known engineResp.Name
    Size := .known engineResp.Size
    MinReplicas := .known engineResp.MinReplicas
    MaxReplicas := .known engineResp.MaxReplicas
    AutoStopDelaySeconds := .known engineResp.AutoStopDelaySeconds
    QueueTimeLimitSeconds := .known engineResp.QueueTimeLimitSeconds
    RuntimeLimitSeconds := .known engineResp.RuntimeLimitSeconds
    DrainTimeLimitSeconds := .known engineResp.DrainTimeLimitSeconds
    MaxConcurrency := .known engineResp.MaxConcurrency
    Description := .known engineResp.Description
    QueriedAt := .known engineResp.QueriedAt
    StatusChangedAt := .known engineResp.StatusChangedAt
    State := .known engineResp.State
    ActiveReplicas := .known engineResp.ActiveReplicas
    AdditionalEngineStateInfo := .known engineResp.AdditionalEngineStateInfo }

/-- The loop `for _, engine := range engines` of the data source's `Read`, with its
`break`: the pointer `foundEngine` it leaves. -/
def dremioEngineDataSource.findEngine : List EngineResponse → String → Option EngineResponse
  | [], _ => none
  | engine :: rest, engineName =>
    if engine.Name = engineName then some engine
    else dremioEngineDataSource.findEngine rest engineName

/-- The `apiPath` of `(d *dremioEngineDataSource) Read`. -/
def dremioEngineDataSource.apiPath (data : DremioEngineDataSourceModel) : String :=
  let engineID := data.ID.valueOr ""
  let engineName := data.Name.valueOr ""
  if engineName ≠ "" then "/engines" else "/engines/" ++ engineID

/-- The method `(d *dremioEngineDataSource) Read`, from the configuration read into
`data`. `get` is the GET through `RequestToDremio` with `io.ReadAll` of the body;
`parseList` and `parseOne` are `json.Unmarshal` into `[]EngineResponse` and into
`EngineResponse`. The diagnostics are the summaries of the errors added; the state
is the one handed to `resp.State.Set`. -/
def dremioEngineDataSource.Read (get : String → Except String String)
    (parseList : String → Except String (GoSlice EngineResponse))
    (parseOne : String → Except String EngineResponse)
    (data : DremioEngineDataSourceModel) : ReadResponse DremioEngineDataSourceModel :=
  let engineName := data.Name.valueOr ""
  match get (dremioEngineDataSource.apiPath data) with
  | .error _ => { State := none, Diagnostics := ["Read Error"] }
  | .ok body =>
    if engineName ≠ "" then
      match parseList body with
      | .error _ => { State := none, Diagnostics := ["Parse Error"] }
      | .ok engines =>
        match dremioEngineDataSource.findEngine engines.elems engineName with
        | none => { State := none, Diagnostics := ["Not Found"] }
        | some foundEngine =>
          { State := some (dremioEngineDataSource.mapResponseToState foundEngine data),
            Diagnostics := [] }
    else
      match parseOne body with
      | .error _ => { State := none, Diagnostics := ["Parse Error"] }
      | .ok engineResp =>
        { State := some (dremioEngineDataSource.mapResponseToState engineResp data),
          Diagnostics := [] }

/-! ## The file data source (`internal/datasources/dremio_file.go`) -/

/-- The check and the path of `(d *dremioFileDataSource) Read`, from `file_path`. -/
def dremioFileDataSource.lookup (file_path : GoSlice String) : LookupOutcome :=
  if file_path.len = 0 then .diagnostic "Missing File Path"
  else .get ("/catalog/by-path/" ++ ("/" ++ stringsJoin file_path.elems "/"))

/-- The method `(d *dremioFileDataSource) Read` up to its GET, from the configured `path`. -/
def dremioFileDataSource.Read (path : TfValue (List (TfValue String))) : LookupOutcome :=
  match lookupPathList path with
  | .error e => .diagnostic e
  | .ok file_path => dremioFileDataSource.lookup file_path

/-! ## Predicates of the statements -/

/-- A framework value that is either null or known. -/
def TfValue.nullOrKnown {α : Type} (v : TfValue α) : Bool := !v.IsUnknown

/-- Every attribute of the metadata policy is null or known. -/
def MetadataPolicyModel.attrsNullOrKnown (m : MetadataPolicyModel) : Bool :=
  m.AuthTTLMs.nullOrKnown && m.NamesRefreshMs.nullOrKnown && m.DatasetRefreshAfterMs.nullOrKnown
    && m.DatasetExpireAfterMs.nullOrKnown && m.DatasetUpdateMode.nullOrKnown
    && m.DeleteUnavailableDatasets.nullOrKnown && m.AutoPromoteDatasets.nullOrKnown

/-- Every attribute of the acceleration refresh policy is null or known. -/
def AccelerationRefreshPolicyModel.attrsNullOrKnown (m : AccelerationRefreshPolicyModel) : Bool :=
  m.ActivePolicyType.nullOrKnown && m.RefreshPeriodMs.nullOrKnown && m.RefreshSchedule.nullOrKnown
    && m.GracePeriodMs.nullOrKnown && m.Method.nullOrKnown && m.RefreshField.nullOrKnown
    && m.NeverExpire.nullOrKnown

/-- Every optional attribute of the table format is null or known. -/
def TableFormatModel.attrsNullOrKnown (m : TableFormatModel) : Bool :=
  m.IgnoreOtherFileFormats.nullOrKnown && m.SkipFirstLine.nullOrKnown
    && m.ExtractHeader.nullOrKnown && m.HasMergedCells.nullOrKnown && m.SheetName.nullOrKnown
    && m.FieldDelimiter.nullOrKnown && m.Quote.nullOrKnown && m.Comment.nullOrKnown
    && m.Escape.nullOrKnown && m.LineDelimiter.nullOrKnown
    && m.AutoGenerateColumnNames.nullOrKnown && m.TrimHeader.nullOrKnown

/-- A framework value that is known. -/
def TfValue.isKnown {α : Type} : TfValue α → Bool
  | .known _ => true
  | _ => false

/-- A user entry with a known id and a known permissions list. -/
def userEntryKnown : TfValue UserPermissionModel → Bool
  | .known u => u.ID.isKnown && u.Permissions.isKnown
  | _ => false

/-- A role entry with a known id and a known permissions list. -/
def roleEntryKnown : TfValue RolePermissionModel → Bool
  | .known r => r.ID.isKnown && r.Permissions.isKnown
  | _ => false

/-- The `users` attribute is null or a known list, possibly empty, of entries with a
known id and a known permissions list. -/
def usersNullOrKnownList : TfValue (List (TfValue UserPermissionModel)) → Bool
  | .null => true
  | .unknown => false
  | .known xs => xs.all userEntryKnown

/-- The `roles` attribute is null or a known list, possibly empty, of entries with a
known id and a known permissions list. -/
def rolesNullOrKnownList : TfValue (List (TfValue RolePermissionModel)) → Bool
  | .null => true
  | .unknown => false
  | .known xs => xs.all roleEntryKnown

/-- A known list of known strings. -/
def knownStrings : TfValue (List (TfValue String)) → Bool
  | .known xs => xs.all TfValue.isKnown
  | _ => false

/-- A user entry with a known id and a known list of known permissions. -/
def userEntrySet : TfValue UserPermissionModel → Bool
  | .known u => u.ID.isKnown && knownStrings u.Permissions
  | _ => false

/-- A role entry with a known id and a known list of known permissions. -/
def roleEntrySet : TfValue RolePermissionModel → Bool
  | .known r => r.ID.isKnown && knownStrings r.Permissions
  | _ => false

/-- The `users` attribute is null or a known non-empty list of entries with a known
id and a known list of known permissions. -/
def usersNullOrNonEmpty : TfValue (List (TfValue UserPermissionModel)) → Bool
  | .null => true
  | .unknown => false
  | .known xs => !xs.isEmpty && xs.all userEntrySet

/-- The `roles` attribute is null or a known non-empty list of entries with a known
id and a known list of known permissions. -/
def rolesNullOrNonEmpty : TfValue (List (TfValue RolePermissionModel)) → Bool
  | .null => true
  | .unknown => false
  | .known xs => !xs.isEmpty && xs.all roleEntrySet

/-- The rule of one optional attribute of the table format: `r` is null when the
plan's attribute `p` is null, and the API's value `a` (null when omitted) otherwise. -/
def formatFieldRule {α : Type} (p : TfValue α) (a : Option α) (r : TfValue α) : Prop :=
  (p = .null → r = .null) ∧ (p ≠ .null → r = PointerValue a)

/-! ## Concrete inputs -/

/-- A codec whose three steps succeed and give the empty JSON object. -/
def sampleCodec : ConfigCodec :=
  { parseConfigByType := fun _ cfg => .ok cfg
    marshal := fun cfg => .ok cfg
    unmarshalMap := fun _ => .ok [] }

/-- A source planned with a name, a type and a config, and no optional block. -/
def sampleSourceModel : DremioSourceModel :=
  { ID := .unknown
    EntityType := .known "source"
    Type_ := .known "S3"
    Name := .known "foo"
    Config := .known "cfg"
    MetadataPolicy := .null
    AccelerationGracePeriodMs := .null
    AccelerationRefreshPeriodMs := .null
    AccelerationActivePolicyType := .null
    AccelerationRefreshSchedule := .null
    AccelerationRefreshOnDataChanges := .null
    AccessControlList := .null
    Tag := .unknown }

/-- A server-side metadata policy with one default filled in. -/
def sampleApiMetadataPolicy : MetadataPolicy :=
  { AuthTTLMs := some 86400000
    NamesRefreshMs := none
    DatasetRefreshAfterMs := none
    DatasetExpireAfterMs := none
    DatasetUpdateMode := none
    DeleteUnavailableDatasets := none
    AutoPromoteDatasets := none }

/-- The server's answer for `sampleSourceModel`, with server defaults for the
metadata policy, the access control list and the acceleration settings. -/
def sampleSourceResponse : SourceResponse :=
  { ID := some "abc"
    Tag := some "v1"
    Type_ := some "S3"
    Name := some "foo"
    MetadataPolicy := some sampleApiMetadataPolicy
    AccelerationGracePeriodMs := some 10800000
    AccelerationRefreshPeriodMs := some 3600000
    AccelerationNeverExpire := none
    AccelerationNeverRefresh := none
    AccelerationActivePolicyType := some "PERIOD"
    AccelerationRefreshSchedule := none
    AccessControlList := some { Users := some [{ ID := "u1", Permissions := some ["SELECT"] }],
                                Roles := none }
    Permissions := none }

/-- A metadata policy block with two attributes set. -/
def sampleMetadataPolicyModel : MetadataPolicyModel :=
  { AuthTTLMs := .known 60000
    NamesRefreshMs := .null
    DatasetRefreshAfterMs := .null
    DatasetExpireAfterMs := .null
    DatasetUpdateMode := .known "PREFETCH_QUERIED"
    DeleteUnavailableDatasets := .null
    AutoPromoteDatasets := .known true }

/-- An acceleration refresh policy block with three attributes set. -/
def sampleRefreshPolicyModel : AccelerationRefreshPolicyModel :=
  { ActivePolicyType := .known "PERIOD"
    RefreshPeriodMs := .known 3600000
    RefreshSchedule := .null
    GracePeriodMs := .null
    Method := .null
    RefreshField := .null
    NeverExpire := .known false }

/-- A text table format with three optional attributes set. -/
def sampleTableFormatModel : TableFormatModel :=
  { Type_ := .known "Text"
    IgnoreOtherFileFormats := .null
    SkipFirstLine := .known false
    ExtractHeader := .known true
    HasMergedCells := .null
    SheetName := .null
    FieldDelimiter := .known ","
    Quote := .null
    Comment := .null
    Escape := .null
    LineDelimiter := .null
    AutoGenerateColumnNames := .null
    TrimHeader := .null }

/-- Read-only members a server adds to a format response. -/
def sampleReadOnlyFormat : TableFormatResponse :=
  { Type_ := "Unknown"
    Name := some "t"
    FullPath := some ["src", "t"]
    Ctime := some 0
    IsFolder := some false
    Location := none
    IgnoreOtherFileFormats := none
    SkipFirstLine := none
    ExtractHeader := none
    HasMergedCells := none
    SheetName := none
    FieldDelimiter := none
    Quote := none
    Comment := none
    Escape := none
    LineDelimiter := none
    AutoGenerateColumnNames := none
    TrimHeader := none
    AutoCorrectCorruptDates := some true }

/-- An access control list whose `users` is the empty list. -/
def emptyUsersACL : TfValue AccessControlListModel :=
  .known { Users := .known [], Roles := .null }

/-- An access control list with one user and one role. -/
def sampleACLModel : AccessControlListModel :=
  { Users := .known [.known { ID := .known "u1", Permissions := .known [.known "SELECT"] }]
    Roles := .known [.known { ID := .known "r1", Permissions := .known [] }] }

/-- A cloud client. -/
def cloudClient : Client :=
  { HostURL := "H", PersonalAccessToken := "tok", Type_ := "cloud", ProjectId := "P" }

/-- A software (on-premises) client. -/
def softwareClient : Client :=
  { HostURL := "H", PersonalAccessToken := "tok", Type_ := "software", ProjectId := "P" }

/-- An environment whose server answers every request with status 500 and a body
quoting an upstream 404. -/
def failingEnv : HttpEnv :=
  { newRequestError := fun _ _ => none
    doRequest := fun _ => .ok { StatusCode := 500, Body := "upstream returned status 404" } }

/-- An environment answering every request with the given status and body. -/
def constEnv (status : Int) (body : String) : HttpEnv :=
  { newRequestError := fun _ _ => none
    doRequest := fun _ => .ok { StatusCode := status, Body := body } }

/-- JSON encoding of a body that is already JSON text. -/
def textMarshal : String → Except String String := fun b => .ok b

/-- The state of `sampleSourceModel` after its creation: id and tag observed. -/
def sampleSourceState : DremioSourceModel :=
  { sampleSourceModel with ID := .known "abc", Tag := .known "v1" }

/-- A plan for the same source that carries another tag value. -/
def sampleSourcePlan : DremioSourceModel :=
  { sampleSourceModel with ID := .known "abc", Tag := .known "planned" }

/-- A folder state with an observed tag. -/
def sampleFolderState : DremioFolderModel :=
  { ID := .known "f1"
    EntityType := .known "folder"
    Path := .known [.known "src", .known "dir"]
    AccessControlList := .null
    Tag := .known "v1" }

/-- A plan for the same folder that carries another tag value. -/
def sampleFolderPlan : DremioFolderModel :=
  { sampleFolderState with Tag := .known "planned" }

/-- A table state with an observed tag. -/
def sampleTableState : DremioTableModel :=
  { ID := .known "t1"
    EntityType := .known "dataset"
    Type_ := .known "PHYSICAL_DATASET"
    Path := .known [.known "src", .known "t"]
    FileOrFolderID := .known "file1"
    AccelerationRefreshPolicy := .null
    Format := .known sampleTableFormatModel
    AccessControlList := .null
    Tag := .known "v1" }

/-- A plan for the same table whose tag is not known yet. -/
def sampleTablePlan : DremioTableModel :=
  { sampleTableState with Tag := .unknown }

/-- A UDF state with an observed tag. -/
def sampleUDFState : DremioUDFModel :=
  { ID := .known "u1"
    EntityType := .known "function"
    Path := .known [.known "src", .known "f"]
    IsScalar := .known true
    FunctionArgList := .known "x INT"
    FunctionBody := .known "SELECT x"
    ReturnType := .known "INT"
    AccessControlList := .null
    Tag := .known "v1" }

/-- A plan for the same UDF whose tag is not known yet. -/
def sampleUDFPlan : DremioUDFModel :=
  { sampleUDFState with Tag := .unknown }

/-- A view state with an observed tag. -/
def sampleViewState : DremioViewModel :=
  { ID := .known "w1"
    EntityType := .known "dataset"
    Type_ := .known "VIRTUAL_DATASET"
    Path := .known [.known "space", .known "v"]
    SQL := .known "SELECT 1"
    SQLContext := .null
    AccessControlList := .null
    Tag := .known "v1"
    Fields := .null }

/-- A plan for the same view that carries another tag value. -/
def sampleViewPlan : DremioViewModel :=
  { sampleViewState with Tag := .known "planned" }

/-- An environment with `DREMIO_HOST` and `DREMIO_PAT` set and nothing else. -/
def sampleGetenv : String → String := fun name =>
  if name = "DREMIO_HOST" then "https://env.example"
  else if name = "DREMIO_PAT" then "envtok"
  else ""

/-- A provider configuration giving the host and the account type only. -/
def sampleProviderConfig : dremioProviderModel :=
  { Host := .known "https://cfg.example"
    PersonalAccessToken := .null
    ProjectId := .null
    Ptype := .known "software" }

/-- An environment with a token and an account type but no `DREMIO_HOST`. -/
def noHostGetenv : String → String := fun name =>
  if name = "DREMIO_PAT" then "tok"
  else if name = "DREMIO_TYPE" then "software"
  else ""

/-- A provider configuration in which nothing is set. -/
def emptyProviderConfig : dremioProviderModel :=
  { Host := .null, PersonalAccessToken := .null, ProjectId := .null, Ptype := .null }

/-- A parsed source response that carries id, tag and name but no type. -/
def sourceResponseWithoutType : SourceResponse :=
  { sampleSourceResponse with Type_ := none }

/-- The source state when the user configured a metadata policy. -/
def sampleSourceStateWithPolicy : DremioSourceModel :=
  { sampleSourceState with MetadataPolicy := .known sampleMetadataPolicyModel }

/-- A grants model whose `grants` set is empty. -/
def emptyGrantsModel : DremioGrantsModel :=
  { CatalogObjectID := .known "obj1", Grants := .known [], AvailablePrivileges := .unknown }

/-- A maintenance task that the user has disabled. -/
def disabledMaintenanceModel : DremioDataMaintenanceModel :=
  { ID := .known "m1"
    TaskType := .known "OPTIMIZE"
    Level := .unknown
    SourceName := .unknown
    IsEnabled := .known false
    TableID := .known "folder1.table1" }

/-- A folder planned with the access control list `sampleACLModel`. -/
def folderPlanWithACL : DremioFolderModel :=
  { ID := .unknown
    EntityType := .known "folder"
    Path := .known [.known "src", .known "dir"]
    AccessControlList := .known sampleACLModel
    Tag := .unknown }

/-- The answer to the creation of a folder, without an access control list (the
create API does not take one). -/
def folderCreatedResponse : FolderResponse :=
  { ID := "f1"
    Path := some ["src", "dir"]
    Tag := "v1"
    EntityType := "folder"
    AccessControlList := none
    Permissions := none
    NextPageToken := ""
    StorageURI := "" }

/-- An access control list the server fills in by itself: the owner with every permission. -/
def serverDefaultACL : AccessControlList :=
  { Users := some [{ ID := "owner", Permissions := some ["ALL"] }], Roles := none }

/-- The answer to the creation of a folder, carrying the server's own access
control list. -/
def folderCreatedResponseWithACL : FolderResponse :=
  { folderCreatedResponse with AccessControlList := some serverDefaultACL }

/-- A server that answers the creation of a folder with `created` and echoes every
update. -/
def folderPut (_ : String) (body : FolderUpdateRequest) : Except String FolderResponse :=
  .ok { folderCreatedResponse with Tag := "v2", AccessControlList := body.AccessControlList }

/-- A UDF planned with the access control list `sampleACLModel`. -/
def udfPlanWithACL : DremioUDFModel :=
  { sampleUDFState with ID := .unknown, Tag := .unknown, AccessControlList := .known sampleACLModel }

/-- The answer to the creation of a UDF, without an access control list. -/
def udfCreatedResponse : UDFResponse :=
  { ID := some "u1"
    Path := some ["src", "f"]
    Tag := some "v1"
    CreatedAt := none
    LastModified := none
    IsScalar := some true
    FunctionArgList := some "x INT"
    FunctionBody := some "SELECT x"
    ReturnType := some "INT"
    AccessControlList := none
    Permissions := none }

/-- A server that echoes every update of a UDF. -/
def udfPut (_ : String) (body : UDFRequest) : Except String UDFResponse :=
  .ok { udfCreatedResponse with Tag := some "v2", AccessControlList := body.AccessControlList }

/-- An environment in which no request reaches a server: `HTTPClient.Do` fails. -/
def unreachableEnv : HttpEnv :=
  { newRequestError := fun _ _ => none
    doRequest := fun _ => .error "dial tcp: connection refused" }

/-- An engine as listed by `/engines`. -/
def sampleEngine (id name : String) : EngineResponse :=
  { ID := id
    Name := name
    Size := "SMALL_V1"
    ActiveReplicas := 0
    MinReplicas := 0
    MaxReplicas := 1
    AutoStopDelaySeconds := 300
    QueueTimeLimitSeconds := 300
    RuntimeLimitSeconds := 0
    DrainTimeLimitSeconds := 1800
    MaxConcurrency := 2
    State := "ENABLED"
    QueriedAt := ""
    StatusChangedAt := ""
    Description := ""
    InstanceFamily := ""
    AdditionalEngineStateInfo := "NONE" }

/-- A configuration of the engine data source giving both an id and the name `prod`. -/
def engineByNameConfig : DremioEngineDataSourceModel :=
  { ID := .known "e9"
    Name := .known "prod"
    Size := .null
    MinReplicas := .null
    MaxReplicas := .null
    AutoStopDelaySeconds := .null
    QueueTimeLimitSeconds := .null
    RuntimeLimitSeconds := .null
    DrainTimeLimitSeconds := .null
    MaxConcurrency := .null
    Description := .null
    State := .null
    ActiveReplicas := .null
    QueriedAt := .null
    StatusChangedAt := .null
    AdditionalEngineStateInfo := .null }

/-- A server that lists three engines, two of them named `prod`, under `/engines` only. -/
def engineListGet (path : String) : Except String String :=
  if path = "/engines" then .ok "list" else .error "unexpected path"

/-- The decoding of the listing of `engineListGet`. -/
def engineListParse (_ : String) : Except String (GoSlice EngineResponse) :=
  .ok (some [sampleEngine "e1" "preview", sampleEngine "e2" "prod", sampleEngine "e3" "prod"])

/-! ## Lemmas on the field patterns -/

theorem valueOrNull_pointerIfSet {α : Type} (zero : α) (v : TfValue α)
    (h : v.nullOrKnown = true) : valueOrNull (pointerIfSet zero v) = v := by
  cases v <;> simp_all [valueOrNull, pointerIfSet, TfValue.nullOrKnown, TfValue.IsNull,
    TfValue.IsUnknown, TfValue.valueOr]

theorem keepNull_pointerIfSet {α : Type} (zero : α) (v : TfValue α)
    (h : v.nullOrKnown = true) : keepNull v (pointerIfSet zero v) = v := by
  cases v <;> simp_all [keepNull, pointerIfSet, PointerValue, TfValue.nullOrKnown,
    TfValue.IsNull, TfValue.IsUnknown, TfValue.valueOr]

theorem keepNull_idem {α : Type} (p : TfValue α) (a : Option α) :
    keepNull (keepNull p a) a = keepNull p a := by
  cases p <;> cases a <;> simp [keepNull, PointerValue, TfValue.IsNull]

theorem keepNull_pointerValue {α : Type} (a : Option α) :
    keepNull (PointerValue a) a = PointerValue a := by
  cases a <;> simp [keepNull, PointerValue, TfValue.IsNull]

theorem GoSlice.elems_append {α : Type} (s : GoSlice α) (x : α) :
    GoSlice.elems (GoSlice.append s x) = GoSlice.elems s ++ [x] := rfl

theorem GoSlice.len_eq_length_elems {α : Type} (s : GoSlice α) :
    GoSlice.len s = (GoSlice.elems s).length := by
  cases s <;> rfl

theorem reflect_known_strings (xs : List (TfValue String))
    (h : xs.all TfValue.isKnown = true) :
    ∃ ss, reflectElems stringElemAs xs = .ok ss ∧ ss.map TfValue.known = xs := by
  induction xs with
  | nil => exact ⟨[], rfl, rfl⟩
  | cons x xs ih =>
    simp only [List.all_cons, Bool.and_eq_true] at h
    obtain ⟨ss, hss, hmap⟩ := ih h.2
    cases x with
    | known v => exact ⟨v :: ss, by simp [reflectElems, stringElemAs, hss], by simp [hmap]⟩
    | null => simp [TfValue.isKnown] at h
    | unknown => simp [TfValue.isKnown] at h

theorem elementsAsStrings_round_trip (l : TfValue (List (TfValue String)))
    (h : knownStrings l = true) :
    ∃ ss, ElementsAsStrings l = .ok ss ∧ ListValueFromStrings ss = l := by
  cases l with
  | known xs =>
    obtain ⟨ss, hss, hmap⟩ := reflect_known_strings xs h
    exact ⟨some ss, by simp [ElementsAsStrings, hss, Except.map], by
      simp [ListValueFromStrings, hmap]⟩
  | null => simp [knownStrings] at h
  | unknown => simp [knownStrings] at h

theorem reflect_user_entries (xs : List (TfValue UserPermissionModel))
    (h : xs.all userEntrySet = true) :
    ∃ us, reflectElems userModelElemAs xs = .ok us ∧ us.map TfValue.known = xs ∧
      ∀ u ∈ us, userEntrySet (.known u) = true := by
  induction xs with
  | nil => exact ⟨[], rfl, rfl, by simp⟩
  | cons x xs ih =>
    simp only [List.all_cons, Bool.and_eq_true] at h
    obtain ⟨us, hus, hmap, hall⟩ := ih h.2
    cases x with
    | known v =>
      refine ⟨v :: us, by simp [reflectElems, userModelElemAs, hus], by simp [hmap], ?_⟩
      intro u hu
      rcases List.mem_cons.1 hu with rfl | hu
      · exact h.1
      · exact hall u hu
    | null => simp [userEntrySet] at h
    | unknown => simp [userEntrySet] at h

theorem appendUsers_round_trip (us : List UserPermissionModel)
    (h : ∀ u ∈ us, userEntrySet (.known u) = true) (acc : GoSlice UserPermission) :
    ∃ res out, appendUsers us acc = .ok res ∧ GoSlice.elems res = GoSlice.elems acc ++ out ∧
      usersToTerraform out = .known (us.map TfValue.known) ∧ out.length = us.length := by
  induction us generalizing acc with
  | nil => exact ⟨acc, [], rfl, by simp, rfl, rfl⟩
  | cons u us ih =>
    have hu : userEntrySet (.known u) = true := h u (List.mem_cons_self _ _)
    simp only [userEntrySet, Bool.and_eq_true] at hu
    obtain ⟨ss, hss, hback⟩ := elementsAsStrings_round_trip u.Permissions hu.2
    obtain ⟨res, out, hout, hres, hmap, hlen⟩ :=
      ih (fun v hv => h v (List.mem_cons_of_mem _ hv))
        (GoSlice.append acc { ID := u.ID.valueOr "", Permissions := ss })
    refine ⟨res, { ID := u.ID.valueOr "", Permissions := ss } :: out, ?_, ?_, ?_, ?_⟩
    · simp only [appendUsers, hss, hout]
    · simp [hres, GoSlice.elems_append]
    · obtain ⟨uid, uperm⟩ := u
      cases uid with
      | known v =>
        simp only [usersToTerraform, TfValue.known.injEq] at hmap
        simp only at hback
        simp [usersToTerraform, hmap, hback, TfValue.valueOr]
      | null => simp [TfValue.isKnown] at hu
      | unknown => simp [TfValue.isKnown] at hu
    · simp [hlen]

theorem handleUsers_round_trip (acl : AccessControlListModel)
    (h : usersNullOrNonEmpty acl.Users = true) :
    ∃ users, handleUsers acl = .ok users ∧
      (if GoSlice.len users > 0 then usersToTerraform (GoSlice.elems users) else .null)
        = acl.Users := by
  obtain ⟨users, roles⟩ := acl
  cases users with
  | null => exact ⟨none, by simp [handleUsers, TfValue.IsNull], by simp [GoSlice.len]⟩
  | unknown => simp [usersNullOrNonEmpty] at h
  | known xs =>
    simp only [usersNullOrNonEmpty, Bool.and_eq_true, Bool.not_eq_true', List.isEmpty_eq_false]
      at h
    obtain ⟨us, hus, hmap, hall⟩ := reflect_user_entries xs h.2
    obtain ⟨res, out, hout, hres, hback, hlen⟩ := appendUsers_round_trip us hall none
    have hres2 : GoSlice.elems res = out := by simpa [GoSlice.elems] using hres
    refine ⟨res, ?_, ?_⟩
    · simp [handleUsers, TfValue.IsNull, TfValue.IsUnknown, ElementsAsUsers, hus, Except.map,
        GoSlice.elems, hout]
    · have hpos : 0 < out.length := by
        rw [hlen, ← List.length_map us TfValue.known, hmap]
        exact List.length_pos.2 h.1
      simp [GoSlice.len_eq_length_elems, hres2, hpos, hback, hmap]

theorem reflect_role_entries (xs : List (TfValue RolePermissionModel))
    (h : xs.all roleEntrySet = true) :
    ∃ us, reflectElems roleModelElemAs xs = .ok us ∧ us.map TfValue.known = xs ∧
      ∀ u ∈ us, roleEntrySet (.known u) = true := by
  induction xs with
  | nil => exact ⟨[], rfl, rfl, by simp⟩
  | cons x xs ih =>
    simp only [List.all_cons, Bool.and_eq_true] at h
    obtain ⟨us, hus, hmap, hall⟩ := ih h.2
    cases x with
    | known v =>
      refine ⟨v :: us, by simp [reflectElems, roleModelElemAs, hus], by simp [hmap], ?_⟩
      intro u hu
      rcases List.mem_cons.1 hu with rfl | hu
      · exact h.1
      · exact hall u hu
    | null => simp [roleEntrySet] at h
    | unknown => simp [roleEntrySet] at h

theorem appendRoles_round_trip (us : List RolePermissionModel)
    (h : ∀ u ∈ us, roleEntrySet (.known u) = true) (acc : GoSlice RolePermission) :
    ∃ res out, appendRoles us acc = .ok res ∧ GoSlice.elems res = GoSlice.elems acc ++ out ∧
      rolesToTerraform out = .known (us.map TfValue.known) ∧ out.length = us.length := by
  induction us generalizing acc with
  | nil => exact ⟨acc, [], rfl, by simp, rfl, rfl⟩
  | cons u us ih =>
    have hu : roleEntrySet (.known u) = true := h u (List.mem_cons_self _ _)
    simp only [roleEntrySet, Bool.and_eq_true] at hu
    obtain ⟨ss, hss, hback⟩ := elementsAsStrings_round_trip u.Permissions hu.2
    obtain ⟨res, out, hout, hres, hmap, hlen⟩ :=
      ih (fun v hv => h v (List.mem_cons_of_mem _ hv))
        (GoSlice.append acc { ID := u.ID.valueOr "", Permissions := ss })
    refine ⟨res, { ID := u.ID.valueOr "", Permissions := ss } :: out, ?_, ?_, ?_, ?_⟩
    · simp only [appendRoles, hss, hout]
    · simp [hres, GoSlice.elems_append]
    · obtain ⟨uid, uperm⟩ := u
      cases uid with
      | known v =>
        simp only [rolesToTerraform, TfValue.known.injEq] at hmap
        simp only at hback
        simp [rolesToTerraform, hmap, hback, TfValue.valueOr]
      | null => simp [TfValue.isKnown] at hu
      | unknown => simp [TfValue.isKnown] at hu
    · simp [hlen]

theorem handleRoles_round_trip (acl : AccessControlListModel)
    (h : rolesNullOrNonEmpty acl.Roles = true) :
    ∃ users, handleRoles acl = .ok users ∧
      (if GoSlice.len users > 0 then rolesToTerraform (GoSlice.elems users) else .null)
        = acl.Roles := by
  obtain ⟨users, roles⟩ := acl
  cases roles with
  | null => exact ⟨none, by simp [handleRoles, TfValue.IsNull], by simp [GoSlice.len]⟩
  | unknown => simp [rolesNullOrNonEmpty] at h
  | known xs =>
    simp only [rolesNullOrNonEmpty, Bool.and_eq_true, Bool.not_eq_true', List.isEmpty_eq_false]
      at h
    obtain ⟨us, hus, hmap, hall⟩ := reflect_role_entries xs h.2
    obtain ⟨res, out, hout, hres, hback, hlen⟩ := appendRoles_round_trip us hall none
    have hres2 : GoSlice.elems res = out := by simpa [GoSlice.elems] using hres
    refine ⟨res, ?_, ?_⟩
    · simp [handleRoles, TfValue.IsNull, TfValue.IsUnknown, ElementsAsRoles, hus, Except.map,
        GoSlice.elems, hout]
    · have hpos : 0 < out.length := by
        rw [hlen, ← List.length_map us TfValue.known, hmap]
        exact List.length_pos.2 h.1
      simp [GoSlice.len_eq_length_elems, hres2, hpos, hback, hmap]

theorem keepNull_rule {α : Type} (p : TfValue α) (a : Option α) :
    formatFieldRule p a (keepNull p a) := by
  cases p <;> simp [formatFieldRule, keepNull, TfValue.IsNull]

theorem ConvertAccelerationRefreshPolicyToTerraform_idem
    (api : Option AccelerationRefreshPolicy) (plan : TfValue AccelerationRefreshPolicyModel) :
    (ConvertAccelerationRefreshPolicyToTerraform api
        (ConvertAccelerationRefreshPolicyToTerraform api plan).1).1
      = (ConvertAccelerationRefreshPolicyToTerraform api plan).1 := by
  cases api <;> cases plan <;>
    simp [ConvertAccelerationRefreshPolicyToTerraform, TfValue.IsNull]

theorem ConvertTableFormatToTerraform_idem (api : Option TableFormatResponse)
    (plan : TfValue TableFormatModel) :
    (ConvertTableFormatToTerraform api (ConvertTableFormatToTerraform api plan).1).1
      = (ConvertTableFormatToTerraform api plan).1 := by
  cases api <;> cases plan <;>
    simp [ConvertTableFormatToTerraform, TfValue.IsNull, keepNull_idem, keepNull_pointerValue]

theorem ConvertACLToTerraform_idem (api : Option AccessControlList)
    (plan : TfValue AccessControlListModel) :
    (ConvertACLToTerraform api (ConvertACLToTerraform api plan).1).1
      = (ConvertACLToTerraform api plan).1 := by
  cases api <;> cases plan <;> simp [ConvertACLToTerraform, TfValue.IsNull]

theorem ConvertACLToTerraform_null (apiACL : Option AccessControlList) :
    (ConvertACLToTerraform apiACL .null).1 = .null := by
  cases apiACL <;> simp [ConvertACLToTerraform, TfValue.IsNull]

/-! ## Lemmas on `strings.Contains` and on a GET answered with 404 -/

theorem hasLeading_append (sub rest : List Char) : hasLeading (sub ++ rest) sub = true := by
  induction sub with
  | nil => cases rest <;> rfl
  | cons c cs ih => simp [hasLeading, ih]

theorem containsChars_of_hasLeading (l sub : List Char) (h : hasLeading l sub = true) :
    containsChars l sub = true := by
  cases l with
  | nil => simpa [containsChars] using h
  | cons c cs => simp [containsChars, h]

theorem containsChars_append_left (pre l sub : List Char) (h : containsChars l sub = true) :
    containsChars (pre ++ l) sub = true := by
  induction pre with
  | nil => simpa using h
  | cons c cs ih => simp [containsChars, ih]

theorem stringsContains_status_404 (b : String) :
    stringsContains ("API request failed with status " ++ toString (404 : Int) ++ ": " ++ b)
      "status 404" = true := by
  have h1 : ("API request failed with status " ++ toString (404 : Int) ++ ": " ++ b).toList
      = "API request failed with ".toList ++ ("status 404".toList ++ (": ".toList ++ b.toList)) := by
    have : toString (404 : Int) = "404" := by decide
    rw [this]
    simp [String.toList]
  unfold stringsContains
  rw [h1]
  exact containsChars_append_left _ _ _
    (containsChars_of_hasLeading _ _ (hasLeading_append _ _))

theorem readGet_of_answered (env : HttpEnv) (c : Client) (path : String) (s : Int) (b : String)
    (h : getAnswered env c path s b) :
    readGet env c path = checkStatus { StatusCode := s, Body := b } := by
  obtain ⟨req, hreq, hdo⟩ := h
  simp [readGet, RequestToDremio, hreq, hdo]

theorem readClassify_404 (unable : String) (env : HttpEnv) (c : Client) (path b : String)
    (h : getAnswered env c path 404 b) :
    readClassify unable (readGet env c path) = .removedFromState := by
  rw [readGet_of_answered env c path 404 b h]
  simp [readClassify, checkStatus, stringsContains_status_404]

/-! ## Lemmas on the path-segment pattern -/

theorem Regex.fullMatch_nothing (l : List Char) : Regex.fullMatch .nothing l = false := by
  induction l with
  | nil => rfl
  | cons c cs ih => simpa [Regex.fullMatch, Regex.deriv] using ih

theorem Regex.fullMatch_star_noneOf (cs : List Char) (l : List Char) :
    Regex.fullMatch (.star (.noneOf cs)) l = l.all fun c => !cs.contains c := by
  induction l with
  | nil => rfl
  | cons c rest ih =>
    by_cases h : c ∈ cs
    · simp [Regex.fullMatch, Regex.deriv, Regex.mkSeq, h, Regex.fullMatch_nothing]
    · simp [Regex.fullMatch, Regex.deriv, Regex.mkSeq, h, ih]

/-! ## Lemmas on `NewClient` -/

theorem NewClient_all_given (env : HttpEnv) (host pat ty pid : String) :
    NewClient env (some host) (some pat) (some ty) (some pid)
      = match testPAT env
            { HostURL := host, PersonalAccessToken := pat, Type_ := ty, ProjectId := pid } with
        | none => none
        | some (some err) => some (none, some err)
        | some none =>
          some (some { HostURL := host, PersonalAccessToken := pat, Type_ := ty,
                       ProjectId := pid }, none) := by
  simp [NewClient]

theorem NewClient_client (env : HttpEnv) (host pat ty pid : String) (cl : Client)
    (err : Option String)
    (h : NewClient env (some host) (some pat) (some ty) (some pid) = some (some cl, err)) :
    cl = { HostURL := host, PersonalAccessToken := pat, Type_ := ty, ProjectId := pid } := by
  rw [NewClient_all_given] at h
  split at h
  · simp at h
  · simp at h
  · simp only [Option.some.injEq, Prod.mk.injEq] at h
    exact h.1.symm

theorem testPAT_of_answered (env : HttpEnv) (c : Client) (s : Int) (b : String)
    (h : getAnswered env c "/catalog" s b) :
    testPAT env c
      = match (checkStatus { StatusCode := s, Body := b }).1 with
        | none => none
        | some resp =>
          if resp.StatusCode ≠ 200 then
            some (some ("login failed. status: " ++ toString resp.StatusCode ++ ", body: "
              ++ resp.Body))
          else some none := by
  have hget := readGet_of_answered env c "/catalog" s b h
  unfold readGet at hget
  simp only [testPAT, hget]

/-- A list of known strings is read back element by element. -/
theorem reflectElems_stringElemAs_known (ss : List String) :
    reflectElems stringElemAs (ss.map TfValue.known) = .ok ss := by
  induction ss with
  | nil => rfl
  | cons s ss ih => simp [reflectElems, stringElemAs, ih]

/-- `ElementsAs` of a known list of known strings is the slice of these strings. -/
theorem ElementsAsStrings_known (ss : List String) :
    ElementsAsStrings (.known (ss.map TfValue.known)) = .ok (some ss) := by
  simp [ElementsAsStrings, reflectElems_stringElemAs_known, Except.map]

/-- The loop over the planned rule objects appends, in order, one rule for every
known object: the object's strings, with the engine name emptied for a `REJECT`. -/
theorem appendRuleInfos_elems (objs : List (TfValue RuleInfoModel))
    (acc : GoSlice (Option RuleInfo)) :
    (appendRuleInfos objs acc).elems
      = acc.elems ++
        (objs.filterMap fun o => match o with | .known m => some m | _ => none).map fun m =>
          some
            { Name := m.Name.valueOr ""
              Condition := m.Condition.valueOr ""
              EngineName := if m.Action.valueOr "" = "REJECT" then "" else m.EngineName.valueOr ""
              Action := m.Action.valueOr ""
              RejectMessage := m.RejectMessage.valueOr "" } := by
  induction objs generalizing acc with
  | nil => simp [appendRuleInfos]
  | cons o rest ih =>
    cases o with
    | null =>
      simp [appendRuleInfos, ConvertRuleInfoFromTerraform, TfValue.IsNull, TfValue.IsUnknown, ih]
    | unknown =>
      simp [appendRuleInfos, ConvertRuleInfoFromTerraform, TfValue.IsNull, TfValue.IsUnknown, ih]
    | known m =>
      have happ : ∀ (s : GoSlice (Option RuleInfo)) (x : Option RuleInfo),
          (s.append x).elems = s.elems ++ [x] := fun _ _ => rfl
      by_cases ha : m.Action.valueOr "" = "REJECT"
      · simp [appendRuleInfos, ConvertRuleInfoFromTerraform, TfValue.IsNull, TfValue.IsUnknown,
          ih, dremioEngineRuleSet.applyRuleInfoDefaults, happ, ha]
      · simp [appendRuleInfos, ConvertRuleInfoFromTerraform, TfValue.IsNull, TfValue.IsUnknown,
          ih, dremioEngineRuleSet.applyRuleInfoDefaults, happ, ha]

/-- The loop finds the first engine with the given name. -/
theorem findEngine_first (pre post : List EngineResponse) (e : EngineResponse) (nm : String)
    (he : e.Name = nm) (hpre : ∀ x ∈ pre, x.Name ≠ nm) :
    dremioEngineDataSource.findEngine (pre ++ e :: post) nm = some e := by
  induction pre with
  | nil => simp [dremioEngineDataSource.findEngine, he]
  | cons x pre ih =>
    have hx : x.Name ≠ nm := hpre x (List.mem_cons_self _ _)
    have hrest : ∀ y ∈ pre, y.Name ≠ nm := fun y hy => hpre y (List.mem_cons_of_mem _ hy)
    simp [dremioEngineDataSource.findEngine, hx, ih hrest]

/-- The loop finds nothing exactly when no engine has the given name. -/
theorem findEngine_eq_none_iff (engines : List EngineResponse) (nm : String) :
    dremioEngineDataSource.findEngine engines nm = none ↔ ∀ x ∈ engines, x.Name ≠ nm := by
  induction engines with
  | nil => simp [dremioEngineDataSource.findEngine]
  | cons x rest ih =>
    by_cases hx : x.Name = nm
    · simp [dremioEngineDataSource.findEngine, hx]
    · simp [dremioEngineDataSource.findEngine, hx, ih]

theorem hasLeading_append_right (l sub post : List Char) (h : hasLeading l sub = true) :
    hasLeading (l ++ post) sub = true := by
  induction sub generalizing l with
  | nil => cases l <;> cases post <;> rfl
  | cons d ds ih =>
    cases l with
    | nil => simp [hasLeading] at h
    | cons c cs =>
      simp only [hasLeading, Bool.and_eq_true] at h
      simp [hasLeading, h.1, ih cs h.2]

theorem containsChars_append_right (l sub post : List Char) (h : containsChars l sub = true) :
    containsChars (l ++ post) sub = true := by
  induction l with
  | nil =>
    cases sub with
    | nil => cases post <;> simp [containsChars, hasLeading]
    | cons d ds => simp [containsChars, hasLeading] at h
  | cons c cs ih =>
    simp only [containsChars, Bool.or_eq_true] at h
    rcases h with h | h
    · have := hasLeading_append_right (c :: cs) sub post h
      simp only [List.cons_append] at this
      simp [containsChars, this]
    · simp [containsChars, ih h]

theorem containsChars_self (l : List Char) : containsChars l l = true := by
  have h := hasLeading_append l []
  rw [List.append_nil] at h
  exact containsChars_of_hasLeading l l h

/-- Every element joined by `String.intercalate` occurs in the result, and so does
what occurred in the text accumulated before. -/
theorem intercalate_go_contains (sep s : String) (rest : List String) (acc : String)
    (h : s ∈ rest ∨ containsChars acc.toList s.toList = true) :
    containsChars (String.intercalate.go acc sep rest).toList s.toList = true := by
  induction rest generalizing acc with
  | nil =>
    rcases h with h | h
    · cases h
    · simpa [String.intercalate.go] using h
  | cons a rest ih =>
    simp only [String.intercalate.go]
    apply ih
    rcases h with h | h
    · rcases List.mem_cons.mp h with h | h
      · right
        subst h
        have : (acc ++ sep ++ s).toList = (acc.toList ++ sep.toList) ++ s.toList := by
          simp [String.toList]
        rw [this]
        exact containsChars_append_left _ _ _ (containsChars_self _)
      · exact Or.inl h
    · right
      have : (acc ++ sep ++ a).toList = acc.toList ++ (sep.toList ++ a.toList) := by
        simp [String.toList]
      rw [this]
      exact containsChars_append_right _ _ _ h

/-- Every segment joined by `strings.Join` occurs verbatim in the result. -/
theorem stringsJoin_contains (segs : List String) (sep s : String) (h : s ∈ segs) :
    stringsContains (stringsJoin segs sep) s = true := by
  cases segs with
  | nil => cases h
  | cons a rest =>
    simp only [stringsContains, stringsJoin, String.intercalate]
    apply intercalate_go_contains
    rcases List.mem_cons.mp h with h | h
    · right
      subst h
      exact containsChars_self _
    · exact Or.inl h

/-- What occurs in the middle of a text occurs in the text. -/
theorem stringsContains_middle (pre mid post s : String)
    (h : stringsContains mid s = true) : stringsContains (pre ++ mid ++ post) s = true := by
  have : (pre ++ mid ++ post).toList = pre.toList ++ (mid.toList ++ post.toList) := by
    simp [String.toList]
  simp only [stringsContains] at h ⊢
  rw [this]
  exact containsChars_append_left _ _ _ (containsChars_append_right _ _ _ h)

/-- The path list of a lookup configured with known segments. -/
theorem lookupPathList_known (segs : List String) :
    lookupPathList (.known (segs.map TfValue.known)) = .ok (some segs) := by
  simp [lookupPathList, TfValue.IsNull, ElementsAsStrings_known]

/-! ## Null preservation of the nested-object helpers -/

/-- C1: for `ConvertACLToTerraform`, `ConvertMetadataPolicyToTerraform` and
`ConvertAccelerationRefreshPolicyToTerraform`, whatever the API value is (nil or
populated), a null plan/state object gives a null result. -/
theorem C1_null_plan_gives_null
    (apiACL : Option AccessControlList) (apiMP : Option MetadataPolicy)
    (apiARP : Option AccelerationRefreshPolicy) :
    (ConvertACLToTerraform apiACL .null).1 = .null ∧
    (ConvertMetadataPolicyToTerraform apiMP .null).1 = .null ∧
    (ConvertAccelerationRefreshPolicyToTerraform apiARP .null).1 = .null := by
  refine ⟨?_, ?_, ?_⟩
  · exact ConvertACLToTerraform_null apiACL
  · cases apiMP <;> simp [ConvertMetadataPolicyToTerraform, TfValue.IsNull]
  · cases apiARP <;> simp [ConvertAccelerationRefreshPolicyToTerraform, TfValue.IsNull]

/-! ## The source resource -/

/-- C2: for a source model whose `metadata_policy` is null, the request body that
`parseResourceToRequestBody` builds, whenever it builds one, has a nil
`MetadataPolicy` and no `metadataPolicy` member in its JSON; and for every
response carrying id, type, name, tag and any metadata policy,
`fromResponseToState` returns a model whose `metadata_policy` is null. -/
theorem C2_source_metadata_policy_end_to_end (codec : ConfigCodec) (data : DremioSourceModel)
    (hnull : data.MetadataPolicy = .null) :
    (∀ body d, dremioSource.parseResourceToRequestBody codec data = (some body, d) →
        body.MetadataPolicy = none ∧ "metadataPolicy" ∉ body.jsonKeys) ∧
    (∀ resp id ty name tag mp, resp.ID = some id → resp.Type_ = some ty →
        resp.Name = some name → resp.Tag = some tag → resp.MetadataPolicy = some mp →
        ∃ st d, dremioSource.fromResponseToState resp data = some (st, d) ∧
          st.MetadataPolicy = .null) := by
  constructor
  · intro body d h
    have hmp : body.MetadataPolicy = none := by
      unfold dremioSource.parseResourceToRequestBody at h
      cases hc : parseConfigBlock codec data with
      | error e => simp [hc] at h
      | ok config =>
        simp only [hc] at h
        by_cases he : (ConvertACLFromTerraform data.AccessControlList).2.HasError = true
        · simp [he] at h
        · rw [if_neg he] at h
          simp only [Prod.mk.injEq, Option.some.injEq] at h
          rw [← h.1]
          simp [parseMetadataPolicyBlock, hnull, TfValue.IsNull]
    refine ⟨hmp, ?_⟩
    simp [SourceRequest.jsonKeys, hmp]
  · intro resp id ty name tag mp hid hty hname htag hmp
    simp [dremioSource.fromResponseToState, hid, hty, hname, htag, hmp, hnull, TfValue.IsNull]

/-- C2 at `sampleSourceModel`: the request is built and carries no metadata
policy, and the server's default policy does not reach the state. -/
theorem C2_source_metadata_policy_end_to_end_witness :
    (∃ body, (dremioSource.parseResourceToRequestBody sampleCodec sampleSourceModel).1 = some body ∧
        body.MetadataPolicy = none ∧ "metadataPolicy" ∉ body.jsonKeys) ∧
    (∃ st d, dremioSource.fromResponseToState sampleSourceResponse sampleSourceModel
        = some (st, d) ∧ st.MetadataPolicy = .null) :=
  ⟨⟨_, rfl, (C2_source_metadata_policy_end_to_end sampleCodec sampleSourceModel rfl).1 _ _ rfl⟩,
    (C2_source_metadata_policy_end_to_end sampleCodec sampleSourceModel rfl).2
      sampleSourceResponse _ _ _ _ _ rfl rfl rfl rfl rfl⟩

/-- C3 as stated fails: `sampleSourceModel` has a null `acceleration_grace_period_ms`,
a null `acceleration_refresh_period_ms` and a null `acceleration_active_policy_type`,
and `fromResponseToState` fills all three from the response. -/
theorem C3_acceleration_scalars_counterexample :
    sampleSourceModel.AccelerationGracePeriodMs = .null ∧
    sampleSourceModel.AccelerationRefreshPeriodMs = .null ∧
    sampleSourceModel.AccelerationActivePolicyType = .null ∧
    (dremioSource.fromResponseToState sampleSourceResponse sampleSourceModel).map
        (fun r => (r.1.AccelerationGracePeriodMs, r.1.AccelerationRefreshPeriodMs,
          r.1.AccelerationActivePolicyType))
      = some (.known 10800000, .known 3600000, .known "PERIOD") := by
  refine ⟨rfl, rfl, rfl, ?_⟩
  rfl

/-- C3, amended: `fromResponseToState` of the source returns a model whenever the
response lacks an id or carries type, name and tag; in the model it returns, a
`metadata_policy` or `access_control_list` that was null is still null, whatever
the response carries, while the four acceleration scalars are those of the
response (null when the response omits them) as soon as the response has an id. -/
theorem C3_source_null_preservation (resp : SourceResponse) (m : DremioSourceModel) :
    ((resp.ID = none ∨ (resp.Type_.isSome ∧ resp.Name.isSome ∧ resp.Tag.isSome)) →
        (dremioSource.fromResponseToState resp m).isSome) ∧
    (∀ st d, dremioSource.fromResponseToState resp m = some (st, d) →
      (m.MetadataPolicy = .null → st.MetadataPolicy = .null) ∧
      (m.AccessControlList = .null → st.AccessControlList = .null) ∧
      (resp.ID.isSome →
        st.AccelerationGracePeriodMs = valueOrNull resp.AccelerationGracePeriodMs ∧
        st.AccelerationRefreshPeriodMs = valueOrNull resp.AccelerationRefreshPeriodMs ∧
        st.AccelerationActivePolicyType = valueOrNull resp.AccelerationActivePolicyType ∧
        st.AccelerationRefreshSchedule = valueOrNull resp.AccelerationRefreshSchedule)) := by
  obtain ⟨rid, rtag, rty, rname, rmp, r1, r2, r3, r4, r5, r6, racl, rperm⟩ := resp
  constructor
  · rintro (h | ⟨h1, h2, h3⟩)
    · simp only at h
      subst h
      simp [dremioSource.fromResponseToState]
    · cases rid <;> cases rty <;> cases rname <;> cases rtag <;>
        simp_all [dremioSource.fromResponseToState]
  · intro st d h
    cases rid with
    | none =>
      simp [dremioSource.fromResponseToState] at h
      obtain ⟨rfl, -⟩ := h
      simp
    | some id =>
      cases rty <;> cases rname <;> cases rtag <;>
        simp only [dremioSource.fromResponseToState, reduceCtorEq, Option.some.injEq,
          Prod.mk.injEq] at h
      obtain ⟨rfl, -⟩ := h
      refine ⟨?_, ?_, ?_⟩
      · intro hm
        cases rmp <;> simp [hm, TfValue.IsNull]
      · intro hm
        have := ConvertACLToTerraform_null racl
        simpa [hm] using this
      · intro _
        simp

/-- C3 (amended) at the sample response: the call returns, and its result keeps the
two null nested objects null. -/
theorem C3_source_null_preservation_witness :
    (dremioSource.fromResponseToState sampleSourceResponse sampleSourceModel).isSome ∧
    (∃ st d, dremioSource.fromResponseToState sampleSourceResponse sampleSourceModel
        = some (st, d) ∧ st.MetadataPolicy = .null ∧ st.AccessControlList = .null) :=
  ⟨(C3_source_null_preservation sampleSourceResponse sampleSourceModel).1
      (Or.inr ⟨rfl, rfl, rfl⟩),
    ⟨_, _, rfl,
      ((C3_source_null_preservation sampleSourceResponse sampleSourceModel).2 _ _ rfl).1 rfl,
      ((C3_source_null_preservation sampleSourceResponse sampleSourceModel).2 _ _ rfl).2.1 rfl⟩⟩

/-! ## Round trips of explicitly set blocks -/

/-- C4: for a known metadata policy, acceleration refresh policy or table format
(with a known type) whose attributes are each null or known, converting it to the
API form with the `...FromTerraform` helper and converting the unaltered echo back
with the `...ToTerraform` helper, with the object itself as the plan, returns
exactly that object. -/
theorem C4_policy_round_trip (mp : MetadataPolicyModel) (arp : AccelerationRefreshPolicyModel)
    (tf : TableFormatModel) (ro : TableFormatResponse) (t : String)
    (hmp : mp.attrsNullOrKnown = true) (harp : arp.attrsNullOrKnown = true)
    (htf : tf.attrsNullOrKnown = true) (hty : tf.Type_ = .known t) :
    ConvertMetadataPolicyToTerraform (ConvertMetadataPolicyFromTerraform (.known mp)).1
        (.known mp) = (.known mp, []) ∧
    ConvertAccelerationRefreshPolicyToTerraform
        (ConvertAccelerationRefreshPolicyFromTerraform (.known arp)).1 (.known arp)
      = (.known arp, []) ∧
    ConvertTableFormatToTerraform
        ((ConvertTableFormatFromTerraform (.known tf)).1.map fun req => echoTableFormat req ro)
        (.known tf) = (.known tf, []) := by
  refine ⟨?_, ?_, ?_⟩
  · obtain ⟨a1, a2, a3, a4, a5, a6, a7⟩ := mp
    simp only [MetadataPolicyModel.attrsNullOrKnown, Bool.and_eq_true] at hmp
    simp [ConvertMetadataPolicyToTerraform, ConvertMetadataPolicyFromTerraform, TfValue.IsNull,
      valueOrNull_pointerIfSet, hmp]
  · obtain ⟨a1, a2, a3, a4, a5, a6, a7⟩ := arp
    simp only [AccelerationRefreshPolicyModel.attrsNullOrKnown, Bool.and_eq_true] at harp
    simp [ConvertAccelerationRefreshPolicyToTerraform,
      ConvertAccelerationRefreshPolicyFromTerraform, TfValue.IsNull, valueOrNull_pointerIfSet,
      harp]
  · obtain ⟨a0, a1, a2, a3, a4, a5, a6, a7, a8, a9, a10, a11, a12⟩ := tf
    simp only [TableFormatModel.attrsNullOrKnown, Bool.and_eq_true] at htf
    simp only at hty
    subst hty
    simp [ConvertTableFormatToTerraform, ConvertTableFormatFromTerraform, echoTableFormat,
      TfValue.IsNull, TfValue.valueOr, keepNull_pointerIfSet, htf]

/-- C4 at the three sample blocks. -/
theorem C4_policy_round_trip_witness :
    ConvertMetadataPolicyToTerraform
        (ConvertMetadataPolicyFromTerraform (.known sampleMetadataPolicyModel)).1
        (.known sampleMetadataPolicyModel) = (.known sampleMetadataPolicyModel, []) ∧
    ConvertAccelerationRefreshPolicyToTerraform
        (ConvertAccelerationRefreshPolicyFromTerraform (.known sampleRefreshPolicyModel)).1
        (.known sampleRefreshPolicyModel) = (.known sampleRefreshPolicyModel, []) ∧
    ConvertTableFormatToTerraform
        ((ConvertTableFormatFromTerraform (.known sampleTableFormatModel)).1.map
          fun req => echoTableFormat req sampleReadOnlyFormat)
        (.known sampleTableFormatModel) = (.known sampleTableFormatModel, []) :=
  C4_policy_round_trip sampleMetadataPolicyModel sampleRefreshPolicyModel sampleTableFormatModel
    sampleReadOnlyFormat "Text" rfl rfl rfl rfl

/-! ## Table format merge -/

/-- C6: `ConvertTableFormatToTerraform` on a known plan format and a non-nil API
format returns a known format whose type is the API's type and each of whose
twelve optional attributes is null when it is null in the plan and the API's value
(null when the API omits it) when it is not null in the plan. -/
theorem C6_table_format_merge (api : TableFormatResponse) (plan : TableFormatModel) :
    ∃ r, ConvertTableFormatToTerraform (some api) (.known plan) = (.known r, []) ∧
      r.Type_ = .known api.Type_ ∧
      formatFieldRule plan.IgnoreOtherFileFormats api.IgnoreOtherFileFormats
        r.IgnoreOtherFileFormats ∧
      formatFieldRule plan.SkipFirstLine api.SkipFirstLine r.SkipFirstLine ∧
      formatFieldRule plan.ExtractHeader api.ExtractHeader r.ExtractHeader ∧
      formatFieldRule plan.HasMergedCells api.HasMergedCells r.HasMergedCells ∧
      formatFieldRule plan.SheetName api.SheetName r.SheetName ∧
      formatFieldRule plan.FieldDelimiter api.FieldDelimiter r.FieldDelimiter ∧
      formatFieldRule plan.Quote api.Quote r.Quote ∧
      formatFieldRule plan.Comment api.Comment r.Comment ∧
      formatFieldRule plan.Escape api.Escape r.Escape ∧
      formatFieldRule plan.LineDelimiter api.LineDelimiter r.LineDelimiter ∧
      formatFieldRule plan.AutoGenerateColumnNames api.AutoGenerateColumnNames
        r.AutoGenerateColumnNames ∧
      formatFieldRule plan.TrimHeader api.TrimHeader r.TrimHeader := by
  refine ⟨_, rfl, rfl, ?_⟩
  simp only [keepNull_rule, and_self]

/-! ## Refresh of a table -/

/-- C7: refreshing a table is idempotent: applying `fromResponseToState` with the
response `r` to the model it produced from `r` and `m` gives that same model. -/
theorem C7_table_refresh_idempotent (r : TableResponse) (m : DremioTableModel) :
    (dremioTable.fromResponseToState r (dremioTable.fromResponseToState r m).1).1
      = (dremioTable.fromResponseToState r m).1 := by
  simp only [dremioTable.fromResponseToState, ConvertAccelerationRefreshPolicyToTerraform_idem,
    ConvertTableFormatToTerraform_idem, ConvertACLToTerraform_idem]

/-! ## Round trip of the access control list -/

/-- C5 as stated fails on an empty list: `emptyUsersACL` has `users = []`, which the
statement admits, yet the round trip returns `users = null`. -/
theorem C5_empty_list_counterexample :
    (∃ acl, emptyUsersACL = .known acl ∧ usersNullOrKnownList acl.Users = true ∧
        rolesNullOrKnownList acl.Roles = true) ∧
    ConvertACLToTerraform (ConvertACLFromTerraform emptyUsersACL).1 emptyUsersACL
      = (.known { Users := .null, Roles := .null }, []) ∧
    (ConvertACLToTerraform (ConvertACLFromTerraform emptyUsersACL).1 emptyUsersACL).1
      ≠ emptyUsersACL := by
  refine ⟨⟨_, rfl, rfl, rfl⟩, rfl, ?_⟩
  decide

/-- C5, amended: for a known access control list whose `users` and `roles` are each
null or a known non-empty list of known entries with a known id and a known list of
known permission strings, `ConvertACLToTerraform(ConvertACLFromTerraform(V), V)`
returns exactly `V`, without diagnostics. -/
theorem C5_acl_round_trip (acl : AccessControlListModel)
    (hu : usersNullOrNonEmpty acl.Users = true) (hr : rolesNullOrNonEmpty acl.Roles = true) :
    ConvertACLToTerraform (ConvertACLFromTerraform (.known acl)).1 (.known acl)
      = (.known acl, []) := by
  obtain ⟨users, husers, hback⟩ := handleUsers_round_trip acl hu
  obtain ⟨roles, hroles, hbackr⟩ := handleRoles_round_trip acl hr
  simp [ConvertACLFromTerraform, husers, hroles, ConvertACLToTerraform, TfValue.IsNull, hback,
    hbackr]

/-- C5 (amended) at an access control list with one user and one role. -/
theorem C5_acl_round_trip_witness :
    ConvertACLToTerraform (ConvertACLFromTerraform (.known sampleACLModel)).1
      (.known sampleACLModel) = (.known sampleACLModel, []) :=
  C5_acl_round_trip sampleACLModel rfl rfl

/-! ## The transport client -/

/-- C8: the URL `RequestToDremio` builds is host, "/v0/projects/", project id, path
for a "cloud" client when the global flag is absent or false; host, "/v0", path for
a "cloud" client when the flag is true; host, "/api/v3", path for every other client
type, whatever the flag and the project id; and that URL is the one of the request
handed to the HTTP client. -/
theorem C8_request_url (c : Client) (path : String) (isGlobalEndpoint : List Bool) :
    (c.Type_ = "cloud" → (isGlobalEndpoint = [] ∨ isGlobalEndpoint.head? = some false) →
      requestURL c path isGlobalEndpoint
        = c.HostURL ++ "/v0/projects/" ++ c.ProjectId ++ path) ∧
    (c.Type_ = "cloud" → isGlobalEndpoint.head? = some true →
      requestURL c path isGlobalEndpoint = c.HostURL ++ "/v0" ++ path) ∧
    (c.Type_ ≠ "cloud" → requestURL c path isGlobalEndpoint = c.HostURL ++ "/api/v3" ++ path) ∧
    (∀ (β : Type) (env : HttpEnv) (marshal : β → Except String String) (method : String)
        (body : Option β) (req : HttpRequest),
      prepareRequest env marshal c method path body isGlobalEndpoint = .ok req →
        req.url = requestURL c path isGlobalEndpoint) := by
  refine ⟨?_, ?_, ?_, ?_⟩
  · intro hc hg
    rcases hg with rfl | hg
    · simp [requestURL, hc]
    · cases isGlobalEndpoint with
      | nil => simp at hg
      | cons g gs =>
        simp only [List.head?_cons, Option.some.injEq] at hg
        simp [requestURL, hc, hg]
  · intro hc hg
    cases isGlobalEndpoint with
    | nil => simp at hg
    | cons g gs =>
      simp only [List.head?_cons, Option.some.injEq] at hg
      simp [requestURL, hc, hg]
  · intro hc
    simp [requestURL, hc]
  · intro β env marshal method body req h
    unfold prepareRequest at h
    cases body with
    | none =>
      simp only at h
      cases hn : env.newRequestError method (requestURL c path isGlobalEndpoint) with
      | some e => simp [hn] at h
      | none =>
        simp only [hn, Except.ok.injEq] at h
        rw [← h]
    | some b =>
      simp only at h
      cases hm : marshal b with
      | error e => simp [hm] at h
      | ok j =>
        simp only [hm] at h
        cases hn : env.newRequestError method (requestURL c path isGlobalEndpoint) with
        | some e => simp [hn] at h
        | none =>
          simp only [hn, Except.ok.injEq] at h
          rw [← h]

/-- C8 at host `H`, project `P` and path `/catalog/x`: the three URLs, and the URL
of the request a cloud client prepares. -/
theorem C8_request_url_witness :
    requestURL cloudClient "/catalog/x" [] = "H/v0/projects/P/catalog/x" ∧
    requestURL cloudClient "/catalog/x" [false] = "H/v0/projects/P/catalog/x" ∧
    requestURL cloudClient "/catalog/x" [true] = "H/v0/catalog/x" ∧
    requestURL softwareClient "/catalog/x" [true] = "H/api/v3/catalog/x" ∧
    (∃ req, prepareRequest failingEnv textMarshal cloudClient "GET" "/catalog/x" none [true]
        = .ok req ∧ req.url = "H/v0/catalog/x") :=
  ⟨(C8_request_url cloudClient "/catalog/x" []).1 rfl (Or.inl rfl),
    (C8_request_url cloudClient "/catalog/x" [false]).1 rfl (Or.inr rfl),
    (C8_request_url cloudClient "/catalog/x" [true]).2.1 rfl rfl,
    (C8_request_url softwareClient "/catalog/x" [true]).2.2.1 (by decide),
    ⟨_, rfl, (C8_request_url cloudClient "/catalog/x" [true]).2.2.2 String failingEnv textMarshal
      "GET" none _ rfl⟩⟩

/-- C9: when the HTTP client returns a response with status `s` and body `b`,
`RequestToDremio` returns that response, with no error when `200 <= s < 300`, and
for every other `s` with the error "API request failed with status s: b". -/
theorem C9_status_classification {β : Type} (env : HttpEnv) (marshal : β → Except String String)
    (c : Client) (method path : String) (body : Option β) (isGlobalEndpoint : List Bool)
    (req : HttpRequest) (s : Int) (b : String)
    (hreq : prepareRequest env marshal c method path body isGlobalEndpoint = .ok req)
    (hdo : env.doRequest req = .ok { StatusCode := s, Body := b }) :
    (RequestToDremio env marshal c method path body isGlobalEndpoint).1.map
        (fun r => r.StatusCode) = some s ∧
    (200 ≤ s ∧ s < 300 →
      (RequestToDremio env marshal c method path body isGlobalEndpoint).2 = none) ∧
    (¬(200 ≤ s ∧ s < 300) →
      (RequestToDremio env marshal c method path body isGlobalEndpoint).2
        = some ("API request failed with status " ++ toString s ++ ": " ++ b)) := by
  have hrun : RequestToDremio env marshal c method path body isGlobalEndpoint
      = checkStatus { StatusCode := s, Body := b } := by
    simp [RequestToDremio, hreq, hdo]
  rw [hrun]
  refine ⟨?_, ?_, ?_⟩
  · unfold checkStatus
    split <;> rfl
  · intro h
    have : ¬(s < 200 ∨ s ≥ 300) := by omega
    simp [checkStatus, this]
  · intro h
    have : s < 200 ∨ s ≥ 300 := by omega
    simp [checkStatus, this]

/-- C9 at status 201 (no error) and at status 500 with body "boom". -/
theorem C9_status_classification_witness :
    (RequestToDremio (constEnv 201 "ok") textMarshal cloudClient "POST" "/catalog"
        (some "body") []).2 = none ∧
    (RequestToDremio (constEnv 500 "boom") textMarshal cloudClient "GET" "/catalog/x"
        none []).2 = some "API request failed with status 500: boom" :=
  ⟨(C9_status_classification (constEnv 201 "ok") textMarshal cloudClient "POST" "/catalog"
      (some "body") [] _ 201 "ok" rfl rfl).2.1 (by decide),
    (C9_status_classification (constEnv 500 "boom") textMarshal cloudClient "GET" "/catalog/x"
      none [] _ 500 "boom" rfl rfl).2.2 (by decide)⟩

/-! ## Classification of a failed GET by `Read` -/

/-- C10 fails on the code: for status 500 with the body "upstream returned status
404", `RequestToDremio` returns the error "API request failed with status 500:
upstream returned status 404", and `Read` (whatever its wording) finds "status 404"
in it and removes the resource from state instead of reporting an error. -/
theorem C10_read_500_removed_from_state :
    (RequestToDremio failingEnv textMarshal cloudClient "GET" "/catalog/abc" none []).2
      = some "API request failed with status 500: upstream returned status 404" ∧
    ∀ unable : String,
      readClassify unable
          (RequestToDremio failingEnv textMarshal cloudClient "GET" "/catalog/abc" none [])
        = .removedFromState := by
  refine ⟨rfl, fun unable => ?_⟩
  rfl

/-! ## `Read` on a GET that fails with status 404 -/

/-- C11 as stated fails for the engine rule set: when the server answers 404 with
the body "gone", its `Read` does not remove the resource from state but reports a
`Client Error` diagnostic. -/
theorem C11_engine_rule_set_counterexample :
    getAnswered (constEnv 404 "gone") cloudClient "/rules" 404 "gone" ∧
    dremioEngineRuleSet.Read (constEnv 404 "gone") cloudClient
      = .clientError
          "Unable to read engine rules, got error: API request failed with status 404: gone" ∧
    dremioEngineRuleSet.Read (constEnv 404 "gone") cloudClient ≠ .removedFromState := by
  refine ⟨⟨_, rfl, rfl⟩, rfl, ?_⟩
  decide

/-- C11, amended: when its GET is answered with status 404 (whatever the body),
the `Read` of the source, folder, table, UDF, view, dataset-tags, dataset-wiki,
grants and data-maintenance resources removes the resource from state and reports
no error; the `Read` of the engine rule set reports a `Client Error` carrying the
transport error and removes nothing. -/
theorem C11_read_not_found (env : HttpEnv) (c : Client) (id b : String) :
    (getAnswered env c ("/catalog/" ++ id) 404 b →
      dremioSource.Read env c id = .removedFromState ∧
      dremioFolder.Read env c id = .removedFromState ∧
      dremioTable.Read env c id = .removedFromState ∧
      dremioUDF.Read env c id = .removedFromState ∧
      dremioView.Read env c id = .removedFromState) ∧
    (getAnswered env c ("/catalog/" ++ id ++ "/collaboration/tag") 404 b →
      dremioDatasetTags.Read env c id = .removedFromState) ∧
    (getAnswered env c ("/catalog/" ++ id ++ "/collaboration/wiki") 404 b →
      dremioDatasetWiki.Read env c id = .removedFromState) ∧
    (getAnswered env c ("/catalog/" ++ id ++ "/grants") 404 b →
      dremioGrants.Read env c id = .removedFromState) ∧
    (getAnswered env c ("/maintenance/tasks/" ++ id) 404 b →
      dremioDataMaintenance.Read env c id = .removedFromState) ∧
    (getAnswered env c "/rules" 404 b →
      dremioEngineRuleSet.Read env c
        = .clientError ("Unable to read engine rules, got error: "
            ++ ("API request failed with status " ++ toString (404 : Int) ++ ": " ++ b))) := by
  refine ⟨fun h => ⟨?_, ?_, ?_, ?_, ?_⟩, fun h => ?_, fun h => ?_, fun h => ?_, fun h => ?_,
    fun h => ?_⟩
  · exact readClassify_404 _ env c _ b h
  · exact readClassify_404 _ env c _ b h
  · exact readClassify_404 _ env c _ b h
  · exact readClassify_404 _ env c _ b h
  · exact readClassify_404 _ env c _ b h
  · exact readClassify_404 _ env c _ b h
  · exact readClassify_404 _ env c _ b h
  · exact readClassify_404 _ env c _ b h
  · exact readClassify_404 _ env c _ b h
  · simp [dremioEngineRuleSet.Read, readGet_of_answered env c "/rules" 404 b h, checkStatus]

/-- C11 (amended) at a server answering every GET with status 404 and body "gone". -/
theorem C11_read_not_found_witness :
    dremioSource.Read (constEnv 404 "gone") cloudClient "abc" = .removedFromState ∧
    dremioDatasetTags.Read (constEnv 404 "gone") cloudClient "abc" = .removedFromState ∧
    dremioDatasetWiki.Read (constEnv 404 "gone") cloudClient "abc" = .removedFromState ∧
    dremioGrants.Read (constEnv 404 "gone") cloudClient "abc" = .removedFromState ∧
    dremioDataMaintenance.Read (constEnv 404 "gone") cloudClient "abc" = .removedFromState ∧
    dremioEngineRuleSet.Read (constEnv 404 "gone") cloudClient
      = .clientError
          "Unable to read engine rules, got error: API request failed with status 404: gone" :=
  ⟨((C11_read_not_found (constEnv 404 "gone") cloudClient "abc" "gone").1 ⟨_, rfl, rfl⟩).1,
    (C11_read_not_found (constEnv 404 "gone") cloudClient "abc" "gone").2.1 ⟨_, rfl, rfl⟩,
    (C11_read_not_found (constEnv 404 "gone") cloudClient "abc" "gone").2.2.1 ⟨_, rfl, rfl⟩,
    (C11_read_not_found (constEnv 404 "gone") cloudClient "abc" "gone").2.2.2.1 ⟨_, rfl, rfl⟩,
    (C11_read_not_found (constEnv 404 "gone") cloudClient "abc" "gone").2.2.2.2.1 ⟨_, rfl, rfl⟩,
    (C11_read_not_found (constEnv 404 "gone") cloudClient "abc" "gone").2.2.2.2.2 ⟨_, rfl, rfl⟩⟩

/-- The engine's `Read` on a GET answered with status 404: `readEngineState` removes
the resource from the response state and returns without a diagnostic, after which
`Read` calls `State.Set` with the unchanged model, so the response hands the prior
state back. -/
theorem dremioEngine_Read_404_sets_state_again {σ : Type} (env : HttpEnv) (c : Client)
    (refresh : String → Except String (σ → σ)) (state : σ) (id b : String)
    (h : getAnswered env c ("/engines/" ++ id) 404 b) :
    (dremioEngine.readEngineState env c refresh state id
        { State := some state, Diagnostics := [] }).map (fun r => r.2.State) = some none ∧
    (dremioEngine.Read env c refresh state id).map (fun r => (r.State, r.Diagnostics))
      = some (some state, []) := by
  have hget := readGet_of_answered env c _ 404 b h
  constructor
  · simp [dremioEngine.readEngineState, hget, checkStatus]
  · simp [dremioEngine.Read, dremioEngine.readEngineState, hget, checkStatus,
      Diagnostics.HasError]

/-! ## The tag of an `Update` -/

/-- C12: for the source, folder, table, UDF and view resources, whenever `Update`
builds its request it is a PUT whose body carries the tag held in the prior state
(`state.Tag.ValueString()`), and the request is the same whatever tag value the
plan holds. -/
theorem C12_update_tag_from_state (codec : ConfigCodec) (sp ss : DremioSourceModel)
    (fp fs : DremioFolderModel) (tp ts : DremioTableModel) (up us : DremioUDFModel)
    (vp vs : DremioViewModel) (t : TfValue String) :
    ((∀ call, dremioSource.updateCall codec sp ss = some call →
        call.method = "PUT" ∧ call.body.map (fun b => b.Tag) = some (ss.Tag.valueOr "")) ∧
      dremioSource.updateCall codec { sp with Tag := t } ss
        = dremioSource.updateCall codec sp ss) ∧
    ((∀ call, dremioFolder.updateCall fp fs = some call →
        call.method = "PUT" ∧ call.body.map (fun b => b.Tag) = some (fs.Tag.valueOr "")) ∧
      dremioFolder.updateCall { fp with Tag := t } fs = dremioFolder.updateCall fp fs) ∧
    ((∀ call, dremioTable.updateCall tp ts = some call →
        call.method = "PUT" ∧ call.body.map (fun b => b.Tag) = some (ts.Tag.valueOr "")) ∧
      dremioTable.updateCall { tp with Tag := t } ts = dremioTable.updateCall tp ts) ∧
    ((∀ call, dremioUDF.updateCall up us = some call →
        call.method = "PUT" ∧ call.body.map (fun b => b.Tag) = some (us.Tag.valueOr "")) ∧
      dremioUDF.updateCall { up with Tag := t } us = dremioUDF.updateCall up us) ∧
    ((∀ call, dremioView.updateCall vp vs = some call →
        call.method = "PUT" ∧ call.body.map (fun b => b.Tag) = some (vs.Tag.valueOr "")) ∧
      dremioView.updateCall { vp with Tag := t } vs = dremioView.updateCall vp vs) := by
  refine ⟨⟨?_, rfl⟩, ⟨?_, ?_⟩, ⟨?_, rfl⟩, ⟨?_, rfl⟩, ⟨?_, rfl⟩⟩
  · intro call h
    unfold dremioSource.updateCall at h
    cases hp : (dremioSource.parseResourceToRequestBody codec sp).1 with
    | none => simp [hp] at h
    | some body =>
      simp only [hp, Option.some.injEq] at h
      subst h
      simp
  · intro call h
    unfold dremioFolder.updateCall at h
    cases hp : (dremioFolder.parseResourceToRequestBodyUpdate fp).1 with
    | none => simp [hp] at h
    | some body =>
      simp only [hp, Option.some.injEq] at h
      subst h
      simp
  · unfold dremioFolder.updateCall dremioFolder.parseResourceToRequestBodyUpdate
    simp only
    cases stringListBlock fp.Path with
    | error e => rfl
    | ok path =>
      simp only
      by_cases he : (ConvertACLFromTerraform fp.AccessControlList).2.HasError = true
      · simp [he]
      · simp [he]
  · intro call h
    unfold dremioTable.updateCall at h
    cases hp : (dremioTable.parseResourceToRequestBody tp).1 with
    | none => simp [hp] at h
    | some body =>
      simp only [hp, Option.some.injEq] at h
      subst h
      simp
  · intro call h
    unfold dremioUDF.updateCall at h
    cases hp : (dremioUDF.parseResourceToRequestBody up).1 with
    | none => simp [hp] at h
    | some body =>
      simp only [hp, Option.some.injEq] at h
      subst h
      simp
  · intro call h
    unfold dremioView.updateCall at h
    cases hp : (dremioView.parseResourceToRequestBody vp).1 with
    | none => simp [hp] at h
    | some body =>
      simp only [hp, Option.some.injEq] at h
      subst h
      simp

/-- C12 at five sample plan/state pairs: each request is built and carries the
state's tag "v1", not the plan's. -/
theorem C12_update_tag_from_state_witness :
    (∃ call, dremioSource.updateCall sampleCodec sampleSourcePlan sampleSourceState = some call ∧
      call.body.map (fun b => b.Tag) = some "v1") ∧
    (∃ call, dremioFolder.updateCall sampleFolderPlan sampleFolderState = some call ∧
      call.body.map (fun b => b.Tag) = some "v1") ∧
    (∃ call, dremioTable.updateCall sampleTablePlan sampleTableState = some call ∧
      call.body.map (fun b => b.Tag) = some "v1") ∧
    (∃ call, dremioUDF.updateCall sampleUDFPlan sampleUDFState = some call ∧
      call.body.map (fun b => b.Tag) = some "v1") ∧
    (∃ call, dremioView.updateCall sampleViewPlan sampleViewState = some call ∧
      call.body.map (fun b => b.Tag) = some "v1") :=
  have h := C12_update_tag_from_state sampleCodec sampleSourcePlan sampleSourceState
    sampleFolderPlan sampleFolderState sampleTablePlan sampleTableState sampleUDFPlan
    sampleUDFState sampleViewPlan sampleViewState .null
  ⟨⟨_, rfl, (h.1.1 _ rfl).2⟩, ⟨_, rfl, (h.2.1.1 _ rfl).2⟩, ⟨_, rfl, (h.2.2.1.1 _ rfl).2⟩,
    ⟨_, rfl, (h.2.2.2.1.1 _ rfl).2⟩, ⟨_, rfl, (h.2.2.2.2.1 _ rfl).2⟩⟩

/-! ## `Delete` of dataset tags and wiki -/

/-- C13: for every state, `Delete` of the dataset tags and of the dataset wiki makes
exactly one call, a POST (not a DELETE) to the collaboration endpoint of
`state.dataset_id`, whose body carries the empty value (the tags as the empty
non-nil slice, written `[]` and not `null`; the wiki text as the empty string)
together with the version held in state. -/
theorem C13_delete_is_empty_update
    (sendTag : ApiCall TagRequest → Option HttpResponse × Option String)
    (sendWiki : ApiCall WikiRequest → Option HttpResponse × Option String)
    (tags : DremioDatasetTagsModel) (wiki : DremioDatasetWikiModel)
    (quote : String → String) :
    (∃ call body, (dremioDatasetTags.Delete sendTag tags).1 = [call] ∧
      call.method = "POST" ∧ call.method ≠ "DELETE" ∧
      call.path = "/catalog/" ++ tags.DatasetID.valueOr "" ++ "/collaboration/tag" ∧
      call.body = some body ∧ body.Tags = some [] ∧ jsonStringArray quote body.Tags = "[]" ∧
      body.Version = tags.Version.valueOr "") ∧
    (∃ call body, (dremioDatasetWiki.Delete sendWiki wiki).1 = [call] ∧
      call.method = "POST" ∧ call.method ≠ "DELETE" ∧
      call.path = "/catalog/" ++ wiki.DatasetID.valueOr "" ++ "/collaboration/wiki" ∧
      call.body = some body ∧ body.Text = "" ∧
      body.Version = some (wiki.Version.valueOr 0)) := by
  constructor
  · refine ⟨{ method := "POST"
              path := "/catalog/" ++ tags.DatasetID.valueOr "" ++ "/collaboration/tag"
              body := some { Tags := some [], Version := tags.Version.valueOr "" } },
      { Tags := some [], Version := tags.Version.valueOr "" },
      ?_, rfl, ?_, rfl, rfl, rfl, ?_, rfl⟩
    · unfold dremioDatasetTags.Delete
      dsimp only
      split <;> rfl
    · show "POST" ≠ "DELETE"
      decide
    · show jsonStringArray quote (some []) = "[]"
      rfl
  · refine ⟨{ method := "POST"
              path := "/catalog/" ++ wiki.DatasetID.valueOr "" ++ "/collaboration/wiki"
              body := some { ID := "", Text := "", Version := some (wiki.Version.valueOr 0) } },
      { ID := "", Text := "", Version := some (wiki.Version.valueOr 0) },
      ?_, rfl, ?_, rfl, rfl, rfl, rfl⟩
    · unfold dremioDatasetWiki.Delete
      dsimp only
      split <;> rfl
    · show "POST" ≠ "DELETE"
      decide

/-! ## Lookups by id or by path -/

/-- C14: in the table, view, UDF and folder data sources, for every id string and
path list, an id and a path that are both non-empty, or both empty, give a
validation diagnostic and no request; an id alone gives a GET of `/catalog/{id}`
and a path alone a GET of the by-path endpoint (the folder lookup appends its
`maxChildren` query, which is empty when `max_children` is null). -/
theorem C14_lookup_exactly_one (id : String) (path : GoSlice String) (mc : TfValue Int) :
    (id ≠ "" → path.len > 0 →
      dremioTableDataSource.lookup id path = .diagnostic "Both Table ID and Path specified" ∧
      dremioViewDataSource.lookup id path = .diagnostic "Both View ID and Path specified" ∧
      dremioUDFDataSource.lookup id path = .diagnostic "Both UDF ID and Path specified" ∧
      dremioFolderDataSource.lookup id path mc
        = .diagnostic "Both Folder ID and Path specified") ∧
    (id = "" → path.len = 0 →
      dremioTableDataSource.lookup id path = .diagnostic "Missing Table ID or Path" ∧
      dremioViewDataSource.lookup id path = .diagnostic "Missing View ID or Path" ∧
      dremioUDFDataSource.lookup id path = .diagnostic "Missing UDF ID or Path" ∧
      dremioFolderDataSource.lookup id path mc = .diagnostic "Missing Folder ID or Path") ∧
    (id ≠ "" → path.len = 0 →
      dremioTableDataSource.lookup id path = .get ("/catalog/" ++ id) ∧
      dremioViewDataSource.lookup id path = .get ("/catalog/" ++ id) ∧
      dremioUDFDataSource.lookup id path = .get ("/catalog/" ++ id) ∧
      dremioFolderDataSource.lookup id path mc
        = .get ("/catalog/" ++ id ++ maxChildrenQuery mc)) ∧
    (id = "" → path.len > 0 →
      dremioTableDataSource.lookup id path
        = .get ("/catalog/by-path/" ++ ("/" ++ stringsJoin path.elems "/")) ∧
      dremioViewDataSource.lookup id path
        = .get ("/catalog/by-path/" ++ ("/" ++ stringsJoin path.elems "/")) ∧
      dremioUDFDataSource.lookup id path
        = .get ("/catalog/by-path/" ++ ("/" ++ stringsJoin path.elems "/")) ∧
      dremioFolderDataSource.lookup id path mc
        = .get ("/catalog/by-path/" ++ ("/" ++ stringsJoin path.elems "/")
            ++ maxChildrenQuery mc)) ∧
    maxChildrenQuery .null = "" := by
  refine ⟨?_, ?_, ?_, ?_, rfl⟩
  · intro hid hp
    have hp0 : ¬ path.len = 0 := by omega
    simp [dremioTableDataSource.lookup, dremioViewDataSource.lookup,
      dremioUDFDataSource.lookup, dremioFolderDataSource.lookup, hid, hp, hp0]
  · intro hid hp
    simp [dremioTableDataSource.lookup, dremioViewDataSource.lookup,
      dremioUDFDataSource.lookup, dremioFolderDataSource.lookup, hid, hp]
  · intro hid hp
    simp [dremioTableDataSource.lookup, dremioViewDataSource.lookup,
      dremioUDFDataSource.lookup, dremioFolderDataSource.lookup, hid, hp]
  · intro hid hp
    have hp0 : ¬ path.len = 0 := by omega
    simp [dremioTableDataSource.lookup, dremioViewDataSource.lookup,
      dremioUDFDataSource.lookup, dremioFolderDataSource.lookup, hid, hp, hp0]

/-- C14 at the id "abc" and the path `["src", "t"]`, and through the start of
`Read` on the configuration attributes. -/
theorem C14_lookup_exactly_one_witness :
    dremioTableDataSource.lookup "abc" (some ["src", "t"])
      = .diagnostic "Both Table ID and Path specified" ∧
    dremioViewDataSource.lookup "" none = .diagnostic "Missing View ID or Path" ∧
    dremioUDFDataSource.lookup "abc" (some []) = .get "/catalog/abc" ∧
    dremioFolderDataSource.lookup "" (some ["src", "t"]) .null = .get "/catalog/by-path//src/t" ∧
    dremioTableDataSource.Read (.known "abc") .null = .get "/catalog/abc" ∧
    dremioTableDataSource.Read .null (.known [.known "src", .known "t"])
      = .get "/catalog/by-path//src/t" :=
  ⟨((C14_lookup_exactly_one "abc" (some ["src", "t"]) .null).1 (by decide) (by decide)).1,
    ((C14_lookup_exactly_one "" none .null).2.1 rfl rfl).2.1,
    ((C14_lookup_exactly_one "abc" (some []) .null).2.2.1 (by decide) rfl).2.2.1,
    ((C14_lookup_exactly_one "" (some ["src", "t"]) .null).2.2.2.1 rfl (by decide)).2.2.2,
    ((C14_lookup_exactly_one "abc" none .null).2.2.1 (by decide) rfl).1,
    ((C14_lookup_exactly_one "" (some ["src", "t"]) .null).2.2.2.1 rfl (by decide)).1⟩

/-! ## The path-segment validator -/

/-- C15: the validator `^[^/:[\]]*$` accepts a string if and only if the string
contains none of the characters `/`, `:`, `[` and `]`; the empty string is
accepted. -/
theorem C15_path_segment_validator (s : String) :
    (pathSegmentValid s = true ↔
      ∀ c ∈ s.toList, c ≠ '/' ∧ c ≠ ':' ∧ c ≠ '[' ∧ c ≠ ']') ∧
    pathSegmentValid "" = true := by
  refine ⟨?_, rfl⟩
  unfold pathSegmentValid pathSegmentRegex
  rw [Regex.fullMatch_star_noneOf]
  simp [List.all_eq_true]

/-! ## Provider configuration and construction of the client -/

/-- C16: in `Configure`, each of host, personal access token, account type and
project id resolves to the configuration value when that value is a non-empty
string and otherwise to the environment variable (`DREMIO_HOST`, `DREMIO_PAT`,
`DREMIO_TYPE`, `DREMIO_PROJECT_ID`); and a client that `Configure` creates holds
the resolved values (the account type being "cloud" when it resolves to the empty
string). -/
theorem C16_config_overrides_environment (getenv : String → String)
    (config : dremioProviderModel) :
    ((config.Host.valueOr "" ≠ "" →
        (resolveSettings getenv config).host = config.Host.valueOr "") ∧
      (config.Host.valueOr "" = "" →
        (resolveSettings getenv config).host = getenv "DREMIO_HOST")) ∧
    ((config.PersonalAccessToken.valueOr "" ≠ "" →
        (resolveSettings getenv config).personalAccessToken
          = config.PersonalAccessToken.valueOr "") ∧
      (config.PersonalAccessToken.valueOr "" = "" →
        (resolveSettings getenv config).personalAccessToken = getenv "DREMIO_PAT")) ∧
    ((config.Ptype.valueOr "" ≠ "" →
        (resolveSettings getenv config).ptype = config.Ptype.valueOr "") ∧
      (config.Ptype.valueOr "" = "" →
        (resolveSettings getenv config).ptype = getenv "DREMIO_TYPE")) ∧
    ((config.ProjectId.valueOr "" ≠ "" →
        (resolveSettings getenv config).projectId = config.ProjectId.valueOr "") ∧
      (config.ProjectId.valueOr "" = "" →
        (resolveSettings getenv config).projectId = getenv "DREMIO_PROJECT_ID")) ∧
    (∀ env r cl, DremioProvider.Configure env getenv config = some r → r.client = some cl →
      cl.HostURL = (resolveSettings getenv config).host ∧
      cl.PersonalAccessToken = (resolveSettings getenv config).personalAccessToken ∧
      cl.ProjectId = (resolveSettings getenv config).projectId ∧
      cl.Type_ = (if (resolveSettings getenv config).ptype = "" then "cloud"
        else (resolveSettings getenv config).ptype)) := by
  refine ⟨⟨?_, ?_⟩, ⟨?_, ?_⟩, ⟨?_, ?_⟩, ⟨?_, ?_⟩, ?_⟩
  · intro h
    simp [resolveSettings, h]
  · intro h
    simp [resolveSettings, h]
  · intro h
    simp [resolveSettings, h]
  · intro h
    simp [resolveSettings, h]
  · intro h
    simp [resolveSettings, h]
  · intro h
    simp [resolveSettings, h]
  · intro h
    simp [resolveSettings, h]
  · intro h
    simp [resolveSettings, h]
  · intro env r cl h hcl
    unfold DremioProvider.Configure at h
    simp only at h
    by_cases hd : (configureDiagnostics (resolveSettings getenv config)).HasError = true
    · rw [if_pos hd] at h
      simp only [Option.some.injEq] at h
      subst h
      simp at hcl
    · rw [if_neg hd] at h
      cases hn : NewClient env (some (resolveSettings getenv config).host)
          (some (resolveSettings getenv config).personalAccessToken)
          (some (effectivePtype (resolveSettings getenv config)))
          (some (resolveSettings getenv config).projectId) with
      | none => simp [hn] at h
      | some res =>
        obtain ⟨client, err⟩ := res
        cases err with
        | some e =>
          simp only [hn, Option.some.injEq] at h
          subst h
          simp at hcl
        | none =>
          simp only [hn, Option.some.injEq] at h
          subst h
          simp only at hcl
          subst hcl
          have := NewClient_client env _ _ _ _ _ _ hn
          subst this
          exact ⟨rfl, rfl, rfl, rfl⟩

/-- C16 at a configuration giving host and type, with host and token in the
environment: the configured host wins, the token comes from the environment, and
the client created holds them. -/
theorem C16_config_overrides_environment_witness :
    (resolveSettings sampleGetenv sampleProviderConfig).host = "https://cfg.example" ∧
    (resolveSettings sampleGetenv sampleProviderConfig).personalAccessToken = "envtok" ∧
    (∃ r cl, DremioProvider.Configure (constEnv 200 "ok") sampleGetenv sampleProviderConfig
        = some r ∧ r.client = some cl ∧ cl.HostURL = "https://cfg.example" ∧
        cl.PersonalAccessToken = "envtok") :=
  have h := C16_config_overrides_environment sampleGetenv sampleProviderConfig
  ⟨h.1.1 (by decide), h.2.1.2 rfl,
    ⟨_, _, rfl, rfl, (h.2.2.2.2 (constEnv 200 "ok") _ _ rfl rfl).1,
      (h.2.2.2.2 (constEnv 200 "ok") _ _ rfl rfl).2.1⟩⟩

/-- C17 fails on the code: with no host in the configuration and no `DREMIO_HOST`
(a token and the account type "software" being supplied), `Configure` does not
fall back to `HostURL`; it reports "Unknown Dremio API Host" and creates no
client, whatever the server would answer. -/
theorem C17_no_host_is_an_error (env : HttpEnv) :
    (resolveSettings noHostGetenv emptyProviderConfig).host = "" ∧
    DremioProvider.Configure env noHostGetenv emptyProviderConfig
      = some { Diagnostics := ["Unknown Dremio API Host"], client := none } := by
  exact ⟨rfl, rfl⟩

/-- C18: with a host and a token given, when the probe `GET /catalog` is answered
with status `s`, `NewClient` returns the client and a nil error if `s` is 200, and
no client and an error for every other status, 201 to 299 included. -/
theorem C18_probe_requires_200 (env : HttpEnv) (host pat ty pid : String) (s : Int)
    (b : String)
    (h : getAnswered env
      { HostURL := host, PersonalAccessToken := pat, Type_ := ty, ProjectId := pid }
      "/catalog" s b) :
    (s = 200 →
      NewClient env (some host) (some pat) (some ty) (some pid)
        = some (some { HostURL := host, PersonalAccessToken := pat, Type_ := ty,
                       ProjectId := pid }, none)) ∧
    (s ≠ 200 →
      ∃ err, NewClient env (some host) (some pat) (some ty) (some pid)
        = some (none, some err)) := by
  rw [NewClient_all_given, testPAT_of_answered env _ s b h]
  constructor
  · intro hs
    subst hs
    simp [checkStatus]
  · intro hs
    by_cases h2 : s < 200 ∨ s ≥ 300
    · simp [checkStatus, h2, hs]
    · simp [checkStatus, h2, hs]

/-- C18 at a probe answered 200 (the client is returned) and at one answered 204
(construction fails although the status is 2xx). -/
theorem C18_probe_requires_200_witness :
    NewClient (constEnv 200 "ok") (some "H") (some "tok") (some "cloud") (some "P")
      = some (some cloudClient, none) ∧
    (∃ err, NewClient (constEnv 204 "") (some "H") (some "tok") (some "cloud") (some "P")
      = some (none, some err)) :=
  ⟨(C18_probe_requires_200 (constEnv 200 "ok") "H" "tok" "cloud" "P" 200 "ok"
      ⟨_, rfl, rfl⟩).1 rfl,
    (C18_probe_requires_200 (constEnv 204 "") "H" "tok" "cloud" "P" 204 ""
      ⟨_, rfl, rfl⟩).2 (by decide)⟩

/-- C19 fails on the code for a nil token: `NewClient` dereferences
`personalAccessToken` in the struct literal before it tests it for nil, so the
call does not return; for a nil host (the other three given) it returns the client
on the default host with a nil error, without a probe. -/
theorem C19_nil_token_does_not_return (env : HttpEnv) :
    NewClient env (some "H") none (some "cloud") (some "P") = none ∧
    NewClient env none (some "tok") (some "cloud") (some "P")
      = some (some { HostURL := "https://api.dremio.cloud", PersonalAccessToken := "tok",
                     Type_ := "cloud", ProjectId := "P" }, none) := by
  exact ⟨rfl, rfl⟩

/-- C20 fails on the code: for a probe answered with status 401 and the body
"Unauthorized", the error of `NewClient` is "login failed. status: 401, body: ":
it carries the status but not the body, which `RequestToDremio` had already read
to its end before `testPAT` read it again. -/
theorem C20_probe_error_drops_body :
    NewClient (constEnv 401 "Unauthorized") (some "H") (some "tok") (some "cloud") (some "P")
      = some (none, some "login failed. status: 401, body: ") ∧
    stringsContains "login failed. status: 401, body: " "401" = true ∧
    stringsContains "login failed. status: 401, body: " "Unauthorized" = false := by
  refine ⟨rfl, ?_, ?_⟩
  · decide
  · decide

/-- The error of `NewClient` for every probe answered with a non-2xx status: the
status is reported, the body text is empty. -/
theorem NewClient_non2xx_error (env : HttpEnv) (host pat ty pid : String) (s : Int)
    (b : String)
    (h : getAnswered env
      { HostURL := host, PersonalAccessToken := pat, Type_ := ty, ProjectId := pid }
      "/catalog" s b)
    (hs : s < 200 ∨ s ≥ 300) :
    NewClient env (some host) (some pat) (some ty) (some pid)
      = some (none, some ("login failed. status: " ++ toString s ++ ", body: " ++ "")) := by
  rw [NewClient_all_given, testPAT_of_answered env _ s b h]
  have h200 : s ≠ 200 := by omega
  simp [checkStatus, hs, h200]

/-! ## Missing wire fields in the source response -/

/-- C21 fails on the code: for a parsed response that carries id, tag and name but
no type, `fromResponseToState` of the source dereferences the nil `Type` pointer
and does not return, whatever the model; only a missing id is handled (the model
is left as it is and the diagnostic "Invalid API Response" is recorded). -/
theorem C21_missing_type_does_not_return (m : DremioSourceModel) :
    sourceResponseWithoutType.ID = some "abc" ∧
    dremioSource.fromResponseToState sourceResponseWithoutType m = none ∧
    dremioSource.fromResponseToState { sampleSourceResponse with ID := none } m
      = some (m, ["Invalid API Response"]) := by
  exact ⟨rfl, rfl, rfl⟩

/-! ## The inline metadata-policy handling of the source resource -/

/-- C28: for a source response with id, type, name and tag, whatever its metadata
policy (nil or populated) and whatever the prior `metadata_policy` (null, unknown or
known), `fromResponseToState` returns a model whose `metadata_policy` is the value
`ConvertMetadataPolicyToTerraform` gives on the same two inputs. -/
theorem C28_inline_matches_helper (resp : SourceResponse) (state : DremioSourceModel)
    (id ty name tag : String) (hid : resp.ID = some id) (hty : resp.Type_ = some ty)
    (hname : resp.Name = some name) (htag : resp.Tag = some tag) :
    ∃ st d, dremioSource.fromResponseToState resp state = some (st, d) ∧
      st.MetadataPolicy
        = (ConvertMetadataPolicyToTerraform resp.MetadataPolicy state.MetadataPolicy).1 := by
  simp only [dremioSource.fromResponseToState, hid, hty, hname, htag]
  refine ⟨_, _, rfl, ?_⟩
  cases hmp : resp.MetadataPolicy <;> cases hst : state.MetadataPolicy <;>
    simp [ConvertMetadataPolicyToTerraform, TfValue.IsNull]

/-- C28 at a server policy with one default, with a prior policy that is known and
with one that is null. -/
theorem C28_inline_matches_helper_witness :
    (∃ st d, dremioSource.fromResponseToState sampleSourceResponse sampleSourceStateWithPolicy
        = some (st, d) ∧
      st.MetadataPolicy
        = (ConvertMetadataPolicyToTerraform (some sampleApiMetadataPolicy)
            (.known sampleMetadataPolicyModel)).1) ∧
    (∃ st d, dremioSource.fromResponseToState sampleSourceResponse sampleSourceModel
        = some (st, d) ∧
      st.MetadataPolicy = (ConvertMetadataPolicyToTerraform (some sampleApiMetadataPolicy)
        .null).1) :=
  ⟨C28_inline_matches_helper sampleSourceResponse sampleSourceStateWithPolicy "abc" "S3" "foo"
      "v1" rfl rfl rfl rfl,
    C28_inline_matches_helper sampleSourceResponse sampleSourceModel "abc" "S3" "foo" "v1"
      rfl rfl rfl rfl⟩

/-! ## The request body of the grants resource -/

/-- C22 fails on the code: for a grants model whose `grants` set is empty, the body
of the PUT that Create and Update send has a nil `Grants` slice, written
`"grants": null`, whereas the body that Delete sends has the empty non-nil slice,
written `"grants": []`. -/
theorem C22_empty_grants_sent_as_null
    (send : ApiCall GrantsRequest → Option HttpResponse × Option String) :
    dremioGrants.putCall emptyGrantsModel
      = some { method := "PUT", path := "/catalog/obj1/grants",
               body := some { ID := "", Grants := none, Tag := "" } } ∧
    (GrantsRequest.toJson { ID := "", Grants := none, Tag := "" }).member? "grants"
      = some Json.null ∧
    (dremioGrants.Delete send emptyGrantsModel).1
      = [{ method := "PUT", path := "/catalog/obj1/grants",
           body := some { ID := "", Grants := some [], Tag := "" } }] ∧
    (GrantsRequest.toJson { ID := "", Grants := some [], Tag := "" }).member? "grants"
      = some (Json.arr []) ∧
    Json.null ≠ Json.arr [] := by
  refine ⟨rfl, rfl, ?_, rfl, ?_⟩
  · unfold dremioGrants.Delete
    dsimp only
    split <;> rfl
  · intro h
    cases h

/-! ## The request body of the data maintenance task -/

/-- C23 fails on the code when `is_enabled` is false: the request struct holds the
model's `is_enabled`, type and table id, but its JSON has an `isEnabled` member
only when the value is true, because the member is tagged `omitempty`; for the
disabled sample task the body has `type` and `config.tableId` and no `isEnabled`. -/
theorem C23_is_enabled_false_is_omitted (data : DremioDataMaintenanceModel) :
    (ConvertMaintenanceTaskFromTerraform data).1.IsEnabled = data.IsEnabled.valueOr false ∧
    (ConvertMaintenanceTaskFromTerraform data).1.toJson.member? "isEnabled"
      = (if data.IsEnabled.valueOr false then some (Json.bool true) else none) ∧
    (ConvertMaintenanceTaskFromTerraform disabledMaintenanceModel).1.toJson.member? "isEnabled"
      = none ∧
    (ConvertMaintenanceTaskFromTerraform disabledMaintenanceModel).1.toJson.member? "type"
      = some (Json.str "OPTIMIZE") ∧
    (ConvertMaintenanceTaskFromTerraform disabledMaintenanceModel).1.toJson.member? "config"
      = some (Json.obj [("tableId", Json.str "folder1.table1")]) := by
  refine ⟨rfl, ?_, rfl, rfl, rfl⟩
  cases h : data.IsEnabled.valueOr false <;>
    simp [ConvertMaintenanceTaskFromTerraform, MaintenanceTaskRequest.toJson, Json.member?, h,
      List.lookup]

/-- C24 fails on the code: `Create` passes the create response through
`fromResponseToState` before it tests the access control list, so the list it then
tests and sends is the one of the response, not the planned one. For the folder
planned with `sampleACLModel`, a create response without an access control list
leaves the POST as the only call and a null list in the saved state, whatever that
response holds otherwise and whatever the update would answer; a create response
with the server's own list makes the PUT to `/catalog/f1` carry that list, which is
not the conversion of the planned one. The UDF `Create` likewise makes no PUT when
the create response has no access control list. -/
theorem C24_create_sends_response_acl (folderResp : FolderResponse) (udfResp : UDFResponse)
    (put : String → FolderUpdateRequest → Except String FolderResponse)
    (putUDF : String → UDFRequest → Except String UDFResponse) :
    (dremioFolder.Create (fun _ => .ok { folderResp with AccessControlList := none }) put
        folderPlanWithACL).calls
      = [.post "/catalog" { EntityType := "folder", Path := some ["src", "dir"] }] ∧
    (dremioFolder.Create (fun _ => .ok { folderResp with AccessControlList := none }) put
        folderPlanWithACL).State.map (fun s => s.AccessControlList) = some .null ∧
    (dremioFolder.Create (fun _ => .ok folderCreatedResponseWithACL) folderPut
        folderPlanWithACL).calls
      = [.post "/catalog" { EntityType := "folder", Path := some ["src", "dir"] },
         .put "/catalog/f1"
           { EntityType := "folder", ID := "f1", Path := some ["src", "dir"], Tag := "v1",
             AccessControlList := some serverDefaultACL }] ∧
    (ConvertACLFromTerraform (.known sampleACLModel)).1
      = some { Users := some [{ ID := "u1", Permissions := some ["SELECT"] }],
               Roles := some [{ ID := "r1", Permissions := some [] }] } ∧
    (ConvertACLFromTerraform (.known sampleACLModel)).1 ≠ some serverDefaultACL ∧
    (dremioUDF.Create (fun _ => .ok { udfResp with AccessControlList := none }) putUDF
        udfPlanWithACL).calls.map (fun c => c.method) = ["POST"] ∧
    (dremioUDF.Create (fun _ => .ok { udfResp with AccessControlList := none }) putUDF
        udfPlanWithACL).State.map (fun s => s.AccessControlList) = some .null := by
  refine ⟨rfl, rfl, rfl, rfl, by decide, rfl, rfl⟩

/-- C25 fails on the code for a failure without a response: when `HTTPClient.Do`
fails, `RequestToDremio` returns a nil response and the engine `Delete` dereferences
it, so it does not return and reports no diagnostic. When the server does answer,
with any status `s` and body `b`, `Delete` returns, without an error exactly when
`s` is a 2xx status, 404 or 400, and with the one error diagnostic otherwise. -/
theorem C25_delete_transport_failure_does_not_return (c : Client) (id : String) (s : Int)
    (b : String) :
    dremioEngine.Delete unreachableEnv c id = none ∧
    dremioEngine.Delete (constEnv s b) c id
      = some (if (200 ≤ s ∧ s < 300) ∨ s = 404 ∨ s = 400 then []
              else ["Unable to delete engine, got error: " ++
                    ("API request failed with status " ++ toString s ++ ": " ++ b)]) := by
  constructor
  · rfl
  · by_cases h : s < 200 ∨ s ≥ 300
    · have hn : ¬ (200 ≤ s ∧ s < 300) := by omega
      by_cases h4 : s = 404 ∨ s = 400
      · simp [dremioEngine.Delete, RequestToDremio, prepareRequest, constEnv, checkStatus, h,
          h4, hn]
      · simp [dremioEngine.Delete, RequestToDremio, prepareRequest, constEnv, checkStatus, h,
          h4, hn]
    · have hy : 200 ≤ s ∧ s < 300 := by omega
      simp [dremioEngine.Delete, RequestToDremio, prepareRequest, constEnv, checkStatus, h, hy]

/-- C26 fails on the code: `Create` of the dataset tags sends the tags with POST in
both cases. For every dataset id, known tags, answer `existingTagResp` of the
preliminary GET and answer of the server, the calls are that GET and one POST to
the same path, never a PUT, although the version found is not empty (the sample
has version `v7`); the body of the POST does carry the tags and the version found. -/
theorem C26_create_always_posts (id : String) (tags : List String) (ver : TfValue String)
    (existingTagResp : TagResponse) (send : ApiCall TagRequest → Except String TagResponse) :
    (dremioDatasetTags.Create (fun _ => some existingTagResp) send
        { DatasetID := .known id, Tags := .known (tags.map TfValue.known), Version := ver }).calls
      = [{ method := "GET", path := "/catalog/" ++ id ++ "/collaboration/tag", body := none },
         { method := "POST", path := "/catalog/" ++ id ++ "/collaboration/tag",
           body := some { Tags := some tags, Version := existingTagResp.Version } }] ∧
    (dremioDatasetTags.Create (fun _ => some { Tags := some ["old"], Version := "v7" })
        (fun call => .ok { Tags := (call.body.map (fun b => b.Tags)).join, Version := "v8" })
        { DatasetID := .known "d1", Tags := .known [.known "x", .known "y"],
          Version := .unknown }).calls.map (fun call => call.method) = ["GET", "POST"] ∧
    "POST" ≠ "PUT" := by
  refine ⟨?_, rfl, by decide⟩
  have hp : dremioDatasetTags.parseResourceToRequestBody
      { DatasetID := .known id, Tags := .known (tags.map TfValue.known), Version := ver }
      = (some { Tags := some tags, Version := "" }, []) := by
    simp [dremioDatasetTags.parseResourceToRequestBody, ElementsAsStrings_known]
  unfold dremioDatasetTags.Create
  rw [hp]
  by_cases hv : existingTagResp.Version = ""
  · simp only [TfValue.valueOr, hv]
    split <;> simp
  · simp only [TfValue.valueOr, hv]
    split <;> simp [hv]

/-- C27: for a plan whose `rule_infos` is a known list, and any answer to the GET of
`/rules`, `parseResourceToRequestBody` returns a request without a diagnostic, and the
rules of its rule set are, in the order of the plan, one rule for every known rule
object: name, condition, action and reject message are the planned strings, and the
engine name is empty when the action is `REJECT` and the planned one otherwise. -/
theorem C27_reject_rules_have_no_engine (objs : List (TfValue RuleInfoModel))
    (ruleInfoDefault : TfValue RuleInfoModel) (tag : TfValue String)
    (currentRules : EngineRulesResponse) :
    ∃ rs,
      dremioEngineRuleSet.parseResourceToRequestBody (.ok currentRules)
          { RuleInfos := .known objs, RuleInfoDefault := ruleInfoDefault, Tag := tag }
        = (some { RuleSet := some rs }, []) ∧
      rs.RuleInfos.elems
        = (objs.filterMap fun o => match o with | .known m => some m | _ => none).map fun m =>
            some
              { Name := m.Name.valueOr ""
                Condition := m.Condition.valueOr ""
                EngineName :=
                  if m.Action.valueOr "" = "REJECT" then "" else m.EngineName.valueOr ""
                Action := m.Action.valueOr ""
                RejectMessage := m.RejectMessage.valueOr "" } := by
  simp only [dremioEngineRuleSet.parseResourceToRequestBody, TfValue.IsNull,
    TfValue.IsUnknown, ElementsAsObjects]
  refine ⟨_, rfl, ?_⟩
  simpa [GoSlice.elems] using appendRuleInfos_elems objs none

/-- C29: in the engine data source, with a non-empty name `nm` configured (and any
id), the path requested is `/engines`; when the listing is received and decoded to
`engines`, the state set holds the attributes of the first engine of the listing
named `nm` (every engine before it has another name): its id, its name, which is
`nm`, and each of its other fourteen attributes as known values, which is what
`mapResponseToState` gives for that engine; no diagnostic is added. The `Not Found`
error is reported exactly when no listed engine is named `nm`, and then no state
is set. -/
theorem C29_first_engine_with_name (get : String → Except String String)
    (parseList : String → Except String (GoSlice EngineResponse))
    (parseOne : String → Except String EngineResponse)
    (data : DremioEngineDataSourceModel) (nm body : String) (engines : GoSlice EngineResponse)
    (hname : data.Name.valueOr "" = nm) (hne : nm ≠ "")
    (hget : get "/engines" = .ok body) (hparse : parseList body = .ok engines) :
    dremioEngineDataSource.apiPath data = "/engines" ∧
    (∀ pre e post, engines.elems = pre ++ e :: post → e.Name = nm →
      (∀ x ∈ pre, x.Name ≠ nm) →
      (dremioEngineDataSource.Read get parseList parseOne data).State
          = some
              { ID := .known e.ID
                Name := .known nm
                Size := .known e.Size
                MinReplicas := .known e.MinReplicas
                MaxReplicas := .known e.MaxReplicas
                AutoStopDelaySeconds := .known e.AutoStopDelaySeconds
                QueueTimeLimitSeconds := .known e.QueueTimeLimitSeconds
                RuntimeLimitSeconds := .known e.RuntimeLimitSeconds
                DrainTimeLimitSeconds := .known e.DrainTimeLimitSeconds
                MaxConcurrency := .known e.MaxConcurrency
                Description := .known e.Description
                State := .known e.State
                ActiveReplicas := .known e.ActiveReplicas
                QueriedAt := .known e.QueriedAt
                StatusChangedAt := .known e.StatusChangedAt
                AdditionalEngineStateInfo := .known e.AdditionalEngineStateInfo } ∧
        (dremioEngineDataSource.Read get parseList parseOne data).State
          = some (dremioEngineDataSource.mapResponseToState e data) ∧
        (dremioEngineDataSource.Read get parseList parseOne data).Diagnostics = []) ∧
    ("Not Found" ∈ (dremioEngineDataSource.Read get parseList parseOne data).Diagnostics
      ↔ ∀ x ∈ engines.elems, x.Name ≠ nm) ∧
    ((∀ x ∈ engines.elems, x.Name ≠ nm) →
      (dremioEngineDataSource.Read get parseList parseOne data).State = none ∧
      (dremioEngineDataSource.Read get parseList parseOne data).Diagnostics = ["Not Found"]) := by
  have hne2 : data.Name.valueOr "" ≠ "" := by rw [hname]; exact hne
  have hpath : dremioEngineDataSource.apiPath data = "/engines" := by
    simp [dremioEngineDataSource.apiPath, hne2]
  refine ⟨hpath, ?_, ?_, ?_⟩
  · intro pre e post hsplit he hpre
    have hfind := findEngine_first pre post e nm he hpre
    rw [← hsplit] at hfind
    have hstate : (dremioEngineDataSource.Read get parseList parseOne data).State
        = some (dremioEngineDataSource.mapResponseToState e data) := by
      simp [dremioEngineDataSource.Read, hpath, hget, hparse, hname, hne, hfind]
    refine ⟨?_, hstate, ?_⟩
    · rw [hstate, ← he]
      rfl
    · simp [dremioEngineDataSource.Read, hpath, hget, hparse, hname, hne, hfind]
  · rw [← findEngine_eq_none_iff]
    cases hf : dremioEngineDataSource.findEngine engines.elems nm with
    | none => simp [dremioEngineDataSource.Read, hpath, hget, hparse, hname, hne, hf]
    | some e => simp [dremioEngineDataSource.Read, hpath, hget, hparse, hname, hne, hf]
  · intro hnone
    have hf := (findEngine_eq_none_iff engines.elems nm).mpr hnone
    simp [dremioEngineDataSource.Read, hpath, hget, hparse, hname, hne, hf]

/-- C29 at a listing of the engines `e1` named `preview`, `e2` named `prod` and `e3`
named `prod`, with the name `prod` configured next to the id `e9`: the state set
has the id `e2`, the first of the two engines named `prod`, with the attributes
of that engine. -/
theorem C29_first_engine_with_name_witness :
    (dremioEngineDataSource.Read engineListGet engineListParse (fun _ => .error "unused")
        engineByNameConfig).State
      = some
          { ID := .known "e2"
            Name := .known "prod"
            Size := .known "SMALL_V1"
            MinReplicas := .known 0
            MaxReplicas := .known 1
            AutoStopDelaySeconds := .known 300
            QueueTimeLimitSeconds := .known 300
            RuntimeLimitSeconds := .known 0
            DrainTimeLimitSeconds := .known 1800
            MaxConcurrency := .known 2
            Description := .known ""
            State := .known "ENABLED"
            ActiveReplicas := .known 0
            QueriedAt := .known ""
            StatusChangedAt := .known ""
            AdditionalEngineStateInfo := .known "NONE" } :=
  ((C29_first_engine_with_name engineListGet engineListParse (fun _ => .error "unused")
      engineByNameConfig "prod" "list"
      (some [sampleEngine "e1" "preview", sampleEngine "e2" "prod", sampleEngine "e3" "prod"])
      rfl (by decide) rfl rfl).2.1
    [sampleEngine "e1" "preview"] (sampleEngine "e2" "prod") [sampleEngine "e3" "prod"]
    rfl rfl (by decide)).1

/-- C30: a lookup configured with no id and the path segments `segs` (at least one)
requests, in the table, view, UDF and file data sources, the path `/catalog/by-path/`
followed by `/` and the segments joined by `/`; the folder data source requests the
same path, followed by its `?maxChildren=` query when `max_children` is set. The path
requested contains `by-path//` and every segment as it was given. -/
theorem C30_by_path_request (segs : List String) (mc : TfValue Int) (h : segs ≠ []) :
    dremioTableDataSource.Read .null (.known (segs.map TfValue.known))
      = .get ("/catalog/by-path/" ++ ("/" ++ stringsJoin segs "/")) ∧
    dremioViewDataSource.Read .null (.known (segs.map TfValue.known))
      = .get ("/catalog/by-path/" ++ ("/" ++ stringsJoin segs "/")) ∧
    dremioUDFDataSource.Read .null (.known (segs.map TfValue.known))
      = .get ("/catalog/by-path/" ++ ("/" ++ stringsJoin segs "/")) ∧
    dremioFileDataSource.Read (.known (segs.map TfValue.known))
      = .get ("/catalog/by-path/" ++ ("/" ++ stringsJoin segs "/")) ∧
    dremioFolderDataSource.Read .null (.known (segs.map TfValue.known)) mc
      = .get ("/catalog/by-path/" ++ ("/" ++ stringsJoin segs "/") ++ maxChildrenQuery mc) ∧
    dremioFolderDataSource.Read .null (.known (segs.map TfValue.known)) .null
      = .get ("/catalog/by-path/" ++ ("/" ++ stringsJoin segs "/") ++ "") ∧
    stringsContains ("/catalog/by-path/" ++ ("/" ++ stringsJoin segs "/") ++ maxChildrenQuery mc)
      "by-path//" = true ∧
    ∀ s ∈ segs,
      stringsContains
        ("/catalog/by-path/" ++ ("/" ++ stringsJoin segs "/") ++ maxChildrenQuery mc) s
        = true := by
  have hlen : ¬ segs.length = 0 := by
    intro h0
    exact h (List.length_eq_zero.mp h0)
  have hpos : 0 < segs.length := Nat.pos_of_ne_zero hlen
  refine ⟨?_, ?_, ?_, ?_, ?_, ?_, ?_, ?_⟩
  · simp [dremioTableDataSource.Read, lookupPathList_known, dremioTableDataSource.lookup,
      lookupID, TfValue.IsNull, GoSlice.len, GoSlice.elems, hlen]
  · simp [dremioViewDataSource.Read, lookupPathList_known, dremioViewDataSource.lookup,
      lookupID, TfValue.IsNull, GoSlice.len, GoSlice.elems, hlen]
  · simp [dremioUDFDataSource.Read, lookupPathList_known, dremioUDFDataSource.lookup,
      lookupID, TfValue.IsNull, GoSlice.len, GoSlice.elems, hlen]
  · simp [dremioFileDataSource.Read, lookupPathList_known, dremioFileDataSource.lookup,
      GoSlice.len, GoSlice.elems, hlen]
  · simp [dremioFolderDataSource.Read, lookupPathList_known, dremioFolderDataSource.lookup,
      lookupID, TfValue.IsNull, GoSlice.len, GoSlice.elems, hlen]
  · simp [dremioFolderDataSource.Read, lookupPathList_known, dremioFolderDataSource.lookup,
      lookupID, TfValue.IsNull, GoSlice.len, GoSlice.elems, hlen, maxChildrenQuery]
  · have hs : stringsContains "by-path//" "by-path//" = true := containsChars_self _
    have := stringsContains_middle "/catalog/" "by-path//"
      (stringsJoin segs "/" ++ maxChildrenQuery mc) "by-path//" hs
    have he : "/catalog/by-path/" ++ ("/" ++ stringsJoin segs "/") ++ maxChildrenQuery mc
        = "/catalog/" ++ "by-path//" ++ (stringsJoin segs "/" ++ maxChildrenQuery mc) := by
      apply String.ext
      simp [String.toList]
    rw [he]
    exact this
  · intro s hs
    have := stringsContains_middle "/catalog/by-path//" (stringsJoin segs "/")
      (maxChildrenQuery mc) s (stringsJoin_contains segs "/" s hs)
    have he : "/catalog/by-path/" ++ ("/" ++ stringsJoin segs "/") ++ maxChildrenQuery mc
        = "/catalog/by-path//" ++ stringsJoin segs "/" ++ maxChildrenQuery mc := by
      apply String.ext
      simp [String.toList]
    rw [he]
    exact this

/-- C30 at the path `src`, `dir one`, `t/1`: the table data source requests
`/catalog/by-path//src/dir one/t/1`, the space and the slash of the segments as given. -/
theorem C30_by_path_request_witness :
    dremioTableDataSource.Read .null (.known [.known "src", .known "dir one", .known "t/1"])
      = .get "/catalog/by-path//src/dir one/t/1" :=
  (C30_by_path_request ["src", "dir one", "t/1"] .null (by decide)).1

end Dremio
